import Mathlib

/-!
# Plex media integration: session discovery, transport and command dispatch

A shallow embedding of `src/src/plexmedia.cpp` (class `PlexMedia`) and of the
token renewal of `src/spotify.cpp` (`SpotifyBase::refreshAccessToken`).

* Member fields of the C++ objects become fields of a structure; a member
  function becomes a function on `World`, the object together with the entity
  registry, the connections of the `requestReady` signal and the trace of
  everything the object sent or published.
* A lambda connected to a signal becomes a constructor of `Handler`
  (defunctionalised closure, with the variables it captures by value); the
  network answers are separate entry points (`getReply`, `postReply`, ...).
* `QVariant` values obtained from JSON are modelled by the inductive type
  `QVariant`; floating point JSON numbers are not modelled.
-/

namespace Plex

/-! ## QVariant -/

/-- The fragment of `QVariant` that the program reads out of JSON documents and
command parameters. -/
inductive QVariant where
  | invalid : QVariant
  | bool : Bool → QVariant
  | int : Int → QVariant
  | string : String → QVariant
  | list : List QVariant → QVariant
  | map : List (String × QVariant) → QVariant

instance : Inhabited QVariant := ⟨QVariant.invalid⟩

/-- A `QVariantMap`, as an association list; the first binding of a key counts. -/
abbrev QVariantMap := List (String × QVariant)

/-- The call `map.value(key)`: the value, or a default constructed (invalid) variant. -/
def QVariantMap.value (m : QVariantMap) (key : String) : QVariant :=
  (m.lookup key).getD QVariant.invalid

/-- The call `map.contains(key)`. -/
def QVariantMap.contains (m : QVariantMap) (key : String) : Bool :=
  (m.lookup key).isSome

/-- Smallest value of the C++ type `int`. -/
def INT_MIN : Int := -2147483648

/-- Largest value of the C++ type `int`. -/
def INT_MAX : Int := 2147483647

/-- The value of an `int` sum or difference whose mathematical value is `n`:
`n` itself when it fits 32 bits. Past the ends signed overflow has no defined
behaviour in C++; the model takes the two's complement result. -/
def wrapInt32 (n : Int) : Int := (n + 2147483648) % 4294967296 - 2147483648

/-- The value of a run of decimal digits, read from the left onto `acc`. -/
def parseDigits : List Char → Nat → Option Nat
  | [], acc => some acc
  | c :: cs, acc =>
    if 48 ≤ c.toNat ∧ c.toNat ≤ 57 then parseDigits cs (acc * 10 + (c.toNat - 48)) else none

/-- The number written by a text: decimal digits after an optional sign. -/
def parseInt (s : String) : Option Int :=
  match s.data with
  | [] => none
  | '-' :: cs => if cs = [] then none else (parseDigits cs 0).map (fun n => -(n : Int))
  | '+' :: cs => if cs = [] then none else (parseDigits cs 0).map (fun n => (n : Int))
  | cs => (parseDigits cs 0).map (fun n => (n : Int))

/-- The call `QString::toInt()`: `0` when the text is no number or does not fit. -/
def qToInt (s : String) : Int :=
  match parseInt s with
  | some n => if INT_MIN ≤ n ∧ n ≤ INT_MAX then n else 0
  | none => 0

namespace QVariant

/-- The call `toMap()`: the empty map for everything that is not a map. -/
def toMap : QVariant → QVariantMap
  | map m => m
  | _ => []

/-- The call `toList()`: the empty list for everything that is not a list. -/
def toList : QVariant → List QVariant
  | list xs => xs
  | _ => []

/-- The call `toString()`: numbers and booleans are printed, containers and the
invalid variant give the empty string. -/
def toString : QVariant → String
  | string s => s
  | int n => ToString.toString n
  | bool b => if b then "true" else "false"
  | _ => ""

/-- The call `toInt()`: `0` for whatever is not a number. -/
def toInt : QVariant → Int
  | int n => n
  | bool b => if b then 1 else 0
  | string s => qToInt s
  | _ => 0

/-- The call `toBool()`. -/
def toBool : QVariant → Bool
  | bool b => b
  | int n => n ≠ 0
  | string s => !(s = "" || s = "0" || s = "false")
  | _ => false

/-- The comparison `variant == "text"` of a variant with a string literal: Qt
converts the string to the type of the variant where it can, and containers and
the invalid variant are equal to no string. -/
def eqString (v : QVariant) (s : String) : Bool :=
  match v with
  | string t => t = s
  | int n => parseInt s = some n
  | bool b => b = !(s = "" || s = "0" || s = "false")
  | _ => false

end QVariant

/-- The test `text.contains(pattern)` of `QString`. -/
def qContains (text pattern : String) : Bool :=
  decide (pattern.data <:+: text.data)

/-! ## MediaPlayerDef -/

/-- The command codes `MediaPlayerDef::C_...` that `sendCommand` compares its
`int command` with. They are declared in
`yio-interface/entities/mediaplayerinterface.h`, which is not part of the sources,
so the codes are a parameter of the model. -/
structure MediaPlayerDef where
  C_PLAY : Int
  C_PLAY_ITEM : Int
  C_SHUFFLE : Int
  C_SHUFFLE_PLAY : Int
  C_ADD_TO_QUEUE : Int
  C_PAUSE : Int
  C_NEXT : Int
  C_PREVIOUS : Int
  C_VOLUME_SET : Int
  C_VOLUME_UP : Int
  C_VOLUME_DOWN : Int
  C_SEARCH : Int
  C_GETALBUM : Int
  C_GETPLAYLIST : Int
  C_CHANGE_SPEAKER : Int
  C_GET_SPEAKERS : Int
  deriving DecidableEq, Repr

/-- The codes in the order in which `sendCommand` tests them. -/
def MediaPlayerDef.codes (d : MediaPlayerDef) : List Int :=
  [d.C_PLAY, d.C_PLAY_ITEM, d.C_SHUFFLE, d.C_SHUFFLE_PLAY, d.C_ADD_TO_QUEUE, d.C_PAUSE, d.C_NEXT,
   d.C_PREVIOUS, d.C_VOLUME_SET, d.C_VOLUME_UP, d.C_VOLUME_DOWN, d.C_SEARCH, d.C_GETALBUM,
   d.C_GETPLAYLIST, d.C_CHANGE_SPEAKER, d.C_GET_SPEAKERS]

/-- The enumerators of an enumeration without explicit values are pairwise different. -/
def MediaPlayerDef.Distinct (d : MediaPlayerDef) : Prop := d.codes.Nodup

instance (d : MediaPlayerDef) : Decidable d.Distinct := by
  unfold MediaPlayerDef.Distinct; infer_instance

/-- One numbering of the command codes, used for concrete runs. -/
def sampleCommands : MediaPlayerDef :=
  { C_PLAY := 0, C_PLAY_ITEM := 1, C_SHUFFLE := 2, C_SHUFFLE_PLAY := 3, C_ADD_TO_QUEUE := 4,
    C_PAUSE := 5, C_NEXT := 6, C_PREVIOUS := 7, C_VOLUME_SET := 8, C_VOLUME_UP := 9,
    C_VOLUME_DOWN := 10, C_SEARCH := 11, C_GETALBUM := 12, C_GETPLAYLIST := 13,
    C_CHANGE_SPEAKER := 14, C_GET_SPEAKERS := 15 }

/-- The attribute indices `MediaPlayerDef::Attributes` written by the integration. -/
inductive Attributes where
  | STATE | SOURCE | VOLUME | MEDIATITLE | MEDIAARTIST | MEDIAIMAGE | MEDIADURATION | MEDIAPROGRESS
  deriving DecidableEq, Repr

/-- The player states `MediaPlayerDef::States` published by the integration. -/
inductive States where
  | OFF | IDLE | PLAYING
  deriving DecidableEq, Repr

/-- A value handed to `updateAttrByIndex`. -/
inductive AttrValue where
  | text (s : String)
  | number (n : Int)
  | state (s : States)
  deriving DecidableEq, Repr

/-- The attributes of the media player entity as last published. -/
structure Entity where
  attr : Attributes → AttrValue

/-- The call `entity->updateAttrByIndex(a, v)`. -/
def Entity.updateAttrByIndex (e : Entity) (a : Attributes) (v : AttrValue) : Entity :=
  { attr := fun b => if b = a then v else e.attr b }

/-! ## The PlexMedia object and its surroundings -/

/-- The member fields of `PlexMedia` (`plexmedia.h`), with the interval and the
running flag of `m_pollingTimer`. The `int` fields hold mathematical integers:
`m_cmdId` starts at 0, is reset to 0 by `disconnect` and grows by one per
request, so it stays far below the largest `int`, where `m_cmdId++` would have no
defined behaviour in C++. `m_playerVol`, `m_playerDuration` and `m_playerTime`
are set from `QString::toInt()` and so lie in the range of `int`; the volume
step, the one sum formed from them, is taken in 32 bits (`wrapInt32`). -/
structure PlexMedia where
  m_speakerRequest : Bool
  m_entityId : String
  m_pollingTimer_interval : Int
  m_pollingTimer_active : Bool
  m_serverIP : String
  m_serverPort : String
  m_serverURL : String
  m_serverId : String
  m_playerId : String
  m_playerIP : String
  m_playerPort : String
  m_playerURL : String
  m_playerPlatform : String
  m_playerQueue : String
  m_playerCurrentTrack : String
  m_playerState : String
  m_playerDuration : Int
  m_playerTime : Int
  m_playerVol : Int
  m_playerConnected : Bool
  m_directConn : Bool
  m_newTrack : Bool
  m_cmdId : Int
  m_clientUser : String
  m_clientPass : String
  m_authToken : String
  deriving DecidableEq, Repr

/-- The HTTP verb of a request; `POLL` is the GET of `getPollRequest`, whose
answer is read as XML. -/
inductive Method where
  | GET | POST | PUT | POLL
  deriving DecidableEq, Repr

/-- A request handed to the network access manager. `url` and `params` are the
two arguments of the sending function, `commandId` the counter value appended to
the query and `address` the complete text given to `QUrl::fromUserInput`. -/
structure Request where
  method : Method
  url : String
  params : String
  commandId : Int
  address : String
  token : String
  target : String
  deriving DecidableEq, Repr

/-- One row of the speaker model built by `getSpeakers`. -/
structure SpeakerItem where
  id : String
  title : String
  description : String
  type : String
  image : String
  commands : List String
  supported : List String
  deriving DecidableEq, Repr

/-- What the object does to the outside: requests, the sign-in at plex.tv,
published attributes and models. The contents of the search and browse models
are not modelled. -/
inductive Effect where
  | request (r : Request)
  | signIn (user pass : String)
  | updateAttr (a : Attributes) (v : AttrValue)
  | setSpeakerModel (items : List SpeakerItem)
  | setSearchModel
  | setBrowseModel
  | setState (connected : Bool)
  deriving DecidableEq, Repr

/-- The lambdas connected to the signal `requestReady`, each with the variables
it captures by value. -/
inductive Handler where
  | machineIdentifier (url : String)
  | search (url : String)
  | album (url : String)
  | playlist (url : String)
  | userPlaylists (all_url : String)
  | nowPlaying (now_url : String)
  | sessions (url : String)
  | clients (url : String)
  | playPlaylist (url : String) (param : QVariant)

/-- The object with its surroundings: `entity` is what
`m_entities->getEntityInterface(m_entityId)` returns, `handlers` are the
connections of `requestReady` in the order they were made, `trace` lists the
effects, oldest first. -/
structure World where
  self : PlexMedia
  entity : Option Entity
  handlers : List Handler
  trace : List Effect

/-- A field update of the object inside its surroundings. -/
def World.setSelf (w : World) (f : PlexMedia → PlexMedia) : World :=
  { w with self := f w.self }

/-- An effect appended to the trace. -/
def World.emit (w : World) (e : Effect) : World :=
  { w with trace := w.trace ++ [e] }

/-- The call `QObject::connect(this, &PlexMedia::requestReady, context, lambda)`. -/
def World.connectHandler (w : World) (h : Handler) : World :=
  { w with handlers := w.handlers ++ [h] }

/-- The statement `if (entity) entity->updateAttrByIndex(a, v)`; a lambda that
captured a non-null `entity` writes to the same registered entity. -/
def updateAttrByIndex (a : Attributes) (v : AttrValue) (w : World) : World :=
  match w.entity with
  | some e => { w with entity := some (e.updateAttrByIndex a v),
                       trace := w.trace ++ [Effect.updateAttr a v] }
  | none => w

/-! ## Requests -/

/-- PlexMedia::requestAuthToken: the sign-in POST to plex.tv with the user name
and password; its answer is handled by `authReply`. -/
def requestAuthToken (w : World) : World :=
  w.emit (Effect.signIn w.self.m_clientUser w.self.m_clientPass)

/-- The text given to `QUrl::fromUserInput` by the four sending functions. -/
def requestAddress (url params : String) (cmdId : Int) : String :=
  if params.length > 0 then url ++ params ++ "&commandId=" ++ toString cmdId
  else url ++ "?commandId=" ++ toString cmdId

/-- The common tail of `getRequest`, `postRequest`, `putRequest` and
`getPollRequest`: set the headers and the URL with the current `m_cmdId`, hand
the request to the manager, then `m_cmdId++`. -/
def sendRequest (m : Method) (url params : String) (w : World) : World :=
  (w.emit (Effect.request
    { method := m, url := url, params := params, commandId := w.self.m_cmdId,
      address := requestAddress url params w.self.m_cmdId,
      token := w.self.m_authToken, target := w.self.m_playerId })).setSelf
    (fun s => { s with m_cmdId := s.m_cmdId + 1 })

/-- PlexMedia::getRequest. -/
def getRequest (url params : String) (w : World) : World :=
  if w.self.m_authToken = "" then requestAuthToken w
  else sendRequest Method.GET url params w

/-- PlexMedia::postRequest. -/
def postRequest (url params : String) (w : World) : World :=
  if w.self.m_authToken = "" then requestAuthToken w
  else sendRequest Method.POST url params w

/-- PlexMedia::putRequest. -/
def putRequest (url params : String) (w : World) : World :=
  if w.self.m_authToken = "" then requestAuthToken w
  else sendRequest Method.PUT url params w

/-- PlexMedia::getPollRequest, the sending part: only with an entity, the timer
is turned up to 2000 ms and the request is sent. -/
def getPollRequest (url params : String) (w : World) : World :=
  match w.entity with
  | none => w
  | some _ =>
    let w1 := if w.self.m_pollingTimer_interval > 2000
      then w.setSelf (fun s => { s with m_pollingTimer_interval := 2000 }) else w
    sendRequest Method.POLL url params w1

/-! ## Speakers -/

/-- The `Player` object of a session entry. -/
def sessionPlayer (p : QVariant) : QVariantMap := (p.toMap.value "Player").toMap

/-- The text `players[i].toMap().value("Player").toMap().value("machineIdentifier").toString()`. -/
def machineIdentifierOf (p : QVariant) : String :=
  ((sessionPlayer p).value "machineIdentifier").toString

/-- One iteration of the loop of `getSpeakers`. The lists `commands` assigned in
the branches are new local variables, so every row keeps the default commands. -/
def speakerItem (m_playerId : String) (p : QVariant) : SpeakerItem :=
  let title := ((sessionPlayer p).value "title").toString
  let title :=
    if machineIdentifierOf p = m_playerId then title ++ " (Connected)"
    else if ((sessionPlayer p).value "local").toBool then title ++ " (Local)"
    else title ++ " (Remote)"
  let description := (p.toMap.value "title").toString
  let description := if description.length = 0 then "Unknown" else description
  let description :=
    description ++ " (" ++ (p.toMap.value "librarySectionTitle").toString ++ ")"
  { id := machineIdentifierOf p, title := title, description := description, type := "speaker",
    image := ((p.toMap.value "User").toMap.value "thumb").toString,
    commands := ["CONNECT"], supported := [] }

/-- PlexMedia::getSpeakers. -/
def getSpeakers (map : QVariantMap) (w : World) : World :=
  let players := ((map.value "MediaContainer").toMap.value "Metadata").toList
  let allPlayers := players.map (speakerItem w.self.m_playerId)
  let w1 := match w.entity with
    | some _ => w.emit (Effect.setSpeakerModel allPlayers)
    | none => w
  w1.setSelf (fun s => { s with m_speakerRequest := false })

/-- PlexMedia::changeSpeaker. -/
def changeSpeaker (id : String) (w : World) : World :=
  w.setSelf (fun s => { s with m_playerId := id, m_playerURL := "", m_playerPort := "0",
                               m_directConn := false })

/-- PlexMedia::updateBrowseModel. -/
def updateBrowseModel (w : World) : World :=
  match w.entity with
  | some _ => w.emit Effect.setBrowseModel
  | none => w

/-! ## Session discovery -/

/-- The loop of the sessions handler that looks for the held player: the first
index whose `Player.machineIdentifier` equals `id`, if there is one. -/
def findPlayer : List QVariant → String → Option Nat
  | [], _ => none
  | p :: ps, id =>
    if machineIdentifierOf p = id then some 0 else (findPlayer ps id).map (· + 1)

/-- The image path of a session entry: `thumb`, else `parentThumb`, else
`grandparentThumb`, else empty. -/
def sessionImage (p : QVariant) : String :=
  if p.toMap.contains "thumb" then (p.toMap.value "thumb").toString
  else if p.toMap.contains "parentThumb" then (p.toMap.value "parentThumb").toString
  else if p.toMap.contains "grandparentThumb" then (p.toMap.value "grandparentThumb").toString
  else ""

/-- The artist, show or movie line (`trackParent`) of a session entry. -/
def trackParent (p : QVariant) : String :=
  if (p.toMap.value "type").toString = "track" then
    if p.toMap.contains "originalTitle" then (p.toMap.value "originalTitle").toString
    else (p.toMap.value "grandparentTitle").toString
  else if (p.toMap.value "type").toString = "show" then
    (p.toMap.value "grandparentTitle").toString ++ " - " ++ (p.toMap.value "parentTitle").toString
  else if (p.toMap.value "type").toString = "movie" then (p.toMap.value "tagLine").toString
  else (p.toMap.value "parentTitle").toString

/-- The sessions handler from the assignment of `m_playerId` on
(plexmedia.cpp 562-621), for the selected entry `p = players[player_index]`. -/
def applySession (p : QVariant) (w : World) : World :=
  let w := w.setSelf (fun s => { s with
    m_playerId := machineIdentifierOf p,
    m_playerIP := ((sessionPlayer p).value "address").toString })
  let w := w.setSelf (fun s => { s with
    m_playerURL := if s.m_playerPort = "0" then "http://" ++ s.m_playerIP ++ ":32500"
                   else "http://" ++ s.m_playerIP ++ ":" ++ s.m_playerPort })
  let w :=
    if w.self.m_playerCurrentTrack = (p.toMap.value "ratingKey").toString then
      w.setSelf (fun s => { s with m_newTrack := false })
    else
      w.setSelf (fun s => { s with m_newTrack := true,
                                   m_playerCurrentTrack := (p.toMap.value "ratingKey").toString })
  let w := w.setSelf (fun s => { s with
    m_playerPlatform := ((sessionPlayer p).value "platform").toString })
  let w := updateAttrByIndex Attributes.MEDIAIMAGE
    (AttrValue.text (w.self.m_serverURL ++ sessionImage p)) w
  let w := updateAttrByIndex Attributes.SOURCE
    (AttrValue.text ((sessionPlayer p).value "title").toString) w
  let w := updateAttrByIndex Attributes.MEDIATITLE
    (AttrValue.text (p.toMap.value "title").toString) w
  let w := updateAttrByIndex Attributes.MEDIAARTIST (AttrValue.text (trackParent p)) w
  let w := w.setSelf (fun s => { s with
    m_playerState := ((sessionPlayer p).value "state").toString })
  let w :=
    if w.self.m_playerState = "playing" then
      updateAttrByIndex Attributes.STATE (AttrValue.state States.PLAYING) w
    else updateAttrByIndex Attributes.STATE (AttrValue.state States.IDLE) w
  let w := updateAttrByIndex Attributes.MEDIADURATION
    (AttrValue.number (Int.tdiv (p.toMap.value "duration").toInt 1000)) w
  updateAttrByIndex Attributes.MEDIAPROGRESS
    (AttrValue.number (Int.tdiv (p.toMap.value "viewOffset").toInt 1000)) w

/-- The sessions handler on the path without sessions (plexmedia.cpp 624-632). -/
def clearPlayer (w : World) : World :=
  let w := updateAttrByIndex Attributes.MEDIAIMAGE (AttrValue.text "") w
  let w := updateAttrByIndex Attributes.SOURCE (AttrValue.text "") w
  let w := updateAttrByIndex Attributes.MEDIATITLE (AttrValue.text "") w
  let w := updateAttrByIndex Attributes.MEDIAARTIST (AttrValue.text "") w
  let w := updateAttrByIndex Attributes.MEDIADURATION (AttrValue.number 0) w
  let w := updateAttrByIndex Attributes.MEDIAPROGRESS (AttrValue.number 0) w
  let w := updateAttrByIndex Attributes.STATE (AttrValue.state States.OFF) w
  w.setSelf (fun s => { s with m_playerConnected := false })

/-- The index chosen by the sessions handler and the object after the choice
(plexmedia.cpp 545-560): the held player if it is listed, else entry 0 with the
port reset. -/
def choosePlayer (players : List QVariant) (w : World) : Nat × World :=
  let found := findPlayer players w.self.m_playerId
  let player_index := found.getD 0
  let w := if found.isNone then w.setSelf (fun s => { s with m_playerId := "" }) else w
  if w.self.m_playerId = "" then
    (0, w.setSelf (fun s => { s with m_playerPort := "0" }))
  else (player_index, w)

/-- The lambda that `getCurrentPlayer` connects to `requestReady` for
`url = m_serverURL + "/status/sessions"`. The result is `none` when the handler
indexes the session list out of range. -/
def onSessions (url : String) (map : QVariantMap) (rUrl : String) (w : World) : Option World :=
  if rUrl = url then
    if (map.value "MediaContainer").toMap.contains "Metadata" then
      let w := w.setSelf (fun s => { s with m_playerConnected := true })
      let w := if w.self.m_speakerRequest then getSpeakers map w else w
      let players := ((map.value "MediaContainer").toMap.value "Metadata").toList
      let c := choosePlayer players w
      match players[c.1]? with
      | none => none
      | some p => some (applySession p c.2)
    else if w.self.m_playerConnected then some (clearPlayer w)
    else some w
  else some w

/-- The loop of the clients handler: the port of the first listed client whose
`machineIdentifier` equals `id`. -/
def findPort : List QVariant → String → Option String
  | [], _ => none
  | p :: ps, id =>
    if (p.toMap.value "machineIdentifier").toString = id
    then some (p.toMap.value "port").toString else findPort ps id

/-- The lambda that `getCurrentPlayer` connects for `url = m_serverURL + "/clients"`. -/
def onClients (url : String) (map : QVariantMap) (rUrl : String) (w : World) : World :=
  if rUrl = url then
    match findPort ((map.value "MediaContainer").toMap.value "Server").toList w.self.m_playerId with
    | some port => w.setSelf (fun s => { s with m_playerPort := port })
    | none => w
  else w

/-- PlexMedia::getCurrentPlayer, one polling tick. -/
def getCurrentPlayer (w : World) : World :=
  match w.entity with
  | none => w
  | some _ =>
    let w :=
      if w.self.m_playerId = "" || w.self.m_speakerRequest || !w.self.m_directConn
          || w.self.m_newTrack then
        let url := w.self.m_serverURL ++ "/status/sessions"
        let w := if w.self.m_pollingTimer_interval < 4000
          then w.setSelf (fun s => { s with m_pollingTimer_interval := 4000 }) else w
        getRequest url "" (w.connectHandler (Handler.sessions url))
      else w
    if w.self.m_playerId ≠ "" then
      let w :=
        if w.self.m_playerPort = "0" then
          let url := w.self.m_serverURL ++ "/clients"
          let w := getRequest url "" (w.connectHandler (Handler.clients url))
          if w.self.m_playerPort ≠ "0" then
            w.setSelf (fun s => { s with
              m_playerURL := "http://" ++ s.m_playerIP ++ ":" ++ s.m_playerPort })
          else w
        else w
      if w.self.m_playerURL ≠ "" then
        getPollRequest (w.self.m_playerURL ++ "/player/timeline/poll") "?wait=1" w
      else w
    else w

/-- PlexMedia::onPollingTimerTimeout. -/
def onPollingTimerTimeout (w : World) : World := getCurrentPlayer w

/-! ## Lookups that answer through `requestReady` -/

/-- PlexMedia::getMachineIdentifier. -/
def getMachineIdentifier (w : World) : World :=
  let url := w.self.m_serverURL ++ "/identity"
  getRequest url "" (w.connectHandler (Handler.machineIdentifier url))

/-- The type filter that `search` puts in its query. -/
def searchType (type : String) : String :=
  let newType := ""
  let newType := if qContains type "albums" then newType ++ "9," else newType
  let newType := if qContains type "tracks" then newType ++ "10," else newType
  let newType := if qContains type "artists" then newType ++ "8," else newType
  let newType := if qContains type "playlists" then newType ++ "15," else newType
  let newType := if qContains type "movies" then newType ++ "1," else newType
  let newType := if qContains type "shows" then newType ++ "2," else newType
  let newType := if qContains type "episodes" then newType ++ "4," else newType
  if newType.length > 0 then newType.dropRight 1 else "1,2,4,8,9,10,15"

/-- PlexMedia::search(query, type). -/
def search (query type : String) (w : World) : World :=
  let url := w.self.m_serverURL ++ "/search"
  let query := query.replace " " "%20"
  getRequest url ("?query=" ++ query ++ "&type=" ++ searchType type)
    (w.connectHandler (Handler.search url))

/-- PlexMedia::getAlbum. -/
def getAlbum (id : String) (w : World) : World :=
  let url := w.self.m_serverURL ++ "/library/metadata/" ++ id ++ "/children"
  getRequest url "" (w.connectHandler (Handler.album url))

/-- PlexMedia::getPlaylist. -/
def getPlaylist (id : String) (w : World) : World :=
  let url := if qContains id "playQueues" then w.self.m_serverURL ++ id
    else w.self.m_serverURL ++ "/playlists/" ++ id ++ "/items"
  getRequest url "" (w.connectHandler (Handler.playlist url))

/-- PlexMedia::getUserPlaylists. -/
def getUserPlaylists (w : World) : World :=
  let all_url := w.self.m_serverURL ++ "/playlists"
  getRequest all_url "" (w.connectHandler (Handler.userPlaylists all_url))

/-- The query of the `playMedia` request for the library item of `param`. -/
def playMediaMessage (param : QVariant) (s : PlexMedia) : String :=
  "?key=/library/metadata/" ++ (param.toMap.value "id").toString ++ "&offset=0&address="
    ++ s.m_serverIP ++ "&port=" ++ s.m_serverPort ++ "&machineIdentifier=" ++ s.m_serverId

/-- The lambda that `sendCommand` connects before it posts to
`url = m_serverURL + "/playQueues"`: on the answer for that URL it asks the
player to play the new queue. -/
def onPlayQueue (url : String) (param : QVariant) (map : QVariantMap) (rUrl : String)
    (w : World) : World :=
  if rUrl = url then
    let message := playMediaMessage param w.self
    let message := message ++ "&containerKey=/playQueues/"
      ++ ((map.value "MediaContainer").toMap.value "playQueueID").toString ++ "&window=200&own=1"
    getRequest (w.self.m_playerURL ++ "/player/playback/playMedia") message w
  else w

/-- The body of a connected lambda, run for one emission of
`requestReady(map, rUrl)`. The result is `none` where the lambda indexes an empty
list. The lambdas of `search`, `getAlbum` and `getPlaylist` only build a model
and hand it to the entity. -/
def Handler.run (h : Handler) (map : QVariantMap) (rUrl : String) (w : World) : Option World :=
  match h with
  | Handler.machineIdentifier url =>
    if rUrl = url then
      if (map.value "MediaContainer").toMap.contains "machineIdentifier" then
        some (w.setSelf (fun s => { s with
          m_serverId := ((map.value "MediaContainer").toMap.value "machineIdentifier").toString }))
      else some w
    else some w
  | Handler.search url =>
    if rUrl = url then
      match w.entity with
      | some _ => some (w.emit Effect.setSearchModel)
      | none => some w
    else some w
  | Handler.album url =>
    if rUrl = url then some (updateBrowseModel w) else some w
  | Handler.playlist url =>
    if rUrl = url then
      let tracks := ((map.value "MediaContainer").toMap.value "Metadata").toList
      match tracks with
      | [] => none
      | _ :: _ => some (tracks.foldl (fun v _ => updateBrowseModel v) w)
    else some w
  | Handler.userPlaylists all_url =>
    if rUrl = all_url then
      let w := updateBrowseModel w
      if w.self.m_playerQueue ≠ "" then
        let now_url := w.self.m_serverURL ++ "/playQueues/" ++ w.self.m_playerQueue
        some (getRequest now_url "" (w.connectHandler (Handler.nowPlaying now_url)))
      else some w
    else some w
  | Handler.nowPlaying now_url =>
    if rUrl = now_url then
      match ((map.value "MediaContainer").toMap.value "Metadata").toList with
      | [] => none
      | _ :: _ => some (updateBrowseModel w)
    else some w
  | Handler.sessions url => onSessions url map rUrl w
  | Handler.clients url => some (onClients url map rUrl w)
  | Handler.playPlaylist url param => some (onPlayQueue url param map rUrl w)

/-- The lambdas `hs` run one after the other. -/
def runHandlers (map : QVariantMap) (rUrl : String) : List Handler → World → Option World
  | [], w => some w
  | h :: hs, w =>
    match h.run map rUrl w with
    | none => none
    | some w1 => runHandlers map rUrl hs w1

/-- The statement `emit requestReady(map, url)`: every lambda connected at that
moment runs, in the order of connection; a lambda connected during the emission
does not. Each lambda ends with `context->deleteLater()`, whatever the URL, so
all that ran are disconnected when control is back in the event loop, before the
next answer is handled. -/
def requestReady (map : QVariantMap) (url : String) (w : World) : Option World :=
  match runHandlers map url w.handlers w with
  | none => none
  | some w1 => some { w1 with handlers := w1.handlers.drop w.handlers.length }

/-- The body of an answer as the reply lambdas see it: empty, not parsable, or
a parsed document. -/
inductive Body where
  | empty
  | malformed
  | json (doc : QVariant)

/-- The lambda of `getRequest` connected to `finished`, for the request to `url`.
A transport error is only logged. -/
def getReply (url : String) (answer : Body) (w : World) : Option World :=
  match answer with
  | Body.empty => some w
  | Body.malformed => some w
  | Body.json doc => requestReady doc.toMap url w

/-- The lambda of `postRequest` connected to `finished`. -/
def postReply (url : String) (statusCode : Int) (answer : Body) (w : World) : Option World :=
  if statusCode ≠ 200 then some w
  else
    match answer with
    | Body.empty => some w
    | Body.malformed => some w
    | Body.json doc => requestReady doc.toMap url w

/-- The lambda of `putRequest` connected to `finished`: it only logs. -/
def putReply (_statusCode : Int) (w : World) : World := w

/-- The lambda of `requestAuthToken` connected to `finished`. -/
def authReply (answer : Body) (w : World) : World :=
  match answer with
  | Body.json doc =>
    if doc.toMap.contains "error" then w
    else if (doc.toMap.value "user").toMap.contains "authToken" then
      w.setSelf (fun s => { s with
        m_authToken := ((doc.toMap.value "user").toMap.value "authToken").toString })
    else w
  | _ => w

/-! ## Direct poll -/

/-- A `Timeline` element of the poll document, as its XML attributes. -/
abbrev Timeline := List (String × String)

/-- The call `n.attribute(name)`: the empty string when the attribute is absent. -/
def Timeline.attribute (n : Timeline) (name : String) : String :=
  (n.lookup name).getD ""

/-- One iteration of the loop over the `Timeline` elements in the poll lambda. -/
def applyTimeline (s : PlexMedia) (n : Timeline) : PlexMedia :=
  if n.attribute "state" ≠ "stopped" then
    { s with
      m_playerVol := qToInt (n.attribute "volume"),
      m_playerQueue := n.attribute "playQueueID",
      m_playerState := n.attribute "state",
      m_playerDuration := qToInt (n.attribute "duration"),
      m_playerTime := qToInt (n.attribute "time"),
      m_newTrack := if s.m_playerCurrentTrack = n.attribute "ratingKey" then false else true }
  else s

/-- The lambda of `getPollRequest` connected to `finished`; `doc` is `none` when
`QDomDocument::setContent` rejects the body, else the `Timeline` elements in
document order. -/
def pollReply (statusCode : Int) (doc : Option (List Timeline)) (w : World) : World :=
  if statusCode ≠ 200 then w.setSelf (fun s => { s with m_directConn := false })
  else
    match doc with
    | none => w
    | some timelines =>
      let w := w.setSelf (fun s => timelines.foldl applyTimeline s)
      let w := updateAttrByIndex Attributes.VOLUME (AttrValue.number w.self.m_playerVol) w
      let w :=
        if w.self.m_playerState = "playing" then
          updateAttrByIndex Attributes.STATE (AttrValue.state States.PLAYING) w
        else updateAttrByIndex Attributes.STATE (AttrValue.state States.IDLE) w
      let w := updateAttrByIndex Attributes.MEDIADURATION
        (AttrValue.number (Int.tdiv w.self.m_playerDuration 1000)) w
      let w := updateAttrByIndex Attributes.MEDIAPROGRESS
        (AttrValue.number (Int.tdiv w.self.m_playerTime 1000)) w
      w.setSelf (fun s => { s with m_directConn := true })

/-! ## Commands and life cycle -/

/-- The class (`audio` or `video`) that add-to-queue derives from the item type. -/
def typeClass (type : String) : String :=
  if type = "track" || type = "artist" || type = "album" then "audio" else "video"

/-- PlexMedia::sendCommand. -/
def sendCommand (d : MediaPlayerDef) (type entityId : String) (command : Int) (param : QVariant)
    (w : World) : World :=
  if !(type = "media_player" && entityId = w.self.m_entityId) then w
  else if w.self.m_serverId = "" then getMachineIdentifier w
  else if w.self.m_playerId = "" then w
  else if command = d.C_PLAY then
    getRequest (w.self.m_playerURL ++ "/player/playback/play") "" w
  else if command = d.C_PLAY_ITEM || command = d.C_SHUFFLE then
    if param.eqString "" then
      getRequest (w.self.m_playerURL ++ "/player/playback/play") "" w
    else
      let shuffle := if command = d.C_SHUFFLE_PLAY then "1" else "0"
      if param.toMap.contains "type" then
        if (param.toMap.value "type").toString = "playlist" then
          let url := w.self.m_serverURL ++ "/playQueues"
          let message := "?playlistID=" ++ (param.toMap.value "id").toString ++ "&shuffle="
            ++ shuffle ++ "&continuous=0&type=audio"
          postRequest url message (w.connectHandler (Handler.playPlaylist url param))
        else
          getRequest (w.self.m_playerURL ++ "/player/playback/playMedia")
            (playMediaMessage param w.self) w
      else w
  else if command = d.C_ADD_TO_QUEUE then
    if param.toMap.contains "type" then
      if (param.toMap.value "type").toString ≠ "playlist" then
        if w.self.m_playerQueue ≠ "" then
          let url := w.self.m_serverURL ++ "/playQueues/" ++ w.self.m_playerQueue
          let message := "?type=" ++ typeClass (param.toMap.value "type").toString
            ++ "&uri=server://" ++ w.self.m_serverId
            ++ "/com.plexapp.plugins.library/library/metadata/"
            ++ (param.toMap.value "id").toString ++ "&repeat=0&own=1&includeChapters=1"
          let w := putRequest url message w
          if w.self.m_playerPlatform ≠ "iOS" then
            getRequest (w.self.m_playerURL ++ "/player/playback/refreshPlayQueue")
              ("?playQueueID=" ++ w.self.m_playerQueue) w
          else w
        else w
      else w
    else w
  else if command = d.C_PAUSE then
    let w := getRequest (w.self.m_playerURL ++ "/player/playback/pause") "" w
    let w := w.setSelf (fun s => { s with m_playerState := "paused" })
    updateAttrByIndex Attributes.STATE (AttrValue.state States.IDLE) w
  else if command = d.C_NEXT then
    (getRequest (w.self.m_playerURL ++ "/player/playback/skipNext") "" w).setSelf
      (fun s => { s with m_newTrack := true })
  else if command = d.C_PREVIOUS then
    (getRequest (w.self.m_playerURL ++ "/player/playback/skipPrevious") "" w).setSelf
      (fun s => { s with m_newTrack := true })
  else if command = d.C_VOLUME_SET then
    getRequest (w.self.m_playerURL ++ "/player/playback/setParameters")
      ("?volume=" ++ param.toString) w
  else if command = d.C_VOLUME_UP then
    getRequest (w.self.m_playerURL ++ "/player/playback/setParameters")
      ("?volume=" ++ toString (wrapInt32 (w.self.m_playerVol + 5))) w
  else if command = d.C_VOLUME_DOWN then
    getRequest (w.self.m_playerURL ++ "/player/playback/setParameters")
      ("?volume=" ++ toString (wrapInt32 (w.self.m_playerVol - 5))) w
  else if command = d.C_SEARCH then search param.toString "" w
  else if command = d.C_GETALBUM then getAlbum param.toString w
  else if command = d.C_GETPLAYLIST then
    if param.toString = "user" then getUserPlaylists w else getPlaylist param.toString w
  else if command = d.C_CHANGE_SPEAKER then changeSpeaker param.toString w
  else if command = d.C_GET_SPEAKERS then
    getCurrentPlayer (w.setSelf (fun s => { s with m_speakerRequest := true }))
  else w

/-- PlexMedia::connect. -/
def connect (w : World) : World :=
  let w := w.emit (Effect.setState true)
  let w := if w.self.m_authToken = "" then requestAuthToken w else w
  let w := if w.self.m_serverId = "" then getMachineIdentifier w else w
  w.setSelf (fun s => { s with m_pollingTimer_active := true })

/-- PlexMedia::disconnect. -/
def disconnect (w : World) : World :=
  let w := w.emit (Effect.setState false)
  let w := putRequest (w.self.m_playerURL ++ "/player/timeline/unsubscribe") "" w
  w.setSelf (fun s => { s with m_cmdId := 0, m_directConn := false,
                               m_pollingTimer_active := false })

/-- PlexMedia::enterStandby. -/
def enterStandby (w : World) : World := disconnect w

/-- PlexMedia::leaveStandby. -/
def leaveStandby (w : World) : World := connect w

/-- The object as the constructor and the member initialisers of `plexmedia.h`
leave it, for the configured account; `m_playerDuration` and `m_playerTime` have
no initialiser and are given as arguments. -/
def PlexMedia.init (username password entity_id server_address server_port : String)
    (duration time : Int) : PlexMedia :=
  { m_speakerRequest := true, m_entityId := entity_id, m_pollingTimer_interval := 4000,
    m_pollingTimer_active := false, m_serverIP := server_address, m_serverPort := server_port,
    m_serverURL := "http://" ++ server_address ++ ":" ++ server_port, m_serverId := "",
    m_playerId := "", m_playerIP := "", m_playerPort := "0", m_playerURL := "",
    m_playerPlatform := "", m_playerQueue := "", m_playerCurrentTrack := "0",
    m_playerState := "", m_playerDuration := duration, m_playerTime := time, m_playerVol := 100,
    m_playerConnected := false, m_directConn := true, m_newTrack := true, m_cmdId := 0,
    m_clientUser := username, m_clientPass := password, m_authToken := "" }

end Plex

/-! ## Token renewal (`src/spotify.cpp`) -/

namespace Spotify

open Plex

/-- The value of an `int` computation carried out in 32 bit two's complement. -/
def wrapInt (n : Int) : Int := (n + 2147483648) % 4294967296 - 2147483648

/-- A `QTimer` that was started: its single-shot flag and the argument of `start`
in milliseconds. -/
structure QTimer where
  singleShot : Bool
  msec : Int
  deriving DecidableEq, Repr

/-- The fields of `SpotifyBase` used by the token renewal. `m_tokenTimeOutTimer`
is the timer the field points to, `timers` lists every timer started so far
(a new one is created for each answer, the earlier ones are kept). -/
structure SpotifyBase where
  m_access_token : String
  m_refresh_token : String
  m_token_expire : Int
  m_tokenTimeOutTimer : Option QTimer
  timers : List QTimer
  deriving DecidableEq, Repr

/-- The lambda of `SpotifyBase::refreshAccessToken` connected to `finished`
(spotify.cpp 98-135): a body that is no JSON ends the lambda, else the tokens
and the expiry are stored where present and a new single-shot timer is started
with `(m_token_expire-60)*1000`. -/
def refreshAccessTokenReply (answer : Body) (s : SpotifyBase) : SpotifyBase :=
  match answer with
  | Body.json doc =>
    let map := doc.toMap
    let s := if map.contains "access_token"
      then { s with m_access_token := (map.value "access_token").toString } else s
    let s := if map.contains "expires_in"
      then { s with m_token_expire := (map.value "expires_in").toInt } else s
    let s := if map.contains "refresh_token"
      then { s with m_refresh_token := (map.value "refresh_token").toString } else s
    let t : QTimer :=
      { singleShot := true, msec := wrapInt (wrapInt (s.m_token_expire - 60) * 1000) }
    { s with m_tokenTimeOutTimer := some t, timers := s.timers ++ [t] }
  | _ => s

end Spotify

/-! # Sample data -/

namespace Plex

/-- An entity on which nothing has been published yet. -/
def sampleEntity : Entity := { attr := fun _ => AttrValue.text "" }

/-- A session entry of the sessions document. -/
def sampleSession (id address ratingKey state : String) : QVariant :=
  QVariant.map
    [("Player", QVariant.map
        [("machineIdentifier", QVariant.string id), ("address", QVariant.string address),
         ("title", QVariant.string "Living room"), ("platform", QVariant.string "Android"),
         ("state", QVariant.string state), ("local", QVariant.bool true)]),
     ("ratingKey", QVariant.string ratingKey), ("title", QVariant.string "Song"),
     ("type", QVariant.string "track"), ("grandparentTitle", QVariant.string "Band"),
     ("thumb", QVariant.string "/thumb/1"), ("duration", QVariant.int 200500),
     ("viewOffset", QVariant.int 1999)]

/-- A sessions document with the given entries. -/
def sampleSessions (entries : List QVariant) : QVariantMap :=
  [("MediaContainer", QVariant.map
      [("size", QVariant.int entries.length), ("Metadata", QVariant.list entries)])]

/-- A sessions document without sessions: the server leaves `Metadata` out. -/
def noSessions : QVariantMap :=
  [("MediaContainer", QVariant.map [("size", QVariant.int 0)])]

/-- A freshly constructed object with an entity, before any answer. -/
def freshWorld : World :=
  { self := PlexMedia.init "user" "secret" "plex" "10.0.0.2" "32400" 0 0,
    entity := some sampleEntity, handlers := [], trace := [] }

/-- A signed-in object with a resolved server and a selected player. -/
def readyWorld : World :=
  { self := { PlexMedia.init "user" "secret" "plex" "10.0.0.2" "32400" 0 0 with
      m_authToken := "tok", m_serverId := "srv", m_playerId := "p1", m_playerIP := "10.0.0.7",
      m_playerPort := "32500", m_playerURL := "http://10.0.0.7:32500",
      m_speakerRequest := false, m_playerConnected := true },
    entity := some sampleEntity, handlers := [], trace := [] }

end Plex

namespace Spotify

/-- An object that has not yet received a token. -/
def sampleBase : SpotifyBase :=
  { m_access_token := "", m_refresh_token := "r", m_token_expire := 0,
    m_tokenTimeOutTimer := none, timers := [] }

/-- An answer of the token endpoint with the given life time in seconds. -/
def tokenAnswer (e : Int) : Plex.Body :=
  Plex.Body.json (Plex.QVariant.map
    [("access_token", Plex.QVariant.string "a"), ("expires_in", Plex.QVariant.int e)])

end Spotify

namespace Plex

/-- The address of the sessions list of the sample server. -/
def sessionsURL : String := "http://10.0.0.2:32400/status/sessions"

/-- A poll document of a player that is playing track 11. -/
def playingTimeline : List Timeline :=
  [[("type", "music"), ("state", "playing"), ("volume", "80"), ("playQueueID", "5"),
    ("duration", "200500"), ("time", "3000"), ("ratingKey", "11")]]

/-- A run of the object: sign in, a tick, the server lists player `p1`, a tick,
the server lists no session (the player is cleared and `m_playerConnected`
is false again), a tick, and the direct poll of `p1` answers that it is playing. -/
def playerGoneRun : Option World :=
  let w := authReply (Body.json (QVariant.map
    [("user", QVariant.map [("authToken", QVariant.string "tok")])])) (connect freshWorld)
  let w := getCurrentPlayer w
  (getReply sessionsURL (Body.json (QVariant.map
      (sampleSessions [sampleSession "p1" "10.0.0.7" "11" "playing"]))) w).bind fun w =>
    (getReply sessionsURL (Body.json (QVariant.map noSessions)) (getCurrentPlayer w)).bind
      fun w => some (pollReply 200 (some playingTimeline) (getCurrentPlayer w))

end Plex

namespace Plex

/-- A sessions document with two players, `p0` and `p1`. -/
def twoSessions : QVariantMap :=
  sampleSessions [sampleSession "p0" "10.0.0.6" "10" "paused",
                  sampleSession "p1" "10.0.0.7" "11" "playing"]

end Plex

namespace Plex

/-- One event of network traffic: a request handed to one of the four sending
functions, or an answer that reaches no `requestReady` lambda (any answer to a
poll or a PUT, and an empty or unparsable answer to a GET or a POST). -/
inductive Traffic where
  | get (url params : String)
  | post (url params : String)
  | put (url params : String)
  | poll (url params : String)
  | pollAnswer (statusCode : Int) (doc : Option (List Timeline))
  | putAnswer (statusCode : Int)
  | getFailed (url : String) (malformed : Bool)
  | postFailed (url : String) (statusCode : Int) (malformed : Bool)

/-- Whether the event is a send. -/
def Traffic.isSend : Traffic → Bool
  | Traffic.get _ _ => true
  | Traffic.post _ _ => true
  | Traffic.put _ _ => true
  | Traffic.poll _ _ => true
  | _ => false

/-- The event carried out on the object. -/
def Traffic.run (t : Traffic) (w : World) : World :=
  match t with
  | Traffic.get url params => getRequest url params w
  | Traffic.post url params => postRequest url params w
  | Traffic.put url params => putRequest url params w
  | Traffic.poll url params => getPollRequest url params w
  | Traffic.pollAnswer statusCode doc => pollReply statusCode doc w
  | Traffic.putAnswer statusCode => putReply statusCode w
  | Traffic.getFailed url malformed =>
    (getReply url (if malformed then Body.malformed else Body.empty) w).getD w
  | Traffic.postFailed url statusCode malformed =>
    (postReply url statusCode (if malformed then Body.malformed else Body.empty) w).getD w

/-- The events carried out one after the other. -/
def runTraffic : List Traffic → World → World
  | [], w => w
  | t :: ts, w => runTraffic ts (t.run w)

/-- The number of sends among the events. -/
def countSends (ts : List Traffic) : Nat := (ts.filter Traffic.isSend).length

/-- The `commandId` of an effect that is a request. -/
def Effect.commandId? : Effect → Option Int
  | Effect.request r => some r.commandId
  | _ => none

/-- The `commandId`s of all requests sent so far, oldest first. -/
def sentIds (w : World) : List Int := w.trace.filterMap Effect.commandId?

/-- A mix of sends and failing answers. -/
def sampleTraffic : List Traffic :=
  [Traffic.get "http://10.0.0.7:32500/player/playback/play" "",
   Traffic.getFailed "http://10.0.0.7:32500/player/playback/play" true,
   Traffic.poll "http://10.0.0.7:32500/player/timeline/poll" "?wait=1",
   Traffic.pollAnswer 0 none,
   Traffic.put "http://10.0.0.2:32400/playQueues/5" "?type=audio",
   Traffic.putAnswer 500,
   Traffic.post "http://10.0.0.2:32400/playQueues" "?playlistID=42",
   Traffic.postFailed "http://10.0.0.2:32400/playQueues" 404 false]

end Plex

namespace Plex

/-- The URL a connected lambda waits for. -/
def Handler.url : Handler → String
  | Handler.machineIdentifier url => url
  | Handler.search url => url
  | Handler.album url => url
  | Handler.playlist url => url
  | Handler.userPlaylists all_url => all_url
  | Handler.nowPlaying now_url => now_url
  | Handler.sessions url => url
  | Handler.clients url => url
  | Handler.playPlaylist url _ => url

/-- The parameter of a play command for playlist 42. -/
def playlistParam : QVariant :=
  QVariant.map [("type", QVariant.string "playlist"), ("id", QVariant.string "42")]

/-- The parameter of a play command for track 7. -/
def trackParam : QVariant :=
  QVariant.map [("type", QVariant.string "track"), ("id", QVariant.string "7")]

/-- The answer of the server to the creation of play queue 9. -/
def playQueueAnswer : QVariant :=
  QVariant.map [("MediaContainer", QVariant.map [("playQueueID", QVariant.int 9)])]

end Plex

namespace Plex

/-- The object right after the play command for playlist 42 was dispatched. -/
def playlistDispatched : World :=
  sendCommand sampleCommands "media_player" "plex" sampleCommands.C_PLAY_ITEM playlistParam
    readyWorld

end Plex

namespace Plex

/-! ## The parts of a tick and views of the trace -/

/-- The request that a send builds from the object `s` when the counter is `cmdId`. -/
def requestOf (m : Method) (url params : String) (s : PlexMedia) (cmdId : Int) : Request :=
  { method := m, url := url, params := params, commandId := cmdId,
    address := requestAddress url params cmdId, token := s.m_authToken, target := s.m_playerId }

/-- The request of an effect that is one. -/
def Effect.request? : Effect → Option Request
  | Effect.request r => some r
  | _ => none

/-- The requests that were sent between the world `w` and the later world `w1`. -/
def newRequests (w w1 : World) : List Request :=
  (w1.trace.drop w.trace.length).filterMap Effect.request?

/-- The condition under which a tick asks the server for the sessions
(plexmedia.cpp 528). -/
def needsSessions (s : PlexMedia) : Bool :=
  s.m_playerId = "" || s.m_speakerRequest || !s.m_directConn || s.m_newTrack

/-- The first part of a tick (plexmedia.cpp 528-638): the sessions query. -/
def tickSessions (w : World) : World :=
  if w.self.m_playerId = "" || w.self.m_speakerRequest || !w.self.m_directConn
      || w.self.m_newTrack then
    let url := w.self.m_serverURL ++ "/status/sessions"
    let w := if w.self.m_pollingTimer_interval < 4000
      then w.setSelf (fun s => { s with m_pollingTimer_interval := 4000 }) else w
    getRequest url "" (w.connectHandler (Handler.sessions url))
  else w

/-- The second part of a tick (plexmedia.cpp 645-664): the port lookup. -/
def tickPort (w : World) : World :=
  if w.self.m_playerPort = "0" then
    let url := w.self.m_serverURL ++ "/clients"
    let w := getRequest url "" (w.connectHandler (Handler.clients url))
    if w.self.m_playerPort ≠ "0" then
      w.setSelf (fun s => { s with
        m_playerURL := "http://" ++ s.m_playerIP ++ ":" ++ s.m_playerPort })
    else w
  else w

/-- The third part of a tick (plexmedia.cpp 666-670): the direct poll. -/
def tickPoll (w : World) : World :=
  if w.self.m_playerURL ≠ "" then
    getPollRequest (w.self.m_playerURL ++ "/player/timeline/poll") "?wait=1" w
  else w

/-- The last `Timeline` of a poll document, in document order, whose state is
not `"stopped"`. -/
def lastActive (timelines : List Timeline) : Option Timeline :=
  (timelines.filter (fun n => n.attribute "state" ≠ "stopped")).getLast?

/-- The object after `connect` and the answer of plex.tv with the token. The
lookup of the server id was held back for want of a token, so `m_serverId` is
still empty. -/
def signedIn : World :=
  authReply (Body.json (QVariant.map
    [("user", QVariant.map [("authToken", QVariant.string "tok")])])) (connect freshWorld)

/-- The run up to the first discovery: signed in, a tick, and the server lists
player `p1`. The port of `p1` is not yet known. -/
def discoveredRun : Option World :=
  getReply sessionsURL (Body.json (QVariant.map
    (sampleSessions [sampleSession "p1" "10.0.0.7" "11" "playing"]))) (getCurrentPlayer signedIn)

/-- The run continued: a tick polls `p1` directly and the poll fails with status 0. -/
def pollFailedRun : Option World :=
  discoveredRun.map (fun w => pollReply 0 none (getCurrentPlayer w))

/-- The run continued differently: a tick polls `p1` directly and the poll
succeeds. -/
def pollOkRun : Option World :=
  discoveredRun.map (fun w => pollReply 200 (some playingTimeline) (getCurrentPlayer w))

/-- After the successful poll, the next tick polls again and the answer has
status 200 and a body that is no XML document. -/
def pollUnparsableRun : Option World :=
  pollOkRun.map (fun w => pollReply 200 none (getCurrentPlayer w))

/-- A ready object with a play queue. -/
def queueWorld : World :=
  readyWorld.setSelf (fun s => { s with m_playerQueue := "5" })

/-- The run continued differently: the second sign-in started by `connect`
is answered with an empty `authToken`. -/
def tokenLostRun : Option World :=
  discoveredRun.map (fun w => authReply (Body.json (QVariant.map
    [("user", QVariant.map [("authToken", QVariant.string "")])])) w)

/-- A poll document with a stopped photo, a playing video and a stopped music entry. -/
def mixedTimeline : List Timeline :=
  [[("type", "photo"), ("state", "stopped"), ("volume", "10")],
   [("type", "video"), ("state", "playing"), ("volume", "70"), ("playQueueID", "8"),
    ("duration", "90000"), ("time", "1500"), ("ratingKey", "21")],
   [("type", "music"), ("state", "stopped"), ("volume", "20")]]

end Plex

namespace Plex

/-- The five playback fields that a poll answer updates: volume, queue, state,
duration and time. -/
def playbackFields (s : PlexMedia) : Int × String × String × Int × Int :=
  (s.m_playerVol, s.m_playerQueue, s.m_playerState, s.m_playerDuration, s.m_playerTime)

/-- The volume, `playQueueID`, state, duration and time of a `Timeline`, as the
poll lambda reads them. -/
def timelineFields (n : Timeline) : Int × String × String × Int × Int :=
  (qToInt (n.attribute "volume"), n.attribute "playQueueID", n.attribute "state",
   qToInt (n.attribute "duration"), qToInt (n.attribute "time"))

end Plex

namespace Plex

/-! ## Views of the trace for sign-ins and published attributes -/

/-- Whether the effect is the start of a sign-in at plex.tv. -/
def Effect.isSignIn : Effect → Bool
  | Effect.signIn _ _ => true
  | _ => false

/-- The number of sign-ins started so far. -/
def signIns (w : World) : Nat := (w.trace.filter Effect.isSignIn).length

/-- The attribute and value of an effect that publishes one. -/
def Effect.attr? : Effect → Option (Attributes × AttrValue)
  | Effect.updateAttr a v => some (a, v)
  | _ => none

/-- The attributes published between the world `w` and the later world `w1`,
in the order of publication. -/
def newAttributes (w w1 : World) : List (Attributes × AttrValue) :=
  (w1.trace.drop w.trace.length).filterMap Effect.attr?

/-- The state published for the state text of a player (plexmedia.cpp 610-614
and 899-903). -/
def publishedState (state : String) : States :=
  if state = "playing" then States.PLAYING else States.IDLE

/-- The seven attributes that the sessions handler publishes for the selected
entry `p`, in the order of plexmedia.cpp 584-621. -/
def sessionAttributes (serverURL : String) (p : QVariant) : List Effect :=
  [Effect.updateAttr Attributes.MEDIAIMAGE (AttrValue.text (serverURL ++ sessionImage p)),
   Effect.updateAttr Attributes.SOURCE (AttrValue.text ((sessionPlayer p).value "title").toString),
   Effect.updateAttr Attributes.MEDIATITLE (AttrValue.text (p.toMap.value "title").toString),
   Effect.updateAttr Attributes.MEDIAARTIST (AttrValue.text (trackParent p)),
   Effect.updateAttr Attributes.STATE
     (AttrValue.state (publishedState ((sessionPlayer p).value "state").toString)),
   Effect.updateAttr Attributes.MEDIADURATION
     (AttrValue.number (Int.tdiv (p.toMap.value "duration").toInt 1000)),
   Effect.updateAttr Attributes.MEDIAPROGRESS
     (AttrValue.number (Int.tdiv (p.toMap.value "viewOffset").toInt 1000))]

/-- The sessions document that lists player `p1` on track 11. -/
def oneSession : QVariantMap :=
  sampleSessions [sampleSession "p1" "10.0.0.7" "11" "playing"]

/-- A poll document of a player that is playing track 12. -/
def nextTrackTimeline : List Timeline :=
  [[("type", "music"), ("state", "playing"), ("volume", "80"), ("playQueueID", "5"),
    ("duration", "180000"), ("time", "0"), ("ratingKey", "12")]]

end Plex

namespace Plex

/-- The speaker model of an effect that publishes one. -/
def Effect.speakerModel? : Effect → Option (List SpeakerItem)
  | Effect.setSpeakerModel items => some items
  | _ => none

/-- The speaker models published between the world `w` and the later world `w1`. -/
def newSpeakerModels (w w1 : World) : List (List SpeakerItem) :=
  (w1.trace.drop w.trace.length).filterMap Effect.speakerModel?

/-- The four attributes that the poll handler publishes from the object `s`
(plexmedia.cpp 896-907). -/
def pollAttributes (s : PlexMedia) : List Effect :=
  [Effect.updateAttr Attributes.VOLUME (AttrValue.number s.m_playerVol),
   Effect.updateAttr Attributes.STATE (AttrValue.state (publishedState s.m_playerState)),
   Effect.updateAttr Attributes.MEDIADURATION (AttrValue.number (Int.tdiv s.m_playerDuration 1000)),
   Effect.updateAttr Attributes.MEDIAPROGRESS (AttrValue.number (Int.tdiv s.m_playerTime 1000))]

end Plex

namespace Plex

/-- The requests of one tick of the object `s` when there is an entity and a
token, in the order of sending (plexmedia.cpp 528-670): the sessions query, the
port lookup and the direct poll, each under its condition. -/
def tickRequests (s : PlexMedia) : List Request :=
  let c1 := s.m_cmdId + (if needsSessions s then 1 else 0)
  let c2 := c1 + (if s.m_playerPort = "0" then 1 else 0)
  (if needsSessions s then
      [requestOf Method.GET (s.m_serverURL ++ "/status/sessions") "" s s.m_cmdId]
    else [])
  ++ (if s.m_playerId ≠ "" then
        (if s.m_playerPort = "0" then
            [requestOf Method.GET (s.m_serverURL ++ "/clients") "" s c1]
          else [])
        ++ (if s.m_playerURL ≠ "" then
              [requestOf Method.POLL (s.m_playerURL ++ "/player/timeline/poll") "?wait=1" s c2]
            else [])
      else [])

/-- The run up to a selected player on a resolved server: signed in, a play
command that finds no server id and starts the identity lookup, the server
answers with its id, a tick, and the server lists player `p1`. -/
def resolvedRun : Option World :=
  (getReply "http://10.0.0.2:32400/identity" (Body.json (QVariant.map
      [("MediaContainer", QVariant.map [("machineIdentifier", QVariant.string "srv")])]))
    (sendCommand sampleCommands "media_player" "plex" sampleCommands.C_PLAY (QVariant.string "")
      signedIn)).bind fun w =>
    getReply sessionsURL (Body.json (QVariant.map oneSession)) (getCurrentPlayer w)

/-- The run continued: the second sign-in started by `connect` is answered with
an empty `authToken`. -/
def tokenEmptyRun : Option World :=
  resolvedRun.map (fun w => authReply (Body.json (QVariant.map
    [("user", QVariant.map [("authToken", QVariant.string "")])])) w)

end Plex

namespace Plex

/-- One event on the object other than an answer through `requestReady`: a
polling tick, the answer to a direct poll, or a command. -/
inductive Step where
  | tick
  | pollAnswer (statusCode : Int) (doc : Option (List Timeline))
  | command (type entityId : String) (command : Int) (param : QVariant)

/-- The event carried out on the object. -/
def Step.run (d : MediaPlayerDef) (st : Step) (w : World) : World :=
  match st with
  | Step.tick => onPollingTimerTimeout w
  | Step.pollAnswer statusCode doc => pollReply statusCode doc w
  | Step.command t e c p => sendCommand d t e c p w

/-- The events carried out one after the other. -/
def runSteps (d : MediaPlayerDef) : List Step → World → World
  | [], w => w
  | st :: sts, w => runSteps d sts (st.run d w)

end Plex

namespace Plex

/-- The object after a tick and the play command for playlist 42: the sessions
query of the tick and the POST of the command are both unanswered. -/
def playlistPendingRun : World :=
  sendCommand sampleCommands "media_player" "plex" sampleCommands.C_PLAY_ITEM playlistParam
    (getCurrentPlayer readyWorld)

/-- An answer of the server to `/clients` that lists player `p1` on port 32433. -/
def clientsAnswer : QVariant :=
  QVariant.map [("MediaContainer", QVariant.map
    [("Server", QVariant.list [QVariant.map
      [("machineIdentifier", QVariant.string "p1"), ("port", QVariant.string "32433")]])])]

end Plex

/-! # Theorems -/

namespace Spotify

open Plex

theorem wrapInt_of_range (n : Int) (h1 : INT_MIN ≤ n) (h2 : n ≤ INT_MAX) : wrapInt n = n := by
  unfold wrapInt
  unfold INT_MIN at h1
  unfold INT_MAX at h2
  omega

/-- The timer started by the reply lambda when the answer carries `expires_in`. -/
theorem refreshAccessTokenReply_timer (s : SpotifyBase) (m : QVariantMap) (e : Int)
    (he : m.lookup "expires_in" = some (QVariant.int e)) :
    (refreshAccessTokenReply (Body.json (QVariant.map m)) s).m_tokenTimeOutTimer
      = some { singleShot := true, msec := wrapInt (wrapInt (e - 60) * 1000) } := by
  unfold refreshAccessTokenReply
  simp only [QVariant.toMap, QVariantMap.contains, QVariantMap.value, he, Option.isSome_some,
    Option.getD_some, QVariant.toInt, if_true]
  split_ifs <;> rfl

end Spotify

namespace Spotify

open Plex

/-- The list of started timers grows by exactly the new timer. -/
theorem refreshAccessTokenReply_timers (s : SpotifyBase) (m : QVariantMap) (e : Int)
    (he : m.lookup "expires_in" = some (QVariant.int e)) :
    (refreshAccessTokenReply (Body.json (QVariant.map m)) s).timers
      = s.timers ++ [{ singleShot := true, msec := wrapInt (wrapInt (e - 60) * 1000) }] := by
  unfold refreshAccessTokenReply
  simp only [QVariant.toMap, QVariantMap.contains, QVariantMap.value, he, Option.isSome_some,
    Option.getD_some, QVariant.toInt, if_true]
  split_ifs <;> rfl

/-- The product `(e - 60) * 1000` is computed exactly when it fits in an `int`. -/
theorem wrapInt_delay (e : Int) (hmin : INT_MIN ≤ (e - 60) * 1000)
    (hmax : (e - 60) * 1000 ≤ INT_MAX) : wrapInt (wrapInt (e - 60) * 1000) = (e - 60) * 1000 := by
  have h1 : wrapInt (e - 60) = e - 60 := by
    apply wrapInt_of_range <;> simp only [INT_MIN, INT_MAX] at * <;> omega
  rw [h1]
  exact wrapInt_of_range _ hmin hmax

/-- C9: for an auth response with `expires_in = e`, `e ≥ 60` and `(e-60)*1000`
within the range of `int`, the reply lambda of `refreshAccessToken` starts one
new single-shot timer with exactly `(e - 60) * 1000` milliseconds; for
`e = 3600` that is 3540 seconds. -/
theorem token_renewal_delay (s : SpotifyBase) (m : QVariantMap) (e : Int)
    (he : m.lookup "expires_in" = some (QVariant.int e)) (h60 : 60 ≤ e)
    (hmax : (e - 60) * 1000 ≤ INT_MAX) :
    (refreshAccessTokenReply (Body.json (QVariant.map m)) s).m_tokenTimeOutTimer
        = some { singleShot := true, msec := (e - 60) * 1000 }
    ∧ (refreshAccessTokenReply (Body.json (QVariant.map m)) s).timers
        = s.timers ++ [{ singleShot := true, msec := (e - 60) * 1000 }]
    ∧ (e = 3600 →
        (refreshAccessTokenReply (Body.json (QVariant.map m)) s).m_tokenTimeOutTimer
          = some { singleShot := true, msec := 3540 * 1000 }) := by
  have hmin : INT_MIN ≤ (e - 60) * 1000 := by simp only [INT_MIN]; omega
  have hw := wrapInt_delay e hmin hmax
  refine ⟨?_, ?_, ?_⟩
  · rw [refreshAccessTokenReply_timer s m e he, hw]
  · rw [refreshAccessTokenReply_timers s m e he, hw]
  · intro h
    subst h
    rw [refreshAccessTokenReply_timer s m 3600 he, hw]
    rfl

/-- C9 at `expires_in = 3600`: the timer is started with 3540000 ms. -/
theorem token_renewal_delay_witness :
    (refreshAccessTokenReply (tokenAnswer 3600) sampleBase).m_tokenTimeOutTimer
      = some { singleShot := true, msec := 3540000 } :=
  (token_renewal_delay sampleBase
    [("access_token", QVariant.string "a"), ("expires_in", QVariant.int 3600)] 3600
    rfl (by decide) (by decide)).1

/-- C10, counterexample: for `expires_in = 0` the timer is started with
`-60000` ms, not with `max (0 - 60) 0` seconds. -/
theorem token_renewal_delay_not_clamped :
    (refreshAccessTokenReply (tokenAnswer 0) sampleBase).m_tokenTimeOutTimer
        = some { singleShot := true, msec := -60000 }
    ∧ (refreshAccessTokenReply (tokenAnswer 0) sampleBase).m_tokenTimeOutTimer
        ≠ some { singleShot := true, msec := max (0 - 60) 0 * 1000 } := by
  constructor
  · decide
  · decide

/-- C10, amended: for an auth response with `expires_in = e` and `(e-60)*1000`
within the range of `int`, the timer is started with `(e - 60) * 1000` ms and
nothing is clamped: for `e ≥ 60` this is `max (e - 60) 0` seconds, for `e < 60`
the value handed to the timer is negative. -/
theorem token_renewal_delay_unclamped (s : SpotifyBase) (m : QVariantMap) (e : Int)
    (he : m.lookup "expires_in" = some (QVariant.int e))
    (hmin : INT_MIN ≤ (e - 60) * 1000) (hmax : (e - 60) * 1000 ≤ INT_MAX) :
    (refreshAccessTokenReply (Body.json (QVariant.map m)) s).m_tokenTimeOutTimer
        = some { singleShot := true, msec := (e - 60) * 1000 }
    ∧ (60 ≤ e → (e - 60) * 1000 = max (e - 60) 0 * 1000)
    ∧ (e < 60 → (e - 60) * 1000 < 0) := by
  refine ⟨?_, ?_, ?_⟩
  · rw [refreshAccessTokenReply_timer s m e he, wrapInt_delay e hmin hmax]
  · intro h
    rw [max_eq_left (by omega)]
  · intro h
    omega

/-- C10 amended, at `expires_in = 30`: the timer is started with `-30000` ms. -/
theorem token_renewal_delay_unclamped_witness :
    (refreshAccessTokenReply (tokenAnswer 30) sampleBase).m_tokenTimeOutTimer
      = some { singleShot := true, msec := (30 - 60) * 1000 } :=
  (token_renewal_delay_unclamped sampleBase
    [("access_token", QVariant.string "a"), ("expires_in", QVariant.int 30)] 30
    rfl (by decide) (by decide)).1

end Spotify

namespace Plex

/-! ## Basic facts on the surroundings -/

@[simp] theorem updateAttrByIndex_self (a : Attributes) (v : AttrValue) (w : World) :
    (updateAttrByIndex a v w).self = w.self := by
  unfold updateAttrByIndex
  cases w.entity <;> rfl

@[simp] theorem updateAttrByIndex_handlers (a : Attributes) (v : AttrValue) (w : World) :
    (updateAttrByIndex a v w).handlers = w.handlers := by
  unfold updateAttrByIndex
  cases w.entity <;> rfl

@[simp] theorem setSelf_self (w : World) (f : PlexMedia → PlexMedia) :
    (w.setSelf f).self = f w.self := rfl

@[simp] theorem setSelf_entity (w : World) (f : PlexMedia → PlexMedia) :
    (w.setSelf f).entity = w.entity := rfl

@[simp] theorem setSelf_trace (w : World) (f : PlexMedia → PlexMedia) :
    (w.setSelf f).trace = w.trace := rfl

@[simp] theorem setSelf_handlers (w : World) (f : PlexMedia → PlexMedia) :
    (w.setSelf f).handlers = w.handlers := rfl

@[simp] theorem emit_self (w : World) (e : Effect) : (w.emit e).self = w.self := rfl

@[simp] theorem emit_entity (w : World) (e : Effect) : (w.emit e).entity = w.entity := rfl

@[simp] theorem emit_trace (w : World) (e : Effect) : (w.emit e).trace = w.trace ++ [e] := rfl

@[simp] theorem emit_handlers (w : World) (e : Effect) : (w.emit e).handlers = w.handlers := rfl

@[simp] theorem connectHandler_self (w : World) (h : Handler) :
    (w.connectHandler h).self = w.self := rfl

@[simp] theorem connectHandler_entity (w : World) (h : Handler) :
    (w.connectHandler h).entity = w.entity := rfl

@[simp] theorem connectHandler_trace (w : World) (h : Handler) :
    (w.connectHandler h).trace = w.trace := rfl

@[simp] theorem connectHandler_handlers (w : World) (h : Handler) :
    (w.connectHandler h).handlers = w.handlers ++ [h] := rfl

theorem getSpeakers_self (map : QVariantMap) (w : World) :
    (getSpeakers map w).self = { w.self with m_speakerRequest := false } := by
  unfold getSpeakers
  cases w.entity <;> rfl

/-- A key whose value converts to a non-empty list is contained in the map. -/
theorem contains_of_toList_ne_nil (m : QVariantMap) (key : String)
    (h : (m.value key).toList ≠ []) : m.contains key = true := by
  unfold QVariantMap.value at h
  unfold QVariantMap.contains
  cases hl : m.lookup key with
  | none => rw [hl] at h; exact absurd rfl h
  | some v => rfl

/-! ## The search for the held player -/

theorem findPlayer_some_of_mem (players : List QVariant) (id : String)
    (h : ∃ p ∈ players, machineIdentifierOf p = id) : ∃ i, findPlayer players id = some i := by
  induction players with
  | nil => obtain ⟨p, hp, _⟩ := h; cases hp
  | cons q qs ih =>
    unfold findPlayer
    by_cases hq : machineIdentifierOf q = id
    · exact ⟨0, by rw [if_pos hq]⟩
    · rw [if_neg hq]
      obtain ⟨p, hp, hpid⟩ := h
      rcases List.mem_cons.mp hp with hpq | hpqs
      · exact absurd (hpq ▸ hpid) hq
      · obtain ⟨i, hi⟩ := ih ⟨p, hpqs, hpid⟩
        exact ⟨i + 1, by rw [hi]; rfl⟩

theorem findPlayer_none_of_not_mem (players : List QVariant) (id : String)
    (h : ∀ p ∈ players, machineIdentifierOf p ≠ id) : findPlayer players id = none := by
  induction players with
  | nil => rfl
  | cons q qs ih =>
    unfold findPlayer
    rw [if_neg (h q (List.mem_cons_self q qs)), ih (fun p hp => h p (List.mem_cons_of_mem q hp))]
    rfl

/-- The index found is that of the first entry with the wanted identifier. -/
theorem findPlayer_first (players : List QVariant) (id : String) (i : Nat)
    (h : findPlayer players id = some i) :
    (∃ p, players[i]? = some p ∧ machineIdentifierOf p = id)
    ∧ ∀ j q, j < i → players[j]? = some q → machineIdentifierOf q ≠ id := by
  induction players generalizing i with
  | nil => cases h
  | cons q qs ih =>
    unfold findPlayer at h
    by_cases hq : machineIdentifierOf q = id
    · rw [if_pos hq] at h
      cases h
      exact ⟨⟨q, by simp, hq⟩, fun j _ hj => absurd hj (Nat.not_lt_zero j)⟩
    · rw [if_neg hq] at h
      cases hf : findPlayer qs id with
      | none => rw [hf] at h; cases h
      | some k =>
        rw [hf] at h
        cases h
        obtain ⟨⟨p, hp, hpid⟩, hfirst⟩ := ih k hf
        refine ⟨⟨p, by simpa using hp, hpid⟩, ?_⟩
        intro j r hj hr
        cases j with
        | zero =>
          have : q = r := by simpa using hr
          exact this ▸ hq
        | succ j => exact hfirst j r (Nat.lt_of_succ_lt_succ hj) (by simpa using hr)

theorem choosePlayer_found (players : List QVariant) (w : World) (i : Nat)
    (hf : findPlayer players w.self.m_playerId = some i) (hid : w.self.m_playerId ≠ "") :
    choosePlayer players w = (i, w) := by
  unfold choosePlayer
  simp [hf, hid]

theorem choosePlayer_not_found (players : List QVariant) (w : World)
    (hf : findPlayer players w.self.m_playerId = none) :
    choosePlayer players w
      = (0, w.setSelf (fun s => { s with m_playerId := "", m_playerPort := "0" })) := by
  unfold choosePlayer
  simp [hf, World.setSelf]

end Plex

namespace Plex

/-! ## The selected session entry -/

theorem applySession_playerId (p : QVariant) (w : World) :
    (applySession p w).self.m_playerId = machineIdentifierOf p := by
  unfold applySession
  simp only [updateAttrByIndex_self, setSelf_self]
  split_ifs <;> simp only [updateAttrByIndex_self, setSelf_self]

theorem applySession_playerIP (p : QVariant) (w : World) :
    (applySession p w).self.m_playerIP = ((sessionPlayer p).value "address").toString := by
  unfold applySession
  simp only [updateAttrByIndex_self, setSelf_self]
  split_ifs <;> simp only [updateAttrByIndex_self, setSelf_self]

theorem applySession_playerPort (p : QVariant) (w : World) :
    (applySession p w).self.m_playerPort = w.self.m_playerPort := by
  unfold applySession
  simp only [updateAttrByIndex_self, setSelf_self]
  split_ifs <;> simp only [updateAttrByIndex_self, setSelf_self]

theorem applySession_currentTrack (p : QVariant) (w : World) :
    (applySession p w).self.m_playerCurrentTrack = (p.toMap.value "ratingKey").toString := by
  unfold applySession
  simp only [updateAttrByIndex_self, setSelf_self]
  by_cases h : w.self.m_playerCurrentTrack = (p.toMap.value "ratingKey").toString
  · simp only [if_pos h]
    split_ifs <;> simp only [updateAttrByIndex_self, setSelf_self] <;> exact h
  · simp only [if_neg h]
    split_ifs <;> simp only [updateAttrByIndex_self, setSelf_self]

theorem applySession_newTrack (p : QVariant) (w : World) :
    (applySession p w).self.m_newTrack = false
      ↔ (p.toMap.value "ratingKey").toString = w.self.m_playerCurrentTrack := by
  unfold applySession
  simp only [updateAttrByIndex_self, setSelf_self]
  by_cases h : w.self.m_playerCurrentTrack = (p.toMap.value "ratingKey").toString
  · simp only [if_pos h]
    split_ifs <;> simp only [updateAttrByIndex_self, setSelf_self] <;>
      exact ⟨fun _ => h.symm, fun _ => trivial⟩
  · simp only [if_neg h]
    split_ifs <;> simp only [updateAttrByIndex_self, setSelf_self] <;>
      exact ⟨fun h2 => Bool.noConfusion h2, fun h2 => absurd h2.symm h⟩

end Plex

namespace Plex

/-! ## The sessions handler -/

/-- With sessions in the answer the handler marks the player connected, serves
a pending speaker request, chooses the entry and applies it; none of the first
steps touches the held player, the port or the stored track. -/
theorem onSessions_listed (url : String) (map : QVariantMap) (w : World)
    (hc : (map.value "MediaContainer").toMap.contains "Metadata" = true) :
    ∃ w0 : World, w0.self.m_playerId = w.self.m_playerId
      ∧ w0.self.m_playerPort = w.self.m_playerPort
      ∧ w0.self.m_playerCurrentTrack = w.self.m_playerCurrentTrack
      ∧ onSessions url map url w =
        match (((map.value "MediaContainer").toMap.value "Metadata").toList)[
          (choosePlayer ((map.value "MediaContainer").toMap.value "Metadata").toList w0).1]? with
        | none => none
        | some p => some (applySession p
            (choosePlayer ((map.value "MediaContainer").toMap.value "Metadata").toList w0).2) := by
  unfold onSessions
  simp only [if_true, hc]
  by_cases hs : w.self.m_speakerRequest = true
  · refine ⟨getSpeakers map (w.setSelf (fun s => { s with m_playerConnected := true })),
      ?_, ?_, ?_, ?_⟩
    · rw [getSpeakers_self]; rfl
    · rw [getSpeakers_self]; rfl
    · rw [getSpeakers_self]; rfl
    · simp [hs]
  · refine ⟨w.setSelf (fun s => { s with m_playerConnected := true }), rfl, rfl, rfl, ?_⟩
    simp [hs]

/-- C1: when the session list of the answer contains an entry whose
`Player.machineIdentifier` is the held (non-empty) `m_playerId`, the sessions
handler returns, selects the first such entry, takes `m_playerIP` from it and
leaves `m_playerId` and the port as they were. -/
theorem discovery_keeps_held_player (w : World) (url : String) (map : QVariantMap)
    (hid : w.self.m_playerId ≠ "")
    (hex : ∃ p ∈ ((map.value "MediaContainer").toMap.value "Metadata").toList,
      machineIdentifierOf p = w.self.m_playerId) :
    ∃ (i : Nat) (p : QVariant) (w1 : World),
      (((map.value "MediaContainer").toMap.value "Metadata").toList)[i]? = some p
      ∧ machineIdentifierOf p = w.self.m_playerId
      ∧ (∀ (j : Nat) (q : QVariant), j < i →
          (((map.value "MediaContainer").toMap.value "Metadata").toList)[j]? = some q →
          machineIdentifierOf q ≠ w.self.m_playerId)
      ∧ onSessions url map url w = some w1
      ∧ w1.self.m_playerId = w.self.m_playerId
      ∧ w1.self.m_playerIP = ((sessionPlayer p).value "address").toString
      ∧ w1.self.m_playerPort = w.self.m_playerPort := by
  have hne : ((map.value "MediaContainer").toMap.value "Metadata").toList ≠ [] := by
    obtain ⟨p, hp, _⟩ := hex
    exact List.ne_nil_of_mem hp
  obtain ⟨i, hi⟩ := findPlayer_some_of_mem _ _ hex
  obtain ⟨⟨p, hp, hpid⟩, hfirst⟩ := findPlayer_first _ _ i hi
  obtain ⟨w0, h1, h2, _, heq⟩ :=
    onSessions_listed url map w (contains_of_toList_ne_nil _ _ hne)
  have hc := choosePlayer_found ((map.value "MediaContainer").toMap.value "Metadata").toList
    w0 i (h1 ▸ hi) (h1 ▸ hid)
  rw [hc] at heq
  simp only [hp] at heq
  refine ⟨i, p, applySession p w0, hp, hpid, hfirst, heq, ?_, ?_, ?_⟩
  · rw [applySession_playerId, hpid]
  · rw [applySession_playerIP]
  · rw [applySession_playerPort, h2]

/-- C2: when the session list is not empty and no entry has the held
`m_playerId`, the sessions handler returns and selects entry 0: `m_playerId` and
`m_playerIP` are those of the first entry and `m_playerPort` is `"0"`. -/
theorem discovery_falls_back_to_first (w : World) (url : String) (map : QVariantMap)
    (p0 : QVariant) (rest : List QVariant)
    (hl : ((map.value "MediaContainer").toMap.value "Metadata").toList = p0 :: rest)
    (hno : ∀ p ∈ ((map.value "MediaContainer").toMap.value "Metadata").toList,
      machineIdentifierOf p ≠ w.self.m_playerId) :
    ∃ w1, onSessions url map url w = some w1
      ∧ w1.self.m_playerId = machineIdentifierOf p0
      ∧ w1.self.m_playerIP = ((sessionPlayer p0).value "address").toString
      ∧ w1.self.m_playerPort = "0" := by
  have hne : ((map.value "MediaContainer").toMap.value "Metadata").toList ≠ [] := by
    rw [hl]; exact List.cons_ne_nil _ _
  obtain ⟨w0, h1, _, _, heq⟩ :=
    onSessions_listed url map w (contains_of_toList_ne_nil _ _ hne)
  have hf := findPlayer_none_of_not_mem _ _ hno
  have hc := choosePlayer_not_found ((map.value "MediaContainer").toMap.value "Metadata").toList
    w0 (h1 ▸ hf)
  rw [hc, hl] at heq
  simp only [List.getElem?_cons_zero] at heq
  refine ⟨_, heq, ?_, ?_, ?_⟩
  · rw [applySession_playerId]
  · rw [applySession_playerIP]
  · rw [applySession_playerPort]; rfl

end Plex

namespace Plex

/-- C1 on the sample: `p1` is held and listed second; it stays selected. -/
theorem discovery_keeps_held_player_witness :
    readyWorld.self.m_playerId ≠ ""
    ∧ ∃ w1, onSessions sessionsURL twoSessions sessionsURL readyWorld = some w1
        ∧ w1.self.m_playerId = "p1" :=
  ⟨by decide,
    let ⟨_, _, w1, _, _, _, h, h1, _, _⟩ :=
      discovery_keeps_held_player readyWorld sessionsURL twoSessions (by decide)
        ⟨sampleSession "p1" "10.0.0.7" "11" "playing",
          List.mem_cons_of_mem _ (List.mem_cons_self _ _), rfl⟩
    ⟨w1, h, h1⟩⟩

/-- C2 on the sample: nothing is held, the first listed player `p0` is selected. -/
theorem discovery_falls_back_to_first_witness :
    ∃ w1, onSessions sessionsURL twoSessions sessionsURL freshWorld = some w1
      ∧ w1.self.m_playerId = "p0" ∧ w1.self.m_playerIP = "10.0.0.6"
      ∧ w1.self.m_playerPort = "0" :=
  discovery_falls_back_to_first freshWorld sessionsURL twoSessions
    (sampleSession "p0" "10.0.0.6" "10" "paused") [sampleSession "p1" "10.0.0.7" "11" "playing"]
    rfl (by
      intro p hp
      rcases List.mem_cons.mp hp with h | h
      · subst h; decide
      · rcases List.mem_cons.mp h with h | h
        · subst h; decide
        · cases h)

end Plex

namespace Plex

theorem updateAttrByIndex_some (a : Attributes) (v : AttrValue) (w : World) (e : Entity)
    (he : w.entity = some e) :
    updateAttrByIndex a v w
      = { w with entity := some (e.updateAttrByIndex a v),
                 trace := w.trace ++ [Effect.updateAttr a v] } := by
  unfold updateAttrByIndex
  rw [he]

/-- C3, counterexample: after the run `playerGoneRun` the flag
`m_playerConnected` is false and the published state is PLAYING; a sessions
answer without sessions then publishes nothing, so the state stays PLAYING and
the duration stays 200 instead of OFF and 0. -/
theorem no_sessions_keeps_stale_attributes :
    (noSessions.value "MediaContainer").toMap.contains "Metadata" = false
    ∧ playerGoneRun.map (fun w => w.self.m_playerConnected) = some false
    ∧ (playerGoneRun.bind (onSessions sessionsURL noSessions sessionsURL)).map
        (fun w => w.entity.map
          (fun e => (e.attr Attributes.STATE, e.attr Attributes.MEDIADURATION)))
      = some (some (AttrValue.state States.PLAYING, AttrValue.number 200)) := by
  refine ⟨?_, ?_, ?_⟩
  · decide
  · decide
  · decide

/-- C3, amended: on a sessions answer without `Metadata`, if `m_playerConnected`
is true the handler publishes image, source, title and artist as empty strings,
duration and position as 0 and state OFF (those seven writes and nothing else)
and clears the flag; if `m_playerConnected` is false it changes nothing. -/
theorem discovery_clears_connected_player (w : World) (url : String) (map : QVariantMap)
    (e : Entity) (hc : (map.value "MediaContainer").toMap.contains "Metadata" = false)
    (he : w.entity = some e) :
    (w.self.m_playerConnected = true →
      ∃ w1 e1, onSessions url map url w = some w1 ∧ w1.entity = some e1
        ∧ e1.attr Attributes.MEDIAIMAGE = AttrValue.text ""
        ∧ e1.attr Attributes.SOURCE = AttrValue.text ""
        ∧ e1.attr Attributes.MEDIATITLE = AttrValue.text ""
        ∧ e1.attr Attributes.MEDIAARTIST = AttrValue.text ""
        ∧ e1.attr Attributes.MEDIADURATION = AttrValue.number 0
        ∧ e1.attr Attributes.MEDIAPROGRESS = AttrValue.number 0
        ∧ e1.attr Attributes.STATE = AttrValue.state States.OFF
        ∧ w1.self.m_playerConnected = false
        ∧ w1.trace = w.trace ++
            [Effect.updateAttr Attributes.MEDIAIMAGE (AttrValue.text ""),
             Effect.updateAttr Attributes.SOURCE (AttrValue.text ""),
             Effect.updateAttr Attributes.MEDIATITLE (AttrValue.text ""),
             Effect.updateAttr Attributes.MEDIAARTIST (AttrValue.text ""),
             Effect.updateAttr Attributes.MEDIADURATION (AttrValue.number 0),
             Effect.updateAttr Attributes.MEDIAPROGRESS (AttrValue.number 0),
             Effect.updateAttr Attributes.STATE (AttrValue.state States.OFF)])
    ∧ (w.self.m_playerConnected = false → onSessions url map url w = some w) := by
  constructor
  · intro hconn
    refine ⟨clearPlayer w,
      ((((((e.updateAttrByIndex Attributes.MEDIAIMAGE (AttrValue.text "")).updateAttrByIndex
        Attributes.SOURCE (AttrValue.text "")).updateAttrByIndex
        Attributes.MEDIATITLE (AttrValue.text "")).updateAttrByIndex
        Attributes.MEDIAARTIST (AttrValue.text "")).updateAttrByIndex
        Attributes.MEDIADURATION (AttrValue.number 0)).updateAttrByIndex
        Attributes.MEDIAPROGRESS (AttrValue.number 0)).updateAttrByIndex
        Attributes.STATE (AttrValue.state States.OFF), ?_, ?_, ?_⟩
    · simp [onSessions, hc, hconn]
    · simp only [clearPlayer, updateAttrByIndex, he, setSelf_entity]
    · simp [clearPlayer, updateAttrByIndex, he, Entity.updateAttrByIndex, World.setSelf]
  · intro hconn
    simp [onSessions, hc, hconn]

end Plex

namespace Plex

/-- C3 amended, on the sample: a connected player is cleared to OFF. -/
theorem discovery_clears_connected_player_witness :
    readyWorld.self.m_playerConnected = true
    ∧ ∃ w1 e1, onSessions sessionsURL noSessions sessionsURL readyWorld = some w1
        ∧ w1.entity = some e1 ∧ e1.attr Attributes.STATE = AttrValue.state States.OFF
        ∧ w1.self.m_playerConnected = false :=
  ⟨rfl,
    let ⟨w1, e1, h, he, _, _, _, _, _, _, hs, hc, _⟩ :=
      (discovery_clears_connected_player readyWorld sessionsURL noSessions sampleEntity
        (by decide) rfl).1 rfl
    ⟨w1, e1, h, he, hs, hc⟩⟩

/-! ## Track change -/

theorem choosePlayer_fst (players : List QVariant) (w : World) :
    (choosePlayer players w).1
      = if w.self.m_playerId = "" then 0 else (findPlayer players w.self.m_playerId).getD 0 := by
  unfold choosePlayer
  cases findPlayer players w.self.m_playerId with
  | none => simp
  | some i => by_cases hid : w.self.m_playerId = "" <;> simp [hid]

theorem choosePlayer_fst_congr (players : List QVariant) (w w0 : World)
    (h : w0.self.m_playerId = w.self.m_playerId) :
    (choosePlayer players w0).1 = (choosePlayer players w).1 := by
  rw [choosePlayer_fst, choosePlayer_fst, h]

theorem choosePlayer_snd_currentTrack (players : List QVariant) (w : World) :
    (choosePlayer players w).2.self.m_playerCurrentTrack = w.self.m_playerCurrentTrack := by
  unfold choosePlayer
  cases findPlayer players w.self.m_playerId with
  | none => simp
  | some i => by_cases hid : w.self.m_playerId = "" <;> simp [hid]

theorem choosePlayer_index_valid (players : List QVariant) (w : World) (hne : players ≠ []) :
    ∃ p, players[(choosePlayer players w).1]? = some p := by
  rw [choosePlayer_fst]
  by_cases hid : w.self.m_playerId = ""
  · rw [if_pos hid]
    cases players with
    | nil => exact absurd rfl hne
    | cons p ps => exact ⟨p, by simp⟩
  · rw [if_neg hid]
    cases hf : findPlayer players w.self.m_playerId with
    | none =>
      cases players with
      | nil => exact absurd rfl hne
      | cons p ps => exact ⟨p, by simp⟩
    | some i =>
      obtain ⟨⟨p, hp, _⟩, _⟩ := findPlayer_first players _ i hf
      exact ⟨p, hp⟩

/-- One discovery cycle with a non-empty session list: the handler returns, and
for the entry it selects `m_newTrack` is false exactly when the `ratingKey` is
the stored one, and the `ratingKey` is stored. -/
theorem onSessions_track (w : World) (url : String) (map : QVariantMap)
    (hne : ((map.value "MediaContainer").toMap.value "Metadata").toList ≠ []) :
    ∃ p w1,
      (((map.value "MediaContainer").toMap.value "Metadata").toList)[
        (choosePlayer ((map.value "MediaContainer").toMap.value "Metadata").toList w).1]? = some p
      ∧ onSessions url map url w = some w1
      ∧ (w1.self.m_newTrack = false
          ↔ (p.toMap.value "ratingKey").toString = w.self.m_playerCurrentTrack)
      ∧ w1.self.m_playerCurrentTrack = (p.toMap.value "ratingKey").toString := by
  obtain ⟨w0, h1, _, h3, heq⟩ :=
    onSessions_listed url map w (contains_of_toList_ne_nil _ _ hne)
  obtain ⟨p, hp⟩ := choosePlayer_index_valid _ w hne
  have hp0 := hp
  rw [← choosePlayer_fst_congr _ w w0 h1] at hp0
  simp only [hp0] at heq
  refine ⟨p, _, hp, heq, ?_, applySession_currentTrack _ _⟩
  rw [applySession_newTrack, choosePlayer_snd_currentTrack, h3]

end Plex

namespace Plex

/-- C4: in a discovery cycle with a non-empty session list the handler returns,
and for the entry `p` it selects, `m_newTrack` afterwards is false exactly when
the `ratingKey` of `p` equals the `m_playerCurrentTrack` stored before, and
`m_playerCurrentTrack` afterwards is that `ratingKey`. Hence when the next
sessions answer is handled in a world `w'` that still stores this track and
selects the entry `q`, `m_newTrack` is false if `q` has the same `ratingKey`
and true if it has a different one. -/
theorem discovery_track_change (w w' : World) (url url' : String) (map map' : QVariantMap)
    (hne : ((map.value "MediaContainer").toMap.value "Metadata").toList ≠ [])
    (hne' : ((map'.value "MediaContainer").toMap.value "Metadata").toList ≠ []) :
    ∃ p w1,
      (((map.value "MediaContainer").toMap.value "Metadata").toList)[
        (choosePlayer ((map.value "MediaContainer").toMap.value "Metadata").toList w).1]? = some p
      ∧ onSessions url map url w = some w1
      ∧ (w1.self.m_newTrack = false
          ↔ (p.toMap.value "ratingKey").toString = w.self.m_playerCurrentTrack)
      ∧ w1.self.m_playerCurrentTrack = (p.toMap.value "ratingKey").toString
      ∧ (w'.self.m_playerCurrentTrack = w1.self.m_playerCurrentTrack →
          ∃ q w2,
            (((map'.value "MediaContainer").toMap.value "Metadata").toList)[
              (choosePlayer ((map'.value "MediaContainer").toMap.value "Metadata").toList w').1]?
                = some q
            ∧ onSessions url' map' url' w' = some w2
            ∧ ((q.toMap.value "ratingKey").toString = (p.toMap.value "ratingKey").toString →
                w2.self.m_newTrack = false)
            ∧ ((q.toMap.value "ratingKey").toString ≠ (p.toMap.value "ratingKey").toString →
                w2.self.m_newTrack = true)) := by
  obtain ⟨p, w1, hp, h, hiff, hcur⟩ := onSessions_track w url map hne
  refine ⟨p, w1, hp, h, hiff, hcur, ?_⟩
  intro hsame
  obtain ⟨q, w2, hq, h2, hiff2, _⟩ := onSessions_track w' url' map' hne'
  refine ⟨q, w2, hq, h2, ?_, ?_⟩
  · intro heq
    exact hiff2.mpr (by rw [hsame, hcur, heq])
  · intro hneq
    cases hn : w2.self.m_newTrack with
    | true => rfl
    | false =>
      have := hiff2.mp hn
      rw [hsame, hcur] at this
      exact absurd this hneq

/-- C4 on the sample: the first answer for a fresh object stores track 10 and
reports a new track. -/
theorem discovery_track_change_witness :
    ∃ w1, onSessions sessionsURL twoSessions sessionsURL freshWorld = some w1
      ∧ w1.self.m_playerCurrentTrack = "10" ∧ w1.self.m_newTrack = true :=
  let ⟨p, w1, hp, h, hiff, hcur, _⟩ :=
    discovery_track_change freshWorld freshWorld sessionsURL sessionsURL twoSessions twoSessions
      (List.cons_ne_nil _ _) (List.cons_ne_nil _ _)
  have hp0 : sampleSession "p0" "10.0.0.6" "10" "paused" = p := Option.some.inj hp
  ⟨w1, h, by rw [hcur, ← hp0]; rfl, by
    cases hn : w1.self.m_newTrack with
    | true => rfl
    | false =>
      have := hiff.mp hn
      rw [← hp0] at this
      exact absurd this (by decide)⟩

end Plex

namespace Plex

/-! ## The command counter -/

theorem sentIds_emit_request (w : World) (r : Request) :
    sentIds (w.emit (Effect.request r)) = sentIds w ++ [r.commandId] := by
  simp [sentIds, Effect.commandId?, List.filterMap_append]

theorem sentIds_setSelf (w : World) (f : PlexMedia → PlexMedia) :
    sentIds (w.setSelf f) = sentIds w := rfl

theorem sentIds_updateAttrByIndex (a : Attributes) (v : AttrValue) (w : World) :
    sentIds (updateAttrByIndex a v w) = sentIds w := by
  unfold updateAttrByIndex
  cases w.entity with
  | none => rfl
  | some e => simp [sentIds, Effect.commandId?, List.filterMap_append]

theorem updateAttrByIndex_entity_isSome (a : Attributes) (v : AttrValue) (w : World) :
    (updateAttrByIndex a v w).entity.isSome = w.entity.isSome := by
  unfold updateAttrByIndex
  cases h : w.entity with
  | none => simp [h]
  | some e => rfl

/-- What a send does when it is not held back: the request carries the current
counter, which then grows by one; token and entity stay. -/
theorem sendRequest_spec (m : Method) (url params : String) (w : World) :
    (sendRequest m url params w).self.m_cmdId = w.self.m_cmdId + 1
    ∧ sentIds (sendRequest m url params w) = sentIds w ++ [w.self.m_cmdId]
    ∧ (sendRequest m url params w).self.m_authToken = w.self.m_authToken
    ∧ (sendRequest m url params w).entity = w.entity := by
  unfold sendRequest
  refine ⟨rfl, ?_, rfl, rfl⟩
  rw [sentIds_setSelf, sentIds_emit_request]

theorem foldl_applyTimeline_keeps (timelines : List Timeline) (s : PlexMedia) :
    (timelines.foldl applyTimeline s).m_cmdId = s.m_cmdId
    ∧ (timelines.foldl applyTimeline s).m_authToken = s.m_authToken := by
  induction timelines generalizing s with
  | nil => exact ⟨rfl, rfl⟩
  | cons n ns ih =>
    simp only [List.foldl_cons]
    obtain ⟨h1, h2⟩ := ih (applyTimeline s n)
    rw [h1, h2]
    unfold applyTimeline
    split_ifs <;> exact ⟨rfl, rfl⟩

/-- An answer to a poll sends nothing and leaves counter, token and entity. -/
theorem pollReply_keeps (statusCode : Int) (doc : Option (List Timeline)) (w : World) :
    (pollReply statusCode doc w).self.m_cmdId = w.self.m_cmdId
    ∧ sentIds (pollReply statusCode doc w) = sentIds w
    ∧ (pollReply statusCode doc w).self.m_authToken = w.self.m_authToken
    ∧ (pollReply statusCode doc w).entity.isSome = w.entity.isSome := by
  unfold pollReply
  by_cases hs : statusCode ≠ 200
  · rw [if_pos hs]
    exact ⟨rfl, rfl, rfl, rfl⟩
  · rw [if_neg hs]
    cases doc with
    | none => exact ⟨rfl, rfl, rfl, rfl⟩
    | some timelines =>
      obtain ⟨h1, h2⟩ := foldl_applyTimeline_keeps timelines w.self
      simp only []
      split_ifs <;>
        simp only [setSelf_self, updateAttrByIndex_self, sentIds_setSelf,
          sentIds_updateAttrByIndex, setSelf_entity, updateAttrByIndex_entity_isSome, h1, h2,
          and_self]

/-- Each event of traffic, on an object with a token and an entity: a send puts
the current counter on its request and adds one to the counter, an answer
leaves the counter and sends nothing. -/
theorem Traffic.run_spec (t : Traffic) (w : World) (htok : w.self.m_authToken ≠ "")
    (hent : w.entity.isSome = true) :
    (t.run w).self.m_cmdId = w.self.m_cmdId + (if t.isSend then 1 else 0)
    ∧ sentIds (t.run w) = sentIds w ++ (if t.isSend then [w.self.m_cmdId] else [])
    ∧ (t.run w).self.m_authToken ≠ ""
    ∧ (t.run w).entity.isSome = true := by
  cases t with
  | get url params =>
    obtain ⟨h1, h2, h3, h4⟩ := sendRequest_spec Method.GET url params w
    simp only [Traffic.run, Traffic.isSend, getRequest, if_neg htok, if_true]
    exact ⟨h1, h2, h3 ▸ htok, h4 ▸ hent⟩
  | post url params =>
    obtain ⟨h1, h2, h3, h4⟩ := sendRequest_spec Method.POST url params w
    simp only [Traffic.run, Traffic.isSend, postRequest, if_neg htok, if_true]
    exact ⟨h1, h2, h3 ▸ htok, h4 ▸ hent⟩
  | put url params =>
    obtain ⟨h1, h2, h3, h4⟩ := sendRequest_spec Method.PUT url params w
    simp only [Traffic.run, Traffic.isSend, putRequest, if_neg htok, if_true]
    exact ⟨h1, h2, h3 ▸ htok, h4 ▸ hent⟩
  | poll url params =>
    cases he : w.entity with
    | none => rw [he] at hent; cases hent
    | some e =>
      simp only [Traffic.run, Traffic.isSend, getPollRequest, he, if_true]
      split_ifs
      · obtain ⟨h1, h2, h3, h4⟩ := sendRequest_spec Method.POLL url params
          (w.setSelf (fun s => { s with m_pollingTimer_interval := 2000 }))
        exact ⟨h1, h2, h3 ▸ htok, by rw [h4]; exact hent⟩
      · obtain ⟨h1, h2, h3, h4⟩ := sendRequest_spec Method.POLL url params w
        exact ⟨h1, h2, h3 ▸ htok, h4 ▸ hent⟩
  | pollAnswer statusCode doc =>
    obtain ⟨h1, h2, h3, h4⟩ := pollReply_keeps statusCode doc w
    simp only [Traffic.run, Traffic.isSend]
    exact ⟨by simpa using h1, by simpa using h2, h3 ▸ htok, h4 ▸ hent⟩
  | putAnswer statusCode =>
    simp only [Traffic.run, Traffic.isSend, putReply]
    exact ⟨by simp, by simp, htok, hent⟩
  | getFailed url malformed =>
    have h : getReply url (if malformed then Body.malformed else Body.empty) w = some w := by
      cases malformed <;> rfl
    simp only [Traffic.run, Traffic.isSend, h, Option.getD_some]
    exact ⟨by simp, by simp, htok, hent⟩
  | postFailed url statusCode malformed =>
    have h : postReply url statusCode (if malformed then Body.malformed else Body.empty) w
        = some w := by
      unfold postReply
      cases malformed <;> simp
    simp only [Traffic.run, Traffic.isSend, h, Option.getD_some]
    exact ⟨by simp, by simp, htok, hent⟩

end Plex

namespace Plex

theorem countSends_cons (t : Traffic) (ts : List Traffic) :
    countSends (t :: ts) = countSends ts + (if t.isSend then 1 else 0) := by
  unfold countSends
  cases h : t.isSend <;> simp [List.filter_cons, h]

/-- The run of a list of events, with the counter and the sent identifiers. -/
theorem runTraffic_spec (ts : List Traffic) (w : World) (htok : w.self.m_authToken ≠ "")
    (hent : w.entity.isSome = true) :
    (runTraffic ts w).self.m_cmdId = w.self.m_cmdId + (countSends ts : Int)
    ∧ sentIds (runTraffic ts w)
        = sentIds w ++ (List.range (countSends ts)).map (fun (i : Nat) => w.self.m_cmdId + (i : Int)) := by
  induction ts generalizing w with
  | nil => simp [runTraffic, countSends]
  | cons t ts ih =>
    obtain ⟨h1, h2, h3, h4⟩ := Traffic.run_spec t w htok hent
    obtain ⟨i1, i2⟩ := ih (t.run w) h3 h4
    simp only [runTraffic]
    rw [i1, i2, h1, h2, countSends_cons]
    cases ht : t.isSend with
    | false => simp
    | true =>
      simp only [if_true, List.range_succ_eq_map, List.map_cons, List.map_map, Nat.cast_zero,
        add_zero, List.append_assoc, List.singleton_append, Nat.cast_add, Nat.cast_one]
      refine ⟨by ring, ?_⟩
      congr 2
      apply List.map_congr_left
      intro i _
      simp only [Function.comp, Nat.succ_eq_add_one, Nat.cast_add, Nat.cast_one]
      ring

/-- C5: on an object with a token and an entity, every send (`getRequest`,
`postRequest`, `putRequest`, `getPollRequest`) puts the current `m_cmdId` on its
request and then adds exactly one to it, and no failing or poll answer changes
it; so the requests of a run with `N` sends, whatever answers come in between,
carry `c, c+1, ..., c+N-1` after the identifiers sent before, and the counter
ends at `c + N`. -/
theorem command_ids_consecutive (ts : List Traffic) (w : World)
    (htok : w.self.m_authToken ≠ "") (hent : w.entity.isSome = true) :
    (runTraffic ts w).self.m_cmdId = w.self.m_cmdId + (countSends ts : Int)
    ∧ sentIds (runTraffic ts w)
        = sentIds w ++ (List.range (countSends ts)).map (fun (i : Nat) => w.self.m_cmdId + (i : Int))
    ∧ ∀ t ∈ ts, ∀ w0 : World, w0.self.m_authToken ≠ "" → w0.entity.isSome = true →
        (t.run w0).self.m_cmdId = w0.self.m_cmdId + (if t.isSend then 1 else 0)
        ∧ sentIds (t.run w0) = sentIds w0 ++ (if t.isSend then [w0.self.m_cmdId] else []) := by
  obtain ⟨h1, h2⟩ := runTraffic_spec ts w htok hent
  refine ⟨h1, h2, ?_⟩
  intro t _ w0 ht he
  obtain ⟨a, b, _, _⟩ := Traffic.run_spec t w0 ht he
  exact ⟨a, b⟩

/-- C5 on the sample: four sends mixed with four failing answers carry the
identifiers 0, 1, 2, 3 and leave the counter at 4. -/
theorem command_ids_consecutive_witness :
    readyWorld.self.m_authToken ≠ "" ∧ readyWorld.entity.isSome = true
    ∧ (runTraffic sampleTraffic readyWorld).self.m_cmdId = 4
    ∧ sentIds (runTraffic sampleTraffic readyWorld) = [0, 1, 2, 3] :=
  ⟨by decide, rfl,
    (command_ids_consecutive sampleTraffic readyWorld (by decide) rfl).1,
    (command_ids_consecutive sampleTraffic readyWorld (by decide) rfl).2.1⟩

end Plex

namespace Plex

/-! ## Command dispatch -/

/-- A lambda that waits for another URL leaves everything as it is. -/
theorem Handler.run_of_url_ne (h : Handler) (map : QVariantMap) (rUrl : String) (w : World)
    (hne : h.url ≠ rUrl) : h.run map rUrl w = some w := by
  have hne' : ¬ rUrl = h.url := fun e => hne e.symm
  cases h <;> simp only [Handler.url] at hne' <;>
    simp [Handler.run, onSessions, onClients, onPlayQueue, hne']

theorem runHandlers_of_url_ne (map : QVariantMap) (rUrl : String) (hs : List Handler) (w : World)
    (hne : ∀ h ∈ hs, h.url ≠ rUrl) : runHandlers map rUrl hs w = some w := by
  induction hs with
  | nil => rfl
  | cons h hs ih =>
    unfold runHandlers
    rw [Handler.run_of_url_ne h map rUrl w (hne h (List.mem_cons_self h hs))]
    exact ih (fun k hk => hne k (List.mem_cons_of_mem h hk))

theorem runHandlers_append (map : QVariantMap) (rUrl : String) (hs ks : List Handler)
    (w : World) :
    runHandlers map rUrl (hs ++ ks) w
      = (runHandlers map rUrl hs w).bind (runHandlers map rUrl ks) := by
  induction hs generalizing w with
  | nil => rfl
  | cons h hs ih =>
    simp only [List.cons_append, runHandlers]
    cases h.run map rUrl w with
    | none => rfl
    | some w1 => exact ih w1

end Plex

namespace Plex

/-- The request put on the trace by a send that is not held back. -/
theorem sendRequest_trace (m : Method) (url params : String) (w : World) :
    (sendRequest m url params w).trace
      = w.trace ++ [Effect.request
          { method := m, url := url, params := params, commandId := w.self.m_cmdId,
            address := requestAddress url params w.self.m_cmdId,
            token := w.self.m_authToken, target := w.self.m_playerId }] := rfl

theorem sendRequest_handlers (m : Method) (url params : String) (w : World) :
    (sendRequest m url params w).handlers = w.handlers := rfl

/-- The lambda of the playlist flow, on the answer for its URL, sends the
`playMedia` request for the new queue. -/
theorem onPlayQueue_spec (url : String) (param : QVariant) (map : QVariantMap) (w : World)
    (ht : w.self.m_authToken ≠ "") :
    onPlayQueue url param map url w
      = sendRequest Method.GET (w.self.m_playerURL ++ "/player/playback/playMedia")
          (playMediaMessage param w.self ++ "&containerKey=/playQueues/"
            ++ ((map.value "MediaContainer").toMap.value "playQueueID").toString
            ++ "&window=200&own=1") w := by
  unfold onPlayQueue getRequest
  simp [ht]

/-- The play-playlist flow when its lambda is the one that answers: with server
id, player and token, `sendCommand(C_PLAY_ITEM)` for a
playlist parameter puts exactly one request on the trace, the POST to
`m_serverURL + "/playQueues"` with `playlistID` of the parameter, and connects
the lambda of the flow; when the answer for that URL arrives (status 200, play
queue `q`) while that lambda is connected and no other lambda waits for the same
URL, exactly one request follows, the GET to
`m_playerURL + "/player/playback/playMedia"` whose query ends with
`&containerKey=/playQueues/q&window=200&own=1`. -/
theorem play_playlist_flow (d : MediaPlayerDef) (w : World) (m : QVariantMap)
    (h1 : d.C_PLAY_ITEM ≠ d.C_PLAY) (h2 : d.C_PLAY_ITEM ≠ d.C_SHUFFLE_PLAY)
    (hs : w.self.m_serverId ≠ "") (hp : w.self.m_playerId ≠ "")
    (ht : w.self.m_authToken ≠ "")
    (hty : m.contains "type" = true) (hpl : (m.value "type").toString = "playlist") :
    (sendCommand d "media_player" w.self.m_entityId d.C_PLAY_ITEM (QVariant.map m) w).trace
      = w.trace ++ [Effect.request
          { method := Method.POST, url := w.self.m_serverURL ++ "/playQueues",
            params := "?playlistID=" ++ (m.value "id").toString
              ++ "&shuffle=0&continuous=0&type=audio",
            commandId := w.self.m_cmdId,
            address := requestAddress (w.self.m_serverURL ++ "/playQueues")
              ("?playlistID=" ++ (m.value "id").toString ++ "&shuffle=0&continuous=0&type=audio")
              w.self.m_cmdId,
            token := w.self.m_authToken, target := w.self.m_playerId }]
    ∧ (sendCommand d "media_player" w.self.m_entityId d.C_PLAY_ITEM (QVariant.map m) w).handlers
      = w.handlers ++ [Handler.playPlaylist (w.self.m_serverURL ++ "/playQueues") (QVariant.map m)]
    ∧ ∀ (w2 : World) (doc : QVariant) (hs1 hs2 : List Handler),
        w2.self.m_authToken ≠ "" →
        w2.handlers = hs1 ++ Handler.playPlaylist (w.self.m_serverURL ++ "/playQueues")
          (QVariant.map m) :: hs2 →
        (∀ h ∈ hs1 ++ hs2, h.url ≠ w.self.m_serverURL ++ "/playQueues") →
        ∃ w3, postReply (w.self.m_serverURL ++ "/playQueues") 200 (Body.json doc) w2 = some w3
          ∧ w3.handlers = []
          ∧ w3.trace = w2.trace ++ [Effect.request
              { method := Method.GET, url := w2.self.m_playerURL ++ "/player/playback/playMedia",
                params := playMediaMessage (QVariant.map m) w2.self
                  ++ "&containerKey=/playQueues/"
                  ++ ((doc.toMap.value "MediaContainer").toMap.value "playQueueID").toString
                  ++ "&window=200&own=1",
                commandId := w2.self.m_cmdId,
                address := requestAddress (w2.self.m_playerURL ++ "/player/playback/playMedia")
                  (playMediaMessage (QVariant.map m) w2.self ++ "&containerKey=/playQueues/"
                    ++ ((doc.toMap.value "MediaContainer").toMap.value "playQueueID").toString
                    ++ "&window=200&own=1") w2.self.m_cmdId,
                token := w2.self.m_authToken, target := w2.self.m_playerId }] := by
  have hcmd : sendCommand d "media_player" w.self.m_entityId d.C_PLAY_ITEM (QVariant.map m) w
      = sendRequest Method.POST (w.self.m_serverURL ++ "/playQueues")
          ("?playlistID=" ++ (m.value "id").toString ++ "&shuffle=0&continuous=0&type=audio")
          (w.connectHandler
            (Handler.playPlaylist (w.self.m_serverURL ++ "/playQueues") (QVariant.map m))) := by
    have hlit : "?playlistID=" ++ (m.value "id").toString ++ "&shuffle=" ++ "0"
          ++ "&continuous=0&type=audio"
        = "?playlistID=" ++ (m.value "id").toString ++ "&shuffle=0&continuous=0&type=audio" := by
      rw [String.append_assoc, String.append_assoc]
      rfl
    unfold sendCommand postRequest
    simp [hs, hp, ht, h1, h2, hty, hpl, QVariant.eqString, QVariant.toMap, hlit]
  refine ⟨?_, ?_, ?_⟩
  · rw [hcmd, sendRequest_trace]; rfl
  · rw [hcmd, sendRequest_handlers]; rfl
  · intro w2 doc hs1 hs2 ht2 hh hne
    have hrun : runHandlers doc.toMap (w.self.m_serverURL ++ "/playQueues") w2.handlers w2
        = some (onPlayQueue (w.self.m_serverURL ++ "/playQueues") (QVariant.map m) doc.toMap
            (w.self.m_serverURL ++ "/playQueues") w2) := by
      rw [hh, runHandlers_append,
        runHandlers_of_url_ne _ _ hs1 w2 (fun h hh1 => hne h (List.mem_append_left _ hh1))]
      simp only [Option.some_bind, runHandlers, Handler.run]
      exact runHandlers_of_url_ne _ _ hs2 _ (fun h hh2 => hne h (List.mem_append_right _ hh2))
    have hreply : postReply (w.self.m_serverURL ++ "/playQueues") 200 (Body.json doc) w2
        = some { onPlayQueue (w.self.m_serverURL ++ "/playQueues") (QVariant.map m) doc.toMap
                   (w.self.m_serverURL ++ "/playQueues") w2 with
                 handlers := (onPlayQueue (w.self.m_serverURL ++ "/playQueues") (QVariant.map m)
                   doc.toMap (w.self.m_serverURL ++ "/playQueues") w2).handlers.drop
                     w2.handlers.length } := by
      simp only [postReply, ne_eq, not_true_eq_false, if_false, requestReady, hrun]
    refine ⟨_, hreply, ?_, ?_⟩
    · simp only [onPlayQueue_spec _ _ _ w2 ht2, sendRequest_handlers, List.drop_length]
    · simp only [onPlayQueue_spec _ _ _ w2 ht2, sendRequest_trace]

end Plex

namespace Plex

/-- The flow on the sample: the dispatch for playlist 42 and the answer with play
queue 9 give two requests in all, with the identifiers 0 and 1, and no lambda
stays connected. -/
theorem play_playlist_flow_witness :
    sentIds playlistDispatched = [0]
    ∧ ∃ w3, postReply "http://10.0.0.2:32400/playQueues" 200 (Body.json playQueueAnswer)
          playlistDispatched = some w3
        ∧ w3.handlers = [] ∧ sentIds w3 = [0, 1] :=
  ⟨by decide,
    let ⟨w3, h, hh, htr⟩ :=
      (play_playlist_flow sampleCommands readyWorld
        [("type", QVariant.string "playlist"), ("id", QVariant.string "42")]
        (by decide) (by decide) (by decide) (by decide) (by decide) rfl rfl).2.2
        playlistDispatched playQueueAnswer [] [] (by decide) rfl
        (fun _ hmem => absurd hmem (List.not_mem_nil _))
    ⟨w3, h, hh, by unfold sentIds; rw [htr]; rfl⟩⟩

theorem getRequest_entity (url params : String) (w : World) :
    (getRequest url params w).entity = w.entity := by
  unfold getRequest
  split_ifs <;> rfl

/-- C7: with server id, player and token, `sendCommand(C_PLAY_ITEM)` for a
parameter whose `type` is not `"playlist"` puts exactly one request on the
trace, the GET to `m_playerURL + "/player/playback/playMedia"` with the query
`?key=/library/metadata/<id>&offset=0&address=<m_serverIP>&port=<m_serverPort>`
`&machineIdentifier=<m_serverId>`, and connects no lambda: no POST to
`/playQueues` is made. -/
theorem play_item_direct (d : MediaPlayerDef) (w : World) (m : QVariantMap)
    (h1 : d.C_PLAY_ITEM ≠ d.C_PLAY)
    (hs : w.self.m_serverId ≠ "") (hp : w.self.m_playerId ≠ "")
    (ht : w.self.m_authToken ≠ "")
    (hty : m.contains "type" = true) (hnp : (m.value "type").toString ≠ "playlist") :
    (sendCommand d "media_player" w.self.m_entityId d.C_PLAY_ITEM (QVariant.map m) w).trace
      = w.trace ++ [Effect.request
          { method := Method.GET, url := w.self.m_playerURL ++ "/player/playback/playMedia",
            params := "?key=/library/metadata/" ++ (m.value "id").toString
              ++ "&offset=0&address=" ++ w.self.m_serverIP ++ "&port=" ++ w.self.m_serverPort
              ++ "&machineIdentifier=" ++ w.self.m_serverId,
            commandId := w.self.m_cmdId,
            address := requestAddress (w.self.m_playerURL ++ "/player/playback/playMedia")
              ("?key=/library/metadata/" ++ (m.value "id").toString
                ++ "&offset=0&address=" ++ w.self.m_serverIP ++ "&port=" ++ w.self.m_serverPort
                ++ "&machineIdentifier=" ++ w.self.m_serverId) w.self.m_cmdId,
            token := w.self.m_authToken, target := w.self.m_playerId }]
    ∧ (sendCommand d "media_player" w.self.m_entityId d.C_PLAY_ITEM (QVariant.map m) w).handlers
      = w.handlers := by
  have hcmd : sendCommand d "media_player" w.self.m_entityId d.C_PLAY_ITEM (QVariant.map m) w
      = sendRequest Method.GET (w.self.m_playerURL ++ "/player/playback/playMedia")
          (playMediaMessage (QVariant.map m) w.self) w := by
    unfold sendCommand getRequest
    simp [hs, hp, ht, h1, hty, hnp, QVariant.eqString, QVariant.toMap]
  rw [hcmd]
  exact ⟨rfl, rfl⟩

/-- C7 on the sample: the play command for track 7 sends one GET to the player. -/
theorem play_item_direct_witness :
    (sendCommand sampleCommands "media_player" "plex" sampleCommands.C_PLAY_ITEM trackParam
        readyWorld).trace
      = [Effect.request
          { method := Method.GET, url := "http://10.0.0.7:32500/player/playback/playMedia",
            params := "?key=/library/metadata/7&offset=0&address=10.0.0.2&port=32400"
              ++ "&machineIdentifier=srv",
            commandId := 0,
            address := "http://10.0.0.7:32500/player/playback/playMedia"
              ++ "?key=/library/metadata/7&offset=0&address=10.0.0.2&port=32400"
              ++ "&machineIdentifier=srv&commandId=0",
            token := "tok", target := "p1" }] :=
  (play_item_direct sampleCommands readyWorld
    [("type", QVariant.string "track"), ("id", QVariant.string "7")]
    (by decide) (by decide) (by decide) (by decide) rfl (by decide)).1

/-- C8: with server id, player and entity, right after `sendCommand(C_PAUSE)`
the published STATE is IDLE and `m_playerState` is `"paused"`, whatever the
state, the token and the parameter were. -/
theorem pause_publishes_idle (d : MediaPlayerDef) (w : World) (param : QVariant) (e : Entity)
    (h1 : d.C_PAUSE ≠ d.C_PLAY) (h2 : d.C_PAUSE ≠ d.C_PLAY_ITEM) (h3 : d.C_PAUSE ≠ d.C_SHUFFLE)
    (h4 : d.C_PAUSE ≠ d.C_ADD_TO_QUEUE)
    (hs : w.self.m_serverId ≠ "") (hp : w.self.m_playerId ≠ "") (he : w.entity = some e) :
    ∃ e1, (sendCommand d "media_player" w.self.m_entityId d.C_PAUSE param w).entity = some e1
      ∧ e1.attr Attributes.STATE = AttrValue.state States.IDLE
      ∧ (sendCommand d "media_player" w.self.m_entityId d.C_PAUSE param w).self.m_playerState
          = "paused" := by
  have hcmd : sendCommand d "media_player" w.self.m_entityId d.C_PAUSE param w
      = updateAttrByIndex Attributes.STATE (AttrValue.state States.IDLE)
          ((getRequest (w.self.m_playerURL ++ "/player/playback/pause") "" w).setSelf
            (fun s => { s with m_playerState := "paused" })) := by
    unfold sendCommand
    simp [hs, hp, h1, h2, h3, h4]
  have hent : ((getRequest (w.self.m_playerURL ++ "/player/playback/pause") "" w).setSelf
      (fun s => { s with m_playerState := "paused" })).entity = some e := by
    rw [setSelf_entity, getRequest_entity, he]
  rw [hcmd, updateAttrByIndex_some _ _ _ e hent]
  exact ⟨_, rfl, by simp [Entity.updateAttrByIndex], rfl⟩

/-- C8 on the sample: after the pause command the state is IDLE. -/
theorem pause_publishes_idle_witness :
    ∃ e1, (sendCommand sampleCommands "media_player" "plex" sampleCommands.C_PAUSE
        QVariant.invalid readyWorld).entity = some e1
      ∧ e1.attr Attributes.STATE = AttrValue.state States.IDLE
      ∧ (sendCommand sampleCommands "media_player" "plex" sampleCommands.C_PAUSE
        QVariant.invalid readyWorld).self.m_playerState = "paused" :=
  pause_publishes_idle sampleCommands readyWorld QVariant.invalid sampleEntity
    (by decide) (by decide) (by decide) (by decide) (by decide) (by decide) rfl

end Plex

namespace Plex

/-! ## The gates of `sendCommand` -/

/-- C12: a command whose type is not `"media_player"` or whose entity is not
`m_entityId` leaves the whole world as it is, whatever the command code and the
parameter: no request, no published attribute, no changed field, no new lambda. -/
theorem foreign_command_ignored (d : MediaPlayerDef) (type entityId : String) (command : Int)
    (param : QVariant) (w : World)
    (h : type ≠ "media_player" ∨ entityId ≠ w.self.m_entityId) :
    sendCommand d type entityId command param w = w := by
  unfold sendCommand
  rcases h with h | h <;> simp [h]

/-- C12 on the sample: a pause addressed to a light changes nothing. -/
theorem foreign_command_ignored_witness :
    ("light" ≠ "media_player" ∨ "plex" ≠ readyWorld.self.m_entityId)
    ∧ (sendCommand sampleCommands "light" "plex" sampleCommands.C_PAUSE QVariant.invalid
        readyWorld).trace = []
    ∧ (sendCommand sampleCommands "light" "plex" sampleCommands.C_PAUSE QVariant.invalid
        readyWorld).self = readyWorld.self :=
  ⟨Or.inl (by decide),
    congrArg World.trace (foreign_command_ignored sampleCommands "light" "plex"
      sampleCommands.C_PAUSE QVariant.invalid readyWorld (Or.inl (by decide))),
    congrArg World.self (foreign_command_ignored sampleCommands "light" "plex"
      sampleCommands.C_PAUSE QVariant.invalid readyWorld (Or.inl (by decide)))⟩

/-- What `getMachineIdentifier` does: it connects its lambda and then either
sends the GET to `m_serverURL + "/identity"` or, without a token, starts the
sign-in. -/
theorem getMachineIdentifier_spec (w : World) :
    (getMachineIdentifier w).handlers
      = w.handlers ++ [Handler.machineIdentifier (w.self.m_serverURL ++ "/identity")]
    ∧ (w.self.m_authToken ≠ "" →
        (getMachineIdentifier w).trace = w.trace ++ [Effect.request
          (requestOf Method.GET (w.self.m_serverURL ++ "/identity") "" w.self w.self.m_cmdId)])
    ∧ (w.self.m_authToken = "" →
        (getMachineIdentifier w).trace
          = w.trace ++ [Effect.signIn w.self.m_clientUser w.self.m_clientPass]) := by
  unfold getMachineIdentifier getRequest
  refine ⟨?_, ?_, ?_⟩
  · by_cases h : w.self.m_authToken = "" <;> simp [h, requestAuthToken, sendRequest]
  · intro h
    simp [h, sendRequest, requestOf]
  · intro h
    simp [h, requestAuthToken]

/-- C13: for every command code and parameter addressed to the configured
entity, with `m_serverId` empty `sendCommand` is exactly `getMachineIdentifier`
(one new lambda and the GET to `/identity`, or the sign-in when there is no
token), and with `m_serverId` known and `m_playerId` empty it leaves the whole
world as it is. -/
theorem not_ready_gate (d : MediaPlayerDef) (command : Int) (param : QVariant) (w : World) :
    (w.self.m_serverId = "" →
      sendCommand d "media_player" w.self.m_entityId command param w = getMachineIdentifier w
      ∧ (getMachineIdentifier w).handlers
          = w.handlers ++ [Handler.machineIdentifier (w.self.m_serverURL ++ "/identity")]
      ∧ (w.self.m_authToken ≠ "" →
          (getMachineIdentifier w).trace = w.trace ++ [Effect.request
            (requestOf Method.GET (w.self.m_serverURL ++ "/identity") "" w.self
              w.self.m_cmdId)])
      ∧ (w.self.m_authToken = "" →
          (getMachineIdentifier w).trace
            = w.trace ++ [Effect.signIn w.self.m_clientUser w.self.m_clientPass]))
    ∧ (w.self.m_serverId ≠ "" → w.self.m_playerId = "" →
      sendCommand d "media_player" w.self.m_entityId command param w = w) := by
  constructor
  · intro hs
    obtain ⟨h1, h2, h3⟩ := getMachineIdentifier_spec w
    refine ⟨?_, h1, h2, h3⟩
    unfold sendCommand
    simp [hs]
  · intro hs hp
    unfold sendCommand
    simp [hs, hp]

/-- C13 on the sample: before the server id is known, a search command only
looks the server id up. -/
theorem not_ready_gate_witness :
    signedIn.self.m_serverId = ""
    ∧ sendCommand sampleCommands "media_player" "plex" sampleCommands.C_SEARCH
        (QVariant.string "abba") signedIn = getMachineIdentifier signedIn
    ∧ newRequests signedIn (getMachineIdentifier signedIn)
      = [requestOf Method.GET "http://10.0.0.2:32400/identity" "" signedIn.self 0] :=
  ⟨by decide,
    ((not_ready_gate sampleCommands sampleCommands.C_SEARCH (QVariant.string "abba")
      signedIn).1 (by decide)).1,
    by decide⟩

end Plex

namespace Plex

theorem newRequests_of_trace (w w1 : World) (es : List Effect) (h : w1.trace = w.trace ++ es) :
    newRequests w w1 = es.filterMap Effect.request? := by
  unfold newRequests
  rw [h, List.drop_left]

/-- C11, counterexample: right after signing in the server id is still empty,
and the add-to-queue command for a playlist sends the GET to `/identity`,
connects a lambda and moves the counter from 0 to 1. -/
theorem add_playlist_to_queue_sends_lookup :
    newRequests signedIn
        (sendCommand sampleCommands "media_player" "plex" sampleCommands.C_ADD_TO_QUEUE
          playlistParam signedIn)
      = [requestOf Method.GET "http://10.0.0.2:32400/identity" "" signedIn.self 0]
    ∧ signedIn.self.m_cmdId = 0
    ∧ (sendCommand sampleCommands "media_player" "plex" sampleCommands.C_ADD_TO_QUEUE
          playlistParam signedIn).self.m_cmdId = 1 := by
  refine ⟨?_, ?_, ?_⟩ <;> decide

/-- C11, amended: for a parameter whose `type` is `"playlist"`, the add-to-queue
command addressed to the configured entity leaves the whole world as it is
whenever `m_serverId` is known (no request, no changed field); with `m_serverId`
empty it is exactly the lookup `getMachineIdentifier`, whose only possible
request is the GET to `/identity`: in no state a PUT to `/playQueues/<queue>` or
a `refreshPlayQueue` request is sent. -/
theorem add_playlist_to_queue_rejected (d : MediaPlayerDef) (w : World) (param : QVariant)
    (h1 : d.C_ADD_TO_QUEUE ≠ d.C_PLAY) (h2 : d.C_ADD_TO_QUEUE ≠ d.C_PLAY_ITEM)
    (h3 : d.C_ADD_TO_QUEUE ≠ d.C_SHUFFLE)
    (hpl : (param.toMap.value "type").toString = "playlist") :
    (w.self.m_serverId ≠ "" →
      sendCommand d "media_player" w.self.m_entityId d.C_ADD_TO_QUEUE param w = w)
    ∧ (w.self.m_serverId = "" →
      sendCommand d "media_player" w.self.m_entityId d.C_ADD_TO_QUEUE param w
        = getMachineIdentifier w
      ∧ ∀ r ∈ newRequests w (getMachineIdentifier w),
          r.method = Method.GET ∧ r.url = w.self.m_serverURL ++ "/identity") := by
  constructor
  · intro hs
    unfold sendCommand
    by_cases hp : w.self.m_playerId = ""
    · simp [hs, hp]
    · simp [hs, hp, h1, h2, h3, hpl]
  · intro hs
    refine ⟨by unfold sendCommand; simp [hs], ?_⟩
    obtain ⟨_, ht, hn⟩ := getMachineIdentifier_spec w
    intro r hr
    by_cases htok : w.self.m_authToken = ""
    · rw [newRequests_of_trace w _ _ (hn htok)] at hr
      simp [Effect.request?] at hr
    · rw [newRequests_of_trace w _ _ (ht htok)] at hr
      simp only [List.filterMap_cons, Effect.request?, List.filterMap_nil, List.mem_singleton]
        at hr
      subst hr
      exact ⟨rfl, rfl⟩

/-- C11 amended, on the sample: with server and player known, adding a playlist
to the queue changes nothing. -/
theorem add_playlist_to_queue_rejected_witness :
    queueWorld.self.m_serverId ≠ ""
    ∧ sendCommand sampleCommands "media_player" "plex" sampleCommands.C_ADD_TO_QUEUE
        playlistParam queueWorld = queueWorld :=
  ⟨by decide,
    (add_playlist_to_queue_rejected sampleCommands queueWorld playlistParam
      (by decide) (by decide) (by decide) (by decide)).1 (by decide)⟩

end Plex

namespace Plex

/-! ## The token guard -/

/-- Without a token `getRequest`, `postRequest` and `putRequest` send nothing
and start the sign-in; the counter stays. -/
theorem held_back_without_token (url params : String) (w : World)
    (h : w.self.m_authToken = "") :
    getRequest url params w = requestAuthToken w
    ∧ postRequest url params w = requestAuthToken w
    ∧ putRequest url params w = requestAuthToken w
    ∧ (requestAuthToken w).self = w.self
    ∧ (requestAuthToken w).trace
        = w.trace ++ [Effect.signIn w.self.m_clientUser w.self.m_clientPass] := by
  unfold getRequest postRequest putRequest
  simp [h, requestAuthToken]

/-- C14, the failing input: `getPollRequest` has no token guard. On the freshly
constructed object (empty `m_authToken`, entity present) it sends the poll with
an empty `X-Plex-Token`, moves the counter from 0 to 1 and starts no sign-in;
and in the run `tokenLostRun`, where the held token has become empty, the next
tick holds the sessions and the clients request back but sends the poll. -/
theorem poll_sent_without_token :
    freshWorld.self.m_authToken = ""
    ∧ (getPollRequest "http://10.0.0.7:32500/player/timeline/poll" "?wait=1" freshWorld).trace
      = [Effect.request (requestOf Method.POLL "http://10.0.0.7:32500/player/timeline/poll"
          "?wait=1" freshWorld.self 0)]
    ∧ (requestOf Method.POLL "http://10.0.0.7:32500/player/timeline/poll" "?wait=1"
          freshWorld.self 0).token = ""
    ∧ (getPollRequest "http://10.0.0.7:32500/player/timeline/poll" "?wait=1"
          freshWorld).self.m_cmdId = 1
    ∧ tokenLostRun.map (fun w => (w.self.m_authToken,
          (newRequests w (getCurrentPlayer w)).map (fun r => (r.method, r.url, r.token))))
      = some ("", [(Method.POLL, "http://10.0.0.7:32500/player/timeline/poll", "")]) := by
  refine ⟨?_, ?_, ?_, ?_, ?_⟩ <;> decide

/-! ## The answer to a direct poll -/

/-- An answer with a status other than 200 clears `m_directConn` and publishes
nothing; an answer with status 200 and an unparsable body changes nothing. -/
theorem pollReply_failed (statusCode : Int) (w : World) :
    (statusCode ≠ 200 →
      pollReply statusCode none w = w.setSelf (fun s => { s with m_directConn := false })
      ∧ ∀ doc, pollReply statusCode doc w
          = w.setSelf (fun s => { s with m_directConn := false }))
    ∧ pollReply 200 none w = w := by
  unfold pollReply
  constructor
  · intro h
    simp [h]
  · simp

/-- C15, the failing input: after a successful poll `m_directConn` is true; the
next poll answer has status 200 and a body that is no XML document, and the
handler returns early and leaves `m_directConn` true, whereas an answer with
status 0 at the same place clears it. -/
theorem unparsable_poll_keeps_direct_flag :
    pollOkRun.map (fun w => w.self.m_directConn) = some true
    ∧ pollUnparsableRun.map (fun w => w.self.m_directConn) = some true
    ∧ pollOkRun.map (fun w => (pollReply 0 none (getCurrentPlayer w)).self.m_directConn)
      = some false := by
  refine ⟨?_, ?_, ?_⟩ <;> decide

end Plex

namespace Plex

theorem applyTimeline_stopped (s : PlexMedia) (n : Timeline)
    (h : n.attribute "state" = "stopped") : applyTimeline s n = s := by
  unfold applyTimeline
  simp [h]

theorem applyTimeline_active (s : PlexMedia) (n : Timeline)
    (h : n.attribute "state" ≠ "stopped") :
    playbackFields (applyTimeline s n) = timelineFields n := by
  unfold applyTimeline
  simp [h, playbackFields, timelineFields]

/-- The loop over the `Timeline` elements leaves the five fields at the values
of the last entry that is not stopped, or as they were when there is none. -/
theorem foldl_applyTimeline_fields (timelines : List Timeline) (s : PlexMedia) :
    playbackFields (timelines.foldl applyTimeline s)
      = match lastActive timelines with
        | some n => timelineFields n
        | none => playbackFields s := by
  induction timelines generalizing s with
  | nil => rfl
  | cons t ts ih =>
    rw [List.foldl_cons, ih]
    by_cases ht : t.attribute "state" = "stopped"
    · have hl : lastActive (t :: ts) = lastActive ts := by
        unfold lastActive
        simp [List.filter_cons, ht]
      rw [hl, applyTimeline_stopped s t ht]
    · have hl : lastActive (t :: ts) = some ((lastActive ts).getD t) := by
        unfold lastActive
        simp [List.filter_cons, ht, List.getLast?_cons]
      rw [hl]
      cases hts : lastActive ts with
      | none => simp [applyTimeline_active s t ht]
      | some n => simp

theorem lastActive_eq_none_iff (timelines : List Timeline) :
    lastActive timelines = none ↔ ∀ n ∈ timelines, n.attribute "state" = "stopped" := by
  unfold lastActive
  simp [List.filter_eq_nil_iff]

/-- The object after a poll answer with status 200 and a parsable body. -/
theorem pollReply_ok_self (timelines : List Timeline) (w : World) :
    (pollReply 200 (some timelines) w).self
      = { timelines.foldl applyTimeline w.self with m_directConn := true } := by
  unfold pollReply
  simp only [ne_eq, not_true_eq_false, if_false]
  split_ifs <;> simp only [setSelf_self, updateAttrByIndex_self]

end Plex

namespace Plex

/-- C16: after the poll handler has run on a parsed document (status 200),
`m_playerVol`, `m_playerQueue`, `m_playerState`, `m_playerDuration` and
`m_playerTime` are the volume, `playQueueID`, state, duration and time of the
last entry in document order whose state is not `"stopped"`; a stopped entry
changes nothing in the object, and when every entry is stopped or the list is
empty the five fields are as before. -/
theorem poll_applies_last_active (w : World) (timelines : List Timeline) :
    (∀ n, lastActive timelines = some n →
      playbackFields (pollReply 200 (some timelines) w).self = timelineFields n)
    ∧ ((∀ n ∈ timelines, n.attribute "state" = "stopped") →
      playbackFields (pollReply 200 (some timelines) w).self = playbackFields w.self)
    ∧ (∀ (s : PlexMedia) (n : Timeline), n.attribute "state" = "stopped" →
      applyTimeline s n = s) := by
  have hf := foldl_applyTimeline_fields timelines w.self
  have hs : playbackFields (pollReply 200 (some timelines) w).self
      = playbackFields (timelines.foldl applyTimeline w.self) := by
    rw [pollReply_ok_self]
    rfl
  refine ⟨?_, ?_, applyTimeline_stopped⟩
  · intro n hn
    rw [hs, hf, hn]
  · intro hall
    rw [hs, hf, (lastActive_eq_none_iff timelines).mpr hall]

/-- C16 on the sample: of a stopped photo, a playing video and a stopped music
entry the video entry decides the five fields. -/
theorem poll_applies_last_active_witness :
    playbackFields (pollReply 200 (some mixedTimeline) readyWorld).self
      = (70, "8", "playing", 90000, 1500) :=
  (poll_applies_last_active readyWorld mixedTimeline).1
    [("type", "video"), ("state", "playing"), ("volume", "70"), ("playQueueID", "8"),
     ("duration", "90000"), ("time", "1500"), ("ratingKey", "21")] (by decide)

end Plex

namespace Plex

/-! ## The polling tick -/

/-- A tick is its three parts one after the other. -/
theorem getCurrentPlayer_eq (w : World) :
    getCurrentPlayer w
      = match w.entity with
        | none => w
        | some _ =>
          if (tickSessions w).self.m_playerId ≠ "" then tickPoll (tickPort (tickSessions w))
          else tickSessions w := by
  unfold getCurrentPlayer tickSessions tickPort tickPoll
  cases w.entity <;> rfl

/-- With a token, a send is the plain `sendRequest`. -/
theorem getRequest_of_token (url params : String) (w : World) (h : w.self.m_authToken ≠ "") :
    getRequest url params w = sendRequest Method.GET url params w := by
  unfold getRequest
  rw [if_neg h]

theorem tickSessions_spec (w : World) (ht : w.self.m_authToken ≠ "") :
    (tickSessions w).trace
      = w.trace ++ (if needsSessions w.self then [Effect.request
          (requestOf Method.GET (w.self.m_serverURL ++ "/status/sessions") "" w.self
            w.self.m_cmdId)] else [])
    ∧ (tickSessions w).self.m_cmdId = w.self.m_cmdId + (if needsSessions w.self then 1 else 0)
    ∧ (tickSessions w).self.m_playerId = w.self.m_playerId
    ∧ (tickSessions w).self.m_playerPort = w.self.m_playerPort
    ∧ (tickSessions w).self.m_playerURL = w.self.m_playerURL
    ∧ (tickSessions w).self.m_playerIP = w.self.m_playerIP
    ∧ (tickSessions w).self.m_serverURL = w.self.m_serverURL
    ∧ (tickSessions w).self.m_authToken = w.self.m_authToken
    ∧ (tickSessions w).entity = w.entity := by
  unfold tickSessions
  by_cases hn : needsSessions w.self = true
  · have hn2 := hn
    unfold needsSessions at hn2
    rw [if_pos hn2]
    simp only [hn, if_true]
    by_cases hi : w.self.m_pollingTimer_interval < 4000
    · simp only [if_pos hi]
      rw [getRequest_of_token _ _ _ (by exact ht)]
      exact ⟨rfl, rfl, rfl, rfl, rfl, rfl, rfl, rfl, rfl⟩
    · simp only [if_neg hi]
      rw [getRequest_of_token _ _ _ (by exact ht)]
      exact ⟨rfl, rfl, rfl, rfl, rfl, rfl, rfl, rfl, rfl⟩
  · have hn2 := hn
    unfold needsSessions at hn2
    rw [if_neg hn2]
    simp [hn]

end Plex

namespace Plex

theorem requestOf_congr (m : Method) (url params : String) (s1 s2 : PlexMedia) (c : Int)
    (ht : s1.m_authToken = s2.m_authToken) (hp : s1.m_playerId = s2.m_playerId) :
    requestOf m url params s1 c = requestOf m url params s2 c := by
  unfold requestOf
  rw [ht, hp]

theorem tickPort_spec (w : World) (ht : w.self.m_authToken ≠ "")
    (hport : w.self.m_playerPort = "0") :
    (tickPort w).trace
      = w.trace ++ [Effect.request
          (requestOf Method.GET (w.self.m_serverURL ++ "/clients") "" w.self w.self.m_cmdId)]
    ∧ (tickPort w).self.m_cmdId = w.self.m_cmdId + 1
    ∧ (tickPort w).self.m_playerId = w.self.m_playerId
    ∧ (tickPort w).self.m_playerURL = w.self.m_playerURL
    ∧ (tickPort w).self.m_authToken = w.self.m_authToken
    ∧ (tickPort w).self.m_pollingTimer_interval = w.self.m_pollingTimer_interval
    ∧ (tickPort w).entity = w.entity := by
  unfold tickPort
  rw [if_pos hport]
  simp only []
  rw [getRequest_of_token _ _ _ (by exact ht)]
  have hp : (sendRequest Method.GET (w.self.m_serverURL ++ "/clients") ""
      (w.connectHandler (Handler.clients (w.self.m_serverURL ++ "/clients")))).self.m_playerPort
        = "0" := hport
  rw [if_neg (by rw [hp]; exact fun h => h rfl)]
  exact ⟨rfl, rfl, rfl, rfl, rfl, rfl, rfl⟩

theorem tickPoll_spec (w : World) (e : Entity) (he : w.entity = some e) :
    (tickPoll w).trace
      = w.trace ++ (if w.self.m_playerURL ≠ "" then [Effect.request
          (requestOf Method.POLL (w.self.m_playerURL ++ "/player/timeline/poll") "?wait=1"
            w.self w.self.m_cmdId)] else [])
    ∧ (tickPoll w).self.m_pollingTimer_interval
      = (if w.self.m_playerURL ≠ "" ∧ w.self.m_pollingTimer_interval > 2000 then 2000
         else w.self.m_pollingTimer_interval) := by
  unfold tickPoll
  by_cases hu : w.self.m_playerURL = ""
  · simp [hu]
  · simp only [ne_eq, hu, not_false_eq_true, if_true, true_and]
    unfold getPollRequest
    rw [he]
    simp only []
    by_cases hi : w.self.m_pollingTimer_interval > 2000
    · simp only [if_pos hi]
      exact ⟨rfl, rfl⟩
    · simp only [if_neg hi]
      exact ⟨rfl, rfl⟩

end Plex

namespace Plex

/-- C17, counterexample: after the first discovery player `p1` is selected and
its port is `"0"`; the tick that follows sends the lookup to `/clients` and, in
the same tick, the direct poll to the guessed address of the player. -/
theorem tick_polls_with_unknown_port :
    discoveredRun.map (fun w => (w.self.m_playerId, w.self.m_playerPort,
        (newRequests w (getCurrentPlayer w)).map (fun r => (r.method, r.url))))
      = some ("p1", "0",
          [(Method.GET, "http://10.0.0.2:32400/status/sessions"),
           (Method.GET, "http://10.0.0.2:32400/clients"),
           (Method.POLL, "http://10.0.0.7:32500/player/timeline/poll")]) := by
  decide

/-- C17, amended: in a tick with an entity and a token, a selected player and
the port `"0"`, the requests sent are, in this order: the sessions query if the
tick needs it, exactly one GET to `m_serverURL + "/clients"`, and the direct
poll to `m_playerURL + "/player/timeline/poll"` exactly when `m_playerURL` is
not empty (after a discovery it holds the guessed port 32500; it is empty only
after a change of speaker). -/
theorem tick_with_unknown_port (w : World) (e : Entity) (he : w.entity = some e)
    (ht : w.self.m_authToken ≠ "") (hid : w.self.m_playerId ≠ "")
    (hport : w.self.m_playerPort = "0") :
    (getCurrentPlayer w).trace
      = w.trace
        ++ (if needsSessions w.self then [Effect.request
              (requestOf Method.GET (w.self.m_serverURL ++ "/status/sessions") "" w.self
                w.self.m_cmdId)] else [])
        ++ [Effect.request
              (requestOf Method.GET (w.self.m_serverURL ++ "/clients") "" w.self
                (w.self.m_cmdId + (if needsSessions w.self then 1 else 0)))]
        ++ (if w.self.m_playerURL ≠ "" then [Effect.request
              (requestOf Method.POLL (w.self.m_playerURL ++ "/player/timeline/poll") "?wait=1"
                w.self (w.self.m_cmdId + (if needsSessions w.self then 1 else 0) + 1))]
            else []) := by
  obtain ⟨a1, a2, a3, a4, a5, _, a7, a8, a9⟩ := tickSessions_spec w ht
  obtain ⟨b1, b2, b3, b4, b5, _, b7⟩ :=
    tickPort_spec (tickSessions w) (a8 ▸ ht) (a4.trans hport)
  obtain ⟨c1, _⟩ := tickPoll_spec (tickPort (tickSessions w)) e (by rw [b7, a9, he])
  rw [getCurrentPlayer_eq, he]
  simp only []
  rw [if_pos (by rw [a3]; exact hid), c1, b1, a1, b4, a5, b2, a2, a7]
  rw [requestOf_congr Method.GET _ _ (tickSessions w).self w.self _ a8 a3,
    requestOf_congr Method.POLL _ _ (tickPort (tickSessions w)).self w.self _
      (b5.trans a8) (b3.trans a3)]

/-- C17 amended, on the sample: with the guessed address of the player the tick
sends three requests, the last one the direct poll. -/
theorem tick_with_unknown_port_witness :
    (newRequests (readyWorld.setSelf (fun s => { s with m_playerPort := "0" }))
        (getCurrentPlayer (readyWorld.setSelf (fun s => { s with m_playerPort := "0" })))).map
          (fun r => (r.method, r.url, r.commandId))
      = [(Method.GET, "http://10.0.0.2:32400/status/sessions", 0),
         (Method.GET, "http://10.0.0.2:32400/clients", 1),
         (Method.POLL, "http://10.0.0.7:32500/player/timeline/poll", 2)] := by
  rw [newRequests_of_trace _ _ _ (List.append_assoc _ _ _ ▸ List.append_assoc _ _ _ ▸
    tick_with_unknown_port (readyWorld.setSelf (fun s => { s with m_playerPort := "0" }))
      sampleEntity rfl (by decide) (by decide) rfl)]
  decide

end Plex

namespace Plex

/-- Whatever the token, `getRequest` adds at most a GET to the trace and leaves
the player fields and the entity. -/
theorem getRequest_frame (url params : String) (w : World) :
    ∃ es, (getRequest url params w).trace = w.trace ++ es
      ∧ (∀ r ∈ es.filterMap Effect.request?, r.method = Method.GET)
      ∧ (getRequest url params w).self.m_playerURL = w.self.m_playerURL
      ∧ (getRequest url params w).self.m_playerPort = w.self.m_playerPort
      ∧ (getRequest url params w).self.m_playerId = w.self.m_playerId
      ∧ (getRequest url params w).entity = w.entity := by
  unfold getRequest
  by_cases h : w.self.m_authToken = ""
  · rw [if_pos h]
    exact ⟨[Effect.signIn w.self.m_clientUser w.self.m_clientPass], rfl,
      by simp [Effect.request?], rfl, rfl, rfl, rfl⟩
  · rw [if_neg h]
    refine ⟨[Effect.request (requestOf Method.GET url params w.self w.self.m_cmdId)], rfl,
      ?_, rfl, rfl, rfl, rfl⟩
    intro r hr
    simp only [List.filterMap_cons, Effect.request?, List.filterMap_nil, List.mem_singleton]
      at hr
    subst hr
    rfl

theorem tickSessions_frame (w : World) :
    ∃ es, (tickSessions w).trace = w.trace ++ es
      ∧ (∀ r ∈ es.filterMap Effect.request?, r.method = Method.GET)
      ∧ (tickSessions w).self.m_playerURL = w.self.m_playerURL
      ∧ (tickSessions w).self.m_playerPort = w.self.m_playerPort
      ∧ (tickSessions w).self.m_playerId = w.self.m_playerId
      ∧ (tickSessions w).entity = w.entity := by
  unfold tickSessions
  split_ifs with h1 h2
  · exact getRequest_frame _ _ _
  · exact getRequest_frame _ _ _
  · exact ⟨[], by simp, by simp, rfl, rfl, rfl, rfl⟩

theorem tickPort_frame (w : World) (hport : w.self.m_playerPort = "0") :
    ∃ es, (tickPort w).trace = w.trace ++ es
      ∧ (∀ r ∈ es.filterMap Effect.request?, r.method = Method.GET)
      ∧ (tickPort w).self.m_playerURL = w.self.m_playerURL
      ∧ (tickPort w).entity = w.entity := by
  obtain ⟨es, h1, h2, h3, h4, _, h6⟩ := getRequest_frame (w.self.m_serverURL ++ "/clients") ""
    (w.connectHandler (Handler.clients (w.self.m_serverURL ++ "/clients")))
  unfold tickPort
  rw [if_pos hport]
  simp only []
  rw [if_neg (by rw [h4]; exact fun h => h hport)]
  exact ⟨es, h1, h2, h3, h6⟩

/-- A tick that starts with an empty `m_playerURL` and the port `"0"` sends no
direct poll. -/
theorem tick_without_url_no_poll (w : World) (hurl : w.self.m_playerURL = "")
    (hport : w.self.m_playerPort = "0") :
    ∀ r ∈ newRequests w (getCurrentPlayer w), r.method ≠ Method.POLL := by
  obtain ⟨es, a1, a2, a3, a4, _, _⟩ := tickSessions_frame w
  obtain ⟨fs, b1, b2, b3, _⟩ := tickPort_frame (tickSessions w) (a4.trans hport)
  have hget : ∀ r ∈ (es ++ fs).filterMap Effect.request?, r.method ≠ Method.POLL := by
    intro r hr
    rw [List.filterMap_append, List.mem_append] at hr
    rcases hr with hr | hr
    · rw [a2 r hr]; decide
    · rw [b2 r hr]; decide
  rw [getCurrentPlayer_eq]
  cases he : w.entity with
  | none =>
    intro r hr
    simp [newRequests] at hr
  | some e =>
    simp only []
    split_ifs with hid
    · have hpoll : tickPoll (tickPort (tickSessions w)) = tickPort (tickSessions w) := by
        unfold tickPoll
        rw [if_neg (by rw [b3, a3, hurl]; exact fun h => h rfl)]
      rw [hpoll, newRequests_of_trace w _ (es ++ fs) (by rw [b1, a1, List.append_assoc])]
      exact hget
    · rw [newRequests_of_trace w _ es a1]
      intro r hr
      rw [a2 r hr]; decide

/-- C18: `changeSpeaker(id)` sets `m_playerId` to `id`, empties `m_playerURL`,
sets `m_playerPort` to `"0"` and `m_directConn` to false, and changes no other
field, sends nothing and connects nothing; the tick that follows sends no
direct poll. -/
theorem change_speaker_resets_transport (w : World) (id : String) :
    (changeSpeaker id w).self
      = { w.self with m_playerId := id, m_playerURL := "", m_playerPort := "0",
                      m_directConn := false }
    ∧ (changeSpeaker id w).trace = w.trace
    ∧ (changeSpeaker id w).handlers = w.handlers
    ∧ (changeSpeaker id w).entity = w.entity
    ∧ ∀ r ∈ newRequests (changeSpeaker id w) (getCurrentPlayer (changeSpeaker id w)),
        r.method ≠ Method.POLL :=
  ⟨rfl, rfl, rfl, rfl, tick_without_url_no_poll (changeSpeaker id w) rfl rfl⟩

end Plex

namespace Plex

/-- C18 on the sample: after the change to speaker `p2` the next tick asks the
server for the sessions and the clients and sends no poll. -/
theorem change_speaker_resets_transport_witness :
    (changeSpeaker "p2" readyWorld).self.m_playerURL = ""
    ∧ (newRequests (changeSpeaker "p2" readyWorld)
          (getCurrentPlayer (changeSpeaker "p2" readyWorld))).map (fun r => (r.method, r.url))
      = [(Method.GET, "http://10.0.0.2:32400/status/sessions"),
         (Method.GET, "http://10.0.0.2:32400/clients")] :=
  ⟨congrArg PlexMedia.m_playerURL (change_speaker_resets_transport readyWorld "p2").1,
    by decide⟩

/-! ## The polling interval -/

/-- The object after `getRequest` differs from the one before at most in the counter. -/
theorem getRequest_self (url params : String) (w : World) :
    (getRequest url params w).self
      = { w.self with m_cmdId := (getRequest url params w).self.m_cmdId } := by
  unfold getRequest
  split_ifs <;> rfl

theorem tickSessions_interval (w : World) :
    (tickSessions w).self.m_pollingTimer_interval
      = (if needsSessions w.self = true ∧ w.self.m_pollingTimer_interval < 4000 then 4000
         else w.self.m_pollingTimer_interval)
    ∧ (tickSessions w).self.m_directConn = w.self.m_directConn := by
  unfold tickSessions
  by_cases hn : needsSessions w.self = true
  · have hn2 := hn
    unfold needsSessions at hn2
    rw [if_pos hn2]
    simp only [hn, true_and]
    by_cases hi : w.self.m_pollingTimer_interval < 4000
    · simp only [if_pos hi]
      rw [getRequest_self]
      exact ⟨rfl, rfl⟩
    · simp only [if_neg hi]
      rw [getRequest_self]
      exact ⟨rfl, rfl⟩
  · have hn2 := hn
    unfold needsSessions at hn2
    rw [if_neg hn2]
    simp [hn]

theorem tickPort_keeps (w : World) :
    (tickPort w).self.m_pollingTimer_interval = w.self.m_pollingTimer_interval
    ∧ (tickPort w).self.m_directConn = w.self.m_directConn
    ∧ (tickPort w).self.m_playerURL = w.self.m_playerURL
    ∧ (tickPort w).entity = w.entity := by
  unfold tickPort
  by_cases hport : w.self.m_playerPort = "0"
  · rw [if_pos hport]
    simp only []
    have hp : (getRequest (w.self.m_serverURL ++ "/clients") ""
        (w.connectHandler (Handler.clients (w.self.m_serverURL ++ "/clients")))).self.m_playerPort
          = "0" := by
      rw [getRequest_self]; exact hport
    rw [if_neg (by rw [hp]; exact fun h => h rfl), getRequest_self, getRequest_entity]
    exact ⟨rfl, rfl, rfl, rfl⟩
  · rw [if_neg hport]
    exact ⟨rfl, rfl, rfl, rfl⟩

theorem tickPoll_directConn (w : World) :
    (tickPoll w).self.m_directConn = w.self.m_directConn := by
  unfold tickPoll getPollRequest
  by_cases hu : w.self.m_playerURL = ""
  · simp [hu]
  · rw [if_pos hu]
    cases w.entity with
    | none => rfl
    | some e =>
      simp only []
      by_cases hi : w.self.m_pollingTimer_interval > 2000
      · rw [if_pos hi]; rfl
      · rw [if_neg hi]; rfl

end Plex

namespace Plex

/-- C19, counterexample: after a failed poll `m_directConn` is false, yet the
next tick ends with the interval 2000 since it polls the player again; and on
the signed-in object without a player `m_directConn` is true, yet the tick
ends with the interval 4000. -/
theorem interval_does_not_follow_direct_flag :
    pollFailedRun.map (fun w => ((getCurrentPlayer w).self.m_directConn,
        (getCurrentPlayer w).self.m_pollingTimer_interval)) = some (false, 2000)
    ∧ ((getCurrentPlayer signedIn).self.m_directConn,
        (getCurrentPlayer signedIn).self.m_pollingTimer_interval) = (true, 4000) := by
  constructor <;> decide

/-- C19, amended: a tick never changes `m_directConn`, and with an entity and
an interval of 2000 or 4000 before, the interval after the tick is 2000 when
the tick sends a direct poll (a player is selected and `m_playerURL` is not
empty), whatever `m_directConn` is; else 4000 when the tick asks the server for
the sessions; else as before. -/
theorem tick_interval (w : World) (e : Entity) (he : w.entity = some e)
    (hi : w.self.m_pollingTimer_interval = 2000 ∨ w.self.m_pollingTimer_interval = 4000) :
    (getCurrentPlayer w).self.m_pollingTimer_interval
      = (if w.self.m_playerId ≠ "" ∧ w.self.m_playerURL ≠ "" then 2000
         else if needsSessions w.self = true then 4000
         else w.self.m_pollingTimer_interval)
    ∧ (getCurrentPlayer w).self.m_directConn = w.self.m_directConn := by
  obtain ⟨_, _, _, a3, _, a5, a6⟩ := tickSessions_frame w
  obtain ⟨s1, s2⟩ := tickSessions_interval w
  obtain ⟨p1, p2, p3, p4⟩ := tickPort_keeps (tickSessions w)
  obtain ⟨_, q2⟩ := tickPoll_spec (tickPort (tickSessions w)) e (by rw [p4, a6, he])
  have q3 := tickPoll_directConn (tickPort (tickSessions w))
  rw [getCurrentPlayer_eq, he]
  simp only []
  by_cases hid : w.self.m_playerId = ""
  · have hn : needsSessions w.self = true := by simp [needsSessions, hid]
    rw [if_neg (by rw [a5]; exact fun h => h hid)]
    refine ⟨?_, s2⟩
    rw [s1]
    simp only [hid, ne_eq, not_true_eq_false, false_and, if_false, hn, true_and, if_true]
    rcases hi with hi | hi <;> simp [hi]
  · rw [if_pos (by rw [a5]; exact hid)]
    refine ⟨?_, by rw [q3, p2, s2]⟩
    rw [q2, p1, p3, a3, s1]
    by_cases hu : w.self.m_playerURL = ""
    · simp only [hu, ne_eq, not_true_eq_false, false_and, and_false, if_false]
      by_cases hn : needsSessions w.self = true
      · rcases hi with hi | hi <;> simp [hi, hn]
      · simp [hn]
    · simp only [ne_eq, hid, hu, not_false_eq_true, true_and, and_self, if_true]
      by_cases hn : needsSessions w.self = true
      · rcases hi with hi | hi <;> simp [hi, hn]
      · rcases hi with hi | hi <;> simp [hi, hn]

/-- C19 amended, on the sample: a ready object with `m_directConn` cleared ends
its tick with the interval 2000. -/
theorem tick_interval_witness :
    (getCurrentPlayer (readyWorld.setSelf (fun s => { s with m_directConn := false }))).self.m_pollingTimer_interval
      = 2000 :=
  (tick_interval (readyWorld.setSelf (fun s => { s with m_directConn := false })) sampleEntity
    rfl (Or.inr rfl)).1

end Plex

namespace Plex

/-! ## The counter never goes back -/

theorem getRequest_le (url params : String) (w : World) :
    w.self.m_cmdId ≤ (getRequest url params w).self.m_cmdId := by
  unfold getRequest
  split_ifs
  · exact le_refl _
  · show w.self.m_cmdId ≤ w.self.m_cmdId + 1
    omega

theorem postRequest_le (url params : String) (w : World) :
    w.self.m_cmdId ≤ (postRequest url params w).self.m_cmdId := by
  unfold postRequest
  split_ifs
  · exact le_refl _
  · show w.self.m_cmdId ≤ w.self.m_cmdId + 1
    omega

theorem putRequest_le (url params : String) (w : World) :
    w.self.m_cmdId ≤ (putRequest url params w).self.m_cmdId := by
  unfold putRequest
  split_ifs
  · exact le_refl _
  · show w.self.m_cmdId ≤ w.self.m_cmdId + 1
    omega

theorem getPollRequest_le (url params : String) (w : World) :
    w.self.m_cmdId ≤ (getPollRequest url params w).self.m_cmdId := by
  unfold getPollRequest
  cases w.entity with
  | none => exact le_refl _
  | some e =>
    simp only []
    split_ifs
    · show w.self.m_cmdId ≤ w.self.m_cmdId + 1
      omega
    · show w.self.m_cmdId ≤ w.self.m_cmdId + 1
      omega

theorem getMachineIdentifier_le (w : World) :
    w.self.m_cmdId ≤ (getMachineIdentifier w).self.m_cmdId :=
  getRequest_le _ _ (w.connectHandler _)

theorem search_le (query type : String) (w : World) :
    w.self.m_cmdId ≤ (search query type w).self.m_cmdId :=
  getRequest_le _ _ (w.connectHandler _)

theorem getAlbum_le (id : String) (w : World) :
    w.self.m_cmdId ≤ (getAlbum id w).self.m_cmdId :=
  getRequest_le _ _ (w.connectHandler _)

theorem getPlaylist_le (id : String) (w : World) :
    w.self.m_cmdId ≤ (getPlaylist id w).self.m_cmdId :=
  getRequest_le _ _ (w.connectHandler _)

theorem getUserPlaylists_le (w : World) :
    w.self.m_cmdId ≤ (getUserPlaylists w).self.m_cmdId :=
  getRequest_le _ _ (w.connectHandler _)

theorem tickSessions_le (w : World) : w.self.m_cmdId ≤ (tickSessions w).self.m_cmdId := by
  unfold tickSessions
  split_ifs
  · exact getRequest_le _ _
      ((w.setSelf (fun s => { s with m_pollingTimer_interval := 4000 })).connectHandler _)
  · exact getRequest_le _ _ (w.connectHandler _)
  · exact le_refl _

theorem tickPort_le (w : World) : w.self.m_cmdId ≤ (tickPort w).self.m_cmdId := by
  unfold tickPort
  by_cases hport : w.self.m_playerPort = "0"
  · rw [if_pos hport]
    simp only []
    split_ifs
    · exact getRequest_le _ _ (w.connectHandler _)
    · exact getRequest_le _ _ (w.connectHandler _)
  · rw [if_neg hport]

theorem tickPoll_le (w : World) : w.self.m_cmdId ≤ (tickPoll w).self.m_cmdId := by
  unfold tickPoll
  split_ifs
  · exact getPollRequest_le _ _ w
  · exact le_refl _

theorem getCurrentPlayer_le (w : World) :
    w.self.m_cmdId ≤ (getCurrentPlayer w).self.m_cmdId := by
  rw [getCurrentPlayer_eq]
  cases w.entity with
  | none => exact le_refl _
  | some e =>
    simp only []
    split_ifs
    · exact le_trans (tickSessions_le w)
        (le_trans (tickPort_le _) (tickPoll_le _))
    · exact tickSessions_le w

end Plex

namespace Plex

theorem ite_cmdId_le (x : Int) (c : Prop) [Decidable c] (a b : World)
    (ha : x ≤ a.self.m_cmdId) (hb : x ≤ b.self.m_cmdId) :
    x ≤ (if c then a else b).self.m_cmdId := by
  split_ifs <;> assumption

theorem setSelf_cmdId_le (x : Int) (w1 : World) (f : PlexMedia → PlexMedia)
    (hf : ∀ s, (f s).m_cmdId = s.m_cmdId) (h : x ≤ w1.self.m_cmdId) :
    x ≤ (w1.setSelf f).self.m_cmdId := by
  rw [setSelf_self, hf]
  exact h

theorem postRequest_connect_le (url params : String) (w : World) (h : Handler) :
    w.self.m_cmdId ≤ (postRequest url params (w.connectHandler h)).self.m_cmdId :=
  postRequest_le _ _ (w.connectHandler h)

theorem changeSpeaker_le (id : String) (w : World) :
    w.self.m_cmdId ≤ (changeSpeaker id w).self.m_cmdId := le_refl _

theorem getCurrentPlayer_setSelf_le (w : World) (f : PlexMedia → PlexMedia)
    (hf : ∀ s, (f s).m_cmdId = s.m_cmdId) :
    w.self.m_cmdId ≤ (getCurrentPlayer (w.setSelf f)).self.m_cmdId := by
  have h := getCurrentPlayer_le (w.setSelf f)
  rw [setSelf_self, hf] at h
  exact h

set_option linter.unusedTactic false in
theorem sendCommand_le (d : MediaPlayerDef) (type entityId : String) (command : Int)
    (param : QVariant) (w : World) :
    w.self.m_cmdId ≤ (sendCommand d type entityId command param w).self.m_cmdId := by
  unfold sendCommand
  repeat' first
    | with_reducible apply ite_cmdId_le
    | (dsimp only; with_reducible apply ite_cmdId_le)
  all_goals first
    | with_reducible exact le_refl _
    | with_reducible exact getMachineIdentifier_le w
    | with_reducible exact getRequest_le _ _ w
    | with_reducible exact search_le _ _ w
    | with_reducible exact getAlbum_le _ w
    | with_reducible exact getUserPlaylists_le w
    | with_reducible exact getPlaylist_le _ w
    | with_reducible exact changeSpeaker_le _ w
    | with_reducible exact postRequest_connect_le _ _ w _
    | with_reducible exact putRequest_le _ _ w
    | with_reducible exact le_trans (putRequest_le _ _ w) (getRequest_le _ _ _)
    | with_reducible exact getCurrentPlayer_setSelf_le w _ (fun _ => rfl)
    | with_reducible exact setSelf_cmdId_le _ _ _ (fun _ => rfl) (getRequest_le _ _ w)
    | (rw [updateAttrByIndex_self]
       with_reducible exact setSelf_cmdId_le _ _ _ (fun _ => rfl) (getRequest_le _ _ w))

theorem connect_le (w : World) : w.self.m_cmdId ≤ (connect w).self.m_cmdId := by
  unfold connect
  simp only []
  split_ifs
  · exact getMachineIdentifier_le (requestAuthToken (w.emit (Effect.setState true)))
  · exact le_refl _
  · exact getMachineIdentifier_le (w.emit (Effect.setState true))
  · exact le_refl _

theorem applySession_cmdId (p : QVariant) (w : World) :
    (applySession p w).self.m_cmdId = w.self.m_cmdId := by
  unfold applySession
  simp only [updateAttrByIndex_self, setSelf_self]
  split_ifs <;> simp only [updateAttrByIndex_self, setSelf_self]

theorem choosePlayer_cmdId (players : List QVariant) (w : World) :
    (choosePlayer players w).2.self.m_cmdId = w.self.m_cmdId := by
  unfold choosePlayer
  cases findPlayer players w.self.m_playerId with
  | none => simp
  | some i => by_cases hid : w.self.m_playerId = "" <;> simp [hid]

theorem clearPlayer_cmdId (w : World) : (clearPlayer w).self.m_cmdId = w.self.m_cmdId := by
  unfold clearPlayer
  simp only [updateAttrByIndex_self, setSelf_self]

theorem onSessions_cmdId (url : String) (map : QVariantMap) (rUrl : String) (w w1 : World)
    (h : onSessions url map rUrl w = some w1) : w1.self.m_cmdId = w.self.m_cmdId := by
  unfold onSessions at h
  split_ifs at h with h1 h2 h3
  · simp only [] at h
    split at h
    · cases h
    · cases h
      rw [applySession_cmdId, choosePlayer_cmdId]
      split_ifs
      · rw [getSpeakers_self]; rfl
      · rfl
  · cases h
    exact clearPlayer_cmdId w
  · cases h; rfl
  · cases h; rfl

theorem onClients_cmdId (url : String) (map : QVariantMap) (rUrl : String) (w : World) :
    (onClients url map rUrl w).self.m_cmdId = w.self.m_cmdId := by
  unfold onClients
  split_ifs
  · split <;> rfl
  · rfl

theorem onPlayQueue_le (url : String) (param : QVariant) (map : QVariantMap) (rUrl : String)
    (w : World) : w.self.m_cmdId ≤ (onPlayQueue url param map rUrl w).self.m_cmdId := by
  unfold onPlayQueue
  split_ifs
  · exact getRequest_le _ _ w
  · exact le_refl _

theorem updateBrowseModel_self (w : World) : (updateBrowseModel w).self = w.self := by
  unfold updateBrowseModel
  cases w.entity <;> rfl

theorem foldl_updateBrowseModel_self (tracks : List QVariant) (w : World) :
    (tracks.foldl (fun v _ => updateBrowseModel v) w).self = w.self := by
  induction tracks generalizing w with
  | nil => rfl
  | cons t ts ih => rw [List.foldl_cons, ih, updateBrowseModel_self]

end Plex

namespace Plex

/-- A connected lambda that returns leaves the counter or raises it. -/
theorem Handler.run_le (h : Handler) (map : QVariantMap) (rUrl : String) (w w1 : World)
    (hr : h.run map rUrl w = some w1) : w.self.m_cmdId ≤ w1.self.m_cmdId := by
  cases h with
  | machineIdentifier url =>
    simp only [Handler.run] at hr
    split_ifs at hr <;> cases hr <;> exact le_refl _
  | search url =>
    simp only [Handler.run] at hr
    split_ifs at hr
    · split at hr <;> cases hr <;> exact le_refl _
    · cases hr; exact le_refl _
  | album url =>
    simp only [Handler.run] at hr
    split_ifs at hr
    · cases hr; rw [updateBrowseModel_self]
    · cases hr; exact le_refl _
  | playlist url =>
    simp only [Handler.run] at hr
    split_ifs at hr
    · split at hr
      · cases hr
      · cases hr; rw [foldl_updateBrowseModel_self]
    · cases hr; exact le_refl _
  | userPlaylists all_url =>
    simp only [Handler.run] at hr
    split_ifs at hr
    · cases hr
      have h := getRequest_le (w.self.m_serverURL ++ "/playQueues/" ++ w.self.m_playerQueue) ""
        ((updateBrowseModel w).connectHandler
          (Handler.nowPlaying (w.self.m_serverURL ++ "/playQueues/" ++ w.self.m_playerQueue)))
      rw [connectHandler_self, updateBrowseModel_self] at h
      rw [updateBrowseModel_self]
      exact h
    · cases hr; rw [updateBrowseModel_self]
    · cases hr; exact le_refl _
  | nowPlaying now_url =>
    simp only [Handler.run] at hr
    split_ifs at hr
    · split at hr
      · cases hr
      · cases hr; rw [updateBrowseModel_self]
    · cases hr; exact le_refl _
  | sessions url =>
    simp only [Handler.run] at hr
    exact le_of_eq (onSessions_cmdId url map rUrl w w1 hr).symm
  | clients url =>
    simp only [Handler.run] at hr
    cases hr
    exact le_of_eq (onClients_cmdId url map rUrl w).symm
  | playPlaylist url param =>
    simp only [Handler.run] at hr
    cases hr
    exact onPlayQueue_le url param map rUrl w

theorem runHandlers_le (map : QVariantMap) (rUrl : String) (hs : List Handler) (w w1 : World)
    (hr : runHandlers map rUrl hs w = some w1) : w.self.m_cmdId ≤ w1.self.m_cmdId := by
  induction hs generalizing w with
  | nil =>
    simp only [runHandlers] at hr
    cases hr
    exact le_refl _
  | cons h hs ih =>
    simp only [runHandlers] at hr
    cases hh : h.run map rUrl w with
    | none => rw [hh] at hr; cases hr
    | some w0 =>
      rw [hh] at hr
      exact le_trans (Handler.run_le h map rUrl w w0 hh) (ih w0 hr)

theorem requestReady_le (map : QVariantMap) (url : String) (w w1 : World)
    (hr : requestReady map url w = some w1) : w.self.m_cmdId ≤ w1.self.m_cmdId := by
  unfold requestReady at hr
  cases hh : runHandlers map url w.handlers w with
  | none => rw [hh] at hr; cases hr
  | some w0 =>
    rw [hh] at hr
    cases hr
    exact runHandlers_le map url w.handlers w w0 hh

theorem getReply_le (url : String) (answer : Body) (w w1 : World)
    (hr : getReply url answer w = some w1) : w.self.m_cmdId ≤ w1.self.m_cmdId := by
  cases answer with
  | empty => cases hr; exact le_refl _
  | malformed => cases hr; exact le_refl _
  | json doc => exact requestReady_le _ _ w w1 hr

theorem postReply_le (url : String) (statusCode : Int) (answer : Body) (w w1 : World)
    (hr : postReply url statusCode answer w = some w1) : w.self.m_cmdId ≤ w1.self.m_cmdId := by
  unfold postReply at hr
  split_ifs at hr
  · cases hr; exact le_refl _
  · cases answer with
    | empty => cases hr; exact le_refl _
    | malformed => cases hr; exact le_refl _
    | json doc => exact requestReady_le _ _ w w1 hr

theorem authReply_cmdId (answer : Body) (w : World) :
    (authReply answer w).self.m_cmdId = w.self.m_cmdId := by
  unfold authReply
  cases answer with
  | empty => rfl
  | malformed => rfl
  | json doc =>
    simp only []
    split_ifs <;> rfl

end Plex

namespace Plex

/-- The requests of `disconnect` on an object with a token: the unsubscribe PUT
with the counter as it stood. -/
theorem disconnect_requests (w : World) (ht : w.self.m_authToken ≠ "") :
    newRequests w (disconnect w)
      = [requestOf Method.PUT (w.self.m_playerURL ++ "/player/timeline/unsubscribe") "" w.self
          w.self.m_cmdId] := by
  have h : (disconnect w).trace = w.trace ++ [Effect.setState false, Effect.request
      (requestOf Method.PUT (w.self.m_playerURL ++ "/player/timeline/unsubscribe") "" w.self
        w.self.m_cmdId)] := by
    unfold disconnect putRequest
    simp [ht, sendRequest, requestOf, World.emit, World.setSelf]
  rw [newRequests_of_trace w _ _ h]
  rfl

/-- C20: `disconnect` (and `enterStandby`) leaves `m_cmdId` at 0 and
`m_directConn` false, although with a token it first sends the unsubscribe PUT
carrying the old counter; every other operation, `sendCommand`,
`changeSpeaker`, a polling tick, `connect` and every answer handler, leaves
`m_cmdId` at least as large as it was. -/
theorem counter_reset_only_by_disconnect (w : World) :
    (disconnect w).self.m_cmdId = 0 ∧ (disconnect w).self.m_directConn = false
    ∧ (enterStandby w).self.m_cmdId = 0 ∧ (enterStandby w).self.m_directConn = false
    ∧ (w.self.m_authToken ≠ "" →
        newRequests w (disconnect w)
          = [requestOf Method.PUT (w.self.m_playerURL ++ "/player/timeline/unsubscribe") ""
              w.self w.self.m_cmdId])
    ∧ (∀ (d : MediaPlayerDef) (type entityId : String) (command : Int) (param : QVariant),
        w.self.m_cmdId ≤ (sendCommand d type entityId command param w).self.m_cmdId)
    ∧ (∀ id : String, w.self.m_cmdId ≤ (changeSpeaker id w).self.m_cmdId)
    ∧ w.self.m_cmdId ≤ (getCurrentPlayer w).self.m_cmdId
    ∧ w.self.m_cmdId ≤ (onPollingTimerTimeout w).self.m_cmdId
    ∧ w.self.m_cmdId ≤ (connect w).self.m_cmdId
    ∧ w.self.m_cmdId ≤ (leaveStandby w).self.m_cmdId
    ∧ (∀ (url : String) (answer : Body) (w1 : World),
        getReply url answer w = some w1 → w.self.m_cmdId ≤ w1.self.m_cmdId)
    ∧ (∀ (url : String) (statusCode : Int) (answer : Body) (w1 : World),
        postReply url statusCode answer w = some w1 → w.self.m_cmdId ≤ w1.self.m_cmdId)
    ∧ (∀ statusCode : Int, (putReply statusCode w).self.m_cmdId = w.self.m_cmdId)
    ∧ (∀ (statusCode : Int) (doc : Option (List Timeline)),
        (pollReply statusCode doc w).self.m_cmdId = w.self.m_cmdId)
    ∧ (∀ answer : Body, (authReply answer w).self.m_cmdId = w.self.m_cmdId) :=
  ⟨rfl, rfl, rfl, rfl, disconnect_requests w,
    fun d type entityId command param => sendCommand_le d type entityId command param w,
    fun id => changeSpeaker_le id w,
    getCurrentPlayer_le w, getCurrentPlayer_le w, connect_le w, connect_le w,
    fun url answer w1 h => getReply_le url answer w w1 h,
    fun url statusCode answer w1 h => postReply_le url statusCode answer w w1 h,
    fun _ => rfl,
    fun statusCode doc => (pollReply_keeps statusCode doc w).1,
    fun answer => authReply_cmdId answer w⟩

/-- C20 on the sample: after four requests the counter is 4; `disconnect` sends
the unsubscribe PUT with identifier 4 and leaves the counter at 0. -/
theorem counter_reset_only_by_disconnect_witness :
    (runTraffic sampleTraffic readyWorld).self.m_cmdId = 4
    ∧ (disconnect (runTraffic sampleTraffic readyWorld)).self.m_cmdId = 0
    ∧ (newRequests (runTraffic sampleTraffic readyWorld)
        (disconnect (runTraffic sampleTraffic readyWorld))).map
          (fun r => (r.method, r.url, r.commandId))
      = [(Method.PUT, "http://10.0.0.7:32500/player/timeline/unsubscribe", 4)] :=
  ⟨by decide,
    (counter_reset_only_by_disconnect (runTraffic sampleTraffic readyWorld)).1,
    by
      rw [(counter_reset_only_by_disconnect (runTraffic sampleTraffic readyWorld)).2.2.2.2.1
        (by decide)]
      decide⟩

end Plex

namespace Plex

/-! ## Sign-ins -/

theorem signIns_emit (w : World) (e : Effect) :
    signIns (w.emit e) = signIns w + (if e.isSignIn then 1 else 0) := by
  unfold signIns
  cases h : e.isSignIn <;> simp [List.filter_append, h]

theorem signIns_sendRequest (m : Method) (url params : String) (w : World) :
    signIns (sendRequest m url params w) = signIns w := by
  unfold sendRequest
  show signIns (w.emit _) = signIns w
  rw [signIns_emit]
  rfl

/-- C21, counterexample: `connect` on the freshly constructed object starts
two sign-ins, its own and the one of the held-back lookup of the server id,
with no answer in between; a tick before the answer starts a third. -/
theorem connect_starts_two_sign_ins :
    signIns freshWorld = 0 ∧ signIns (connect freshWorld) = 2
    ∧ signIns (getCurrentPlayer (connect freshWorld)) = 3 := by
  refine ⟨?_, ?_, ?_⟩ <;> decide

/-- C21, amended: whether a sign-in is started depends only on `m_authToken`
at the time of the call, never on sign-ins still unanswered: without a token
each of `getRequest`, `postRequest` and `putRequest` starts one more sign-in
and `connect` starts one, and a second one if `m_serverId` is empty as well;
with a token none of them starts any. -/
theorem sign_in_started_when_token_empty (w : World) (url params : String) :
    (w.self.m_authToken = "" →
      signIns (getRequest url params w) = signIns w + 1
      ∧ signIns (postRequest url params w) = signIns w + 1
      ∧ signIns (putRequest url params w) = signIns w + 1
      ∧ signIns (connect w) = signIns w + (if w.self.m_serverId = "" then 2 else 1))
    ∧ (w.self.m_authToken ≠ "" →
      signIns (getRequest url params w) = signIns w
      ∧ signIns (postRequest url params w) = signIns w
      ∧ signIns (putRequest url params w) = signIns w
      ∧ signIns (connect w) = signIns w) := by
  constructor
  · intro h
    have hr : signIns (requestAuthToken w) = signIns w + 1 := by
      unfold requestAuthToken
      rw [signIns_emit]
      rfl
    refine ⟨?_, ?_, ?_, ?_⟩
    · unfold getRequest; rw [if_pos h, hr]
    · unfold postRequest; rw [if_pos h, hr]
    · unfold putRequest; rw [if_pos h, hr]
    · unfold connect getMachineIdentifier getRequest requestAuthToken
      by_cases hs : w.self.m_serverId = ""
      · simp [h, hs, signIns, List.filter_append, Effect.isSignIn, World.emit,
          World.connectHandler, World.setSelf]
      · simp [h, hs, signIns, List.filter_append, Effect.isSignIn, World.emit,
          World.connectHandler, World.setSelf]
  · intro h
    refine ⟨?_, ?_, ?_, ?_⟩
    · unfold getRequest; rw [if_neg h, signIns_sendRequest]
    · unfold postRequest; rw [if_neg h, signIns_sendRequest]
    · unfold putRequest; rw [if_neg h, signIns_sendRequest]
    · unfold connect getMachineIdentifier getRequest sendRequest
      by_cases hs : w.self.m_serverId = ""
      · simp [h, hs, signIns, List.filter_append, Effect.isSignIn, World.emit,
          World.connectHandler, World.setSelf]
      · simp [h, hs, signIns, List.filter_append, Effect.isSignIn, World.emit,
          World.connectHandler, World.setSelf]

/-- C21 amended, on the sample: a GET without a token starts a sign-in although
the two sign-ins of `connect` are unanswered. -/
theorem sign_in_started_when_token_empty_witness :
    (connect freshWorld).self.m_authToken = ""
    ∧ signIns (getRequest "http://10.0.0.2:32400/identity" "" (connect freshWorld))
      = signIns (connect freshWorld) + 1 :=
  ⟨by decide,
    ((sign_in_started_when_token_empty (connect freshWorld) "http://10.0.0.2:32400/identity"
      "").1 (by decide)).1⟩

end Plex

namespace Plex

/-! ## The shuffle flag -/

/-- Whenever the code of the shuffle command differs from `C_SHUFFLE_PLAY` (and
from `C_PLAY`), the shuffle command for a playlist posts `shuffle=0`: the flag
is set for `C_SHUFFLE_PLAY`, but the branch is entered for `C_PLAY_ITEM` and
`C_SHUFFLE`. -/
theorem shuffle_command_posts_zero (d : MediaPlayerDef) (w : World) (m : QVariantMap)
    (h1 : d.C_SHUFFLE ≠ d.C_PLAY) (h2 : d.C_SHUFFLE ≠ d.C_SHUFFLE_PLAY)
    (hs : w.self.m_serverId ≠ "") (hp : w.self.m_playerId ≠ "")
    (ht : w.self.m_authToken ≠ "")
    (hty : m.contains "type" = true) (hpl : (m.value "type").toString = "playlist") :
    (sendCommand d "media_player" w.self.m_entityId d.C_SHUFFLE (QVariant.map m) w).trace
      = w.trace ++ [Effect.request
          (requestOf Method.POST (w.self.m_serverURL ++ "/playQueues")
            ("?playlistID=" ++ (m.value "id").toString ++ "&shuffle=0&continuous=0&type=audio")
            w.self w.self.m_cmdId)] := by
  have hlit : "?playlistID=" ++ (m.value "id").toString ++ "&shuffle=" ++ "0"
        ++ "&continuous=0&type=audio"
      = "?playlistID=" ++ (m.value "id").toString ++ "&shuffle=0&continuous=0&type=audio" := by
    rw [String.append_assoc, String.append_assoc]
    rfl
  have hcmd : sendCommand d "media_player" w.self.m_entityId d.C_SHUFFLE (QVariant.map m) w
      = sendRequest Method.POST (w.self.m_serverURL ++ "/playQueues")
          ("?playlistID=" ++ (m.value "id").toString ++ "&shuffle=0&continuous=0&type=audio")
          (w.connectHandler
            (Handler.playPlaylist (w.self.m_serverURL ++ "/playQueues") (QVariant.map m))) := by
    unfold sendCommand postRequest
    simp [hs, hp, ht, h1, h2, hty, hpl, QVariant.eqString, QVariant.toMap, hlit]
  rw [hcmd]
  rfl

/-- C22, the failing input: with the command codes numbered apart, the shuffle
command `C_SHUFFLE` for playlist 42 posts to `/playQueues` with `shuffle=0`,
and the code `C_SHUFFLE_PLAY`, the only one for which the flag is set, sends
nothing at all because it does not enter the branch. -/
theorem shuffle_flag_never_sent :
    sampleCommands.C_SHUFFLE ≠ sampleCommands.C_SHUFFLE_PLAY
    ∧ (newRequests readyWorld
        (sendCommand sampleCommands "media_player" "plex" sampleCommands.C_SHUFFLE
          playlistParam readyWorld)).map (fun r => (r.method, r.url, r.params))
      = [(Method.POST, "http://10.0.0.2:32400/playQueues",
          "?playlistID=42&shuffle=0&continuous=0&type=audio")]
    ∧ newRequests readyWorld
        (sendCommand sampleCommands "media_player" "plex" sampleCommands.C_SHUFFLE_PLAY
          playlistParam readyWorld) = [] := by
  refine ⟨?_, ?_, ?_⟩ <;> decide

end Plex

namespace Plex

/-! ## What the sessions handler publishes -/

/-- The selected entry is published in full, whether or not the track changed. -/
theorem applySession_trace (p : QVariant) (w : World) (e : Entity) (he : w.entity = some e) :
    (applySession p w).trace = w.trace ++ sessionAttributes w.self.m_serverURL p := by
  by_cases ht : w.self.m_playerCurrentTrack = (p.toMap.value "ratingKey").toString <;>
    by_cases hs : ((sessionPlayer p).value "state").toString = "playing" <;>
    simp [applySession, updateAttrByIndex, he, World.setSelf, sessionAttributes, publishedState,
      ht, hs]

theorem applySession_entity (p : QVariant) (w : World) (e : Entity) (he : w.entity = some e) :
    ∃ e1, (applySession p w).entity = some e1
      ∧ e1.attr Attributes.STATE
          = AttrValue.state (publishedState ((sessionPlayer p).value "state").toString)
      ∧ e1.attr Attributes.MEDIADURATION
          = AttrValue.number (Int.tdiv (p.toMap.value "duration").toInt 1000)
      ∧ e1.attr Attributes.MEDIAPROGRESS
          = AttrValue.number (Int.tdiv (p.toMap.value "viewOffset").toInt 1000) := by
  by_cases ht : w.self.m_playerCurrentTrack = (p.toMap.value "ratingKey").toString <;>
    by_cases hs : ((sessionPlayer p).value "state").toString = "playing" <;>
    simp [applySession, updateAttrByIndex, he, World.setSelf, publishedState,
      Entity.updateAttrByIndex, ht, hs]

theorem applySession_fields (p : QVariant) (w : World) :
    (applySession p w).self.m_playerPlatform = ((sessionPlayer p).value "platform").toString
    ∧ (applySession p w).self.m_playerState = ((sessionPlayer p).value "state").toString
    ∧ (applySession p w).self.m_speakerRequest = w.self.m_speakerRequest := by
  unfold applySession
  simp only [updateAttrByIndex_self, setSelf_self]
  split_ifs <;> simp only [updateAttrByIndex_self, setSelf_self, and_self]

theorem choosePlayer_snd_frame (players : List QVariant) (w : World) :
    (choosePlayer players w).2.trace = w.trace
    ∧ (choosePlayer players w).2.entity = w.entity
    ∧ (choosePlayer players w).2.self.m_serverURL = w.self.m_serverURL
    ∧ (choosePlayer players w).2.self.m_speakerRequest = w.self.m_speakerRequest := by
  unfold choosePlayer
  cases findPlayer players w.self.m_playerId with
  | none => simp
  | some i => by_cases hid : w.self.m_playerId = "" <;> simp [hid]

end Plex

namespace Plex

theorem getSpeakers_spec (map : QVariantMap) (w : World) (e : Entity) (he : w.entity = some e) :
    (getSpeakers map w).trace
      = w.trace ++ [Effect.setSpeakerModel
          ((((map.value "MediaContainer").toMap.value "Metadata").toList).map
            (speakerItem w.self.m_playerId))]
    ∧ (getSpeakers map w).entity = some e := by
  unfold getSpeakers
  simp [he, World.emit, World.setSelf]

/-- The handler on an answer with sessions, for the entry `p` it selects: it
returns; it publishes the speaker model first if one was asked for, then the
seven attributes of `p`; no request is sent. -/
theorem onSessions_publishes (url : String) (map : QVariantMap) (w : World) (e : Entity)
    (p : QVariant) (he : w.entity = some e)
    (hp : (((map.value "MediaContainer").toMap.value "Metadata").toList)[
      (choosePlayer ((map.value "MediaContainer").toMap.value "Metadata").toList w).1]?
        = some p) :
    ∃ w1, onSessions url map url w = some w1
      ∧ w1.trace = w.trace
          ++ (if w.self.m_speakerRequest then [Effect.setSpeakerModel
                ((((map.value "MediaContainer").toMap.value "Metadata").toList).map
                  (speakerItem w.self.m_playerId))] else [])
          ++ sessionAttributes w.self.m_serverURL p
      ∧ w1.self.m_speakerRequest = false
      ∧ w1.self.m_playerPlatform = ((sessionPlayer p).value "platform").toString
      ∧ w1.self.m_playerState = ((sessionPlayer p).value "state").toString
      ∧ ∃ e1, w1.entity = some e1
          ∧ e1.attr Attributes.STATE
              = AttrValue.state (publishedState ((sessionPlayer p).value "state").toString)
          ∧ e1.attr Attributes.MEDIADURATION
              = AttrValue.number (Int.tdiv (p.toMap.value "duration").toInt 1000)
          ∧ e1.attr Attributes.MEDIAPROGRESS
              = AttrValue.number (Int.tdiv (p.toMap.value "viewOffset").toInt 1000) := by
  have hne : ((map.value "MediaContainer").toMap.value "Metadata").toList ≠ [] := by
    intro h
    rw [h] at hp
    simp at hp
  have hc := contains_of_toList_ne_nil _ _ hne
  by_cases hs : w.self.m_speakerRequest = true
  · obtain ⟨g1, g2⟩ := getSpeakers_spec map
      (w.setSelf (fun s => { s with m_playerConnected := true })) e he
    have hidx := choosePlayer_fst_congr ((map.value "MediaContainer").toMap.value "Metadata").toList
      w (getSpeakers map (w.setSelf (fun s => { s with m_playerConnected := true })))
      (by rw [getSpeakers_self]; rfl)
    obtain ⟨c1, c2, c3, c4⟩ := choosePlayer_snd_frame
      ((map.value "MediaContainer").toMap.value "Metadata").toList
      (getSpeakers map (w.setSelf (fun s => { s with m_playerConnected := true })))
    obtain ⟨f1, f2, f3⟩ := applySession_fields p (choosePlayer
      ((map.value "MediaContainer").toMap.value "Metadata").toList
      (getSpeakers map (w.setSelf (fun s => { s with m_playerConnected := true })))).2
    refine ⟨applySession p (choosePlayer
      ((map.value "MediaContainer").toMap.value "Metadata").toList
      (getSpeakers map (w.setSelf (fun s => { s with m_playerConnected := true })))).2,
      ?_, ?_, ?_, f1, f2, ?_⟩
    · unfold onSessions
      simp only [if_true, hc, setSelf_self, hs, hidx, hp]
    · rw [applySession_trace p _ e (by rw [c2, g2]), c1, g1, c3, getSpeakers_self]
      simp [hs]
    · rw [f3, c4, getSpeakers_self]
    · exact applySession_entity p _ e (by rw [c2, g2])
  · have hs' : w.self.m_speakerRequest = false := by
      cases h : w.self.m_speakerRequest
      · rfl
      · exact absurd h hs
    have hidx := choosePlayer_fst_congr ((map.value "MediaContainer").toMap.value "Metadata").toList
      w (w.setSelf (fun s => { s with m_playerConnected := true })) rfl
    obtain ⟨c1, c2, c3, c4⟩ := choosePlayer_snd_frame
      ((map.value "MediaContainer").toMap.value "Metadata").toList
      (w.setSelf (fun s => { s with m_playerConnected := true }))
    obtain ⟨f1, f2, f3⟩ := applySession_fields p (choosePlayer
      ((map.value "MediaContainer").toMap.value "Metadata").toList
      (w.setSelf (fun s => { s with m_playerConnected := true }))).2
    refine ⟨applySession p (choosePlayer
      ((map.value "MediaContainer").toMap.value "Metadata").toList
      (w.setSelf (fun s => { s with m_playerConnected := true }))).2,
      ?_, ?_, ?_, f1, f2, ?_⟩
    · unfold onSessions
      simp only [if_true, hc, setSelf_self, hs', Bool.false_eq_true, if_false, hidx, hp]
    · rw [applySession_trace p _ e (by rw [c2]; exact he), c1, c3]
      simp [hs']
    · rw [f3, c4]
      exact hs'
    · exact applySession_entity p _ e (by rw [c2]; exact he)

end Plex

namespace Plex

theorem newAttributes_of_trace (w w1 : World) (es : List Effect) (h : w1.trace = w.trace ++ es) :
    newAttributes w w1 = es.filterMap Effect.attr? := by
  unfold newAttributes
  rw [h, List.drop_left]

theorem newSpeakerModels_of_trace (w w1 : World) (es : List Effect)
    (h : w1.trace = w.trace ++ es) :
    newSpeakerModels w w1 = es.filterMap Effect.speakerModel? := by
  unfold newSpeakerModels
  rw [h, List.drop_left]

/-- C23, counterexample: after the first discovery track 11 is stored; the next
sessions answer reports the same track, `m_newTrack` becomes false, and the
handler still publishes image, source, title and artist besides state,
duration and position. -/
theorem same_track_publishes_everything :
    discoveredRun.map (fun w => w.self.m_playerCurrentTrack) = some "11"
    ∧ discoveredRun.bind (fun w =>
        (onSessions sessionsURL oneSession sessionsURL w).map (fun w1 =>
          (w1.self.m_newTrack, (newAttributes w w1).map Prod.fst)))
      = some (false, [Attributes.MEDIAIMAGE, Attributes.SOURCE, Attributes.MEDIATITLE,
          Attributes.MEDIAARTIST, Attributes.STATE, Attributes.MEDIADURATION,
          Attributes.MEDIAPROGRESS]) := by
  constructor <;> decide

/-- C23, amended: on every sessions answer with sessions the handler publishes,
for the entry `p` it selects, image, source, title, artist, state, duration and
position, in this order, and recomputes `m_playerPlatform`, whether or not the
`ratingKey` of `p` equals the stored `m_playerCurrentTrack`; only `m_newTrack`
depends on that comparison. -/
theorem discovery_publishes_everything (url : String) (map : QVariantMap) (w : World)
    (e : Entity) (p : QVariant) (he : w.entity = some e)
    (hp : (((map.value "MediaContainer").toMap.value "Metadata").toList)[
      (choosePlayer ((map.value "MediaContainer").toMap.value "Metadata").toList w).1]?
        = some p) :
    ∃ w1, onSessions url map url w = some w1
      ∧ newAttributes w w1 = (sessionAttributes w.self.m_serverURL p).filterMap Effect.attr?
      ∧ (newAttributes w w1).map Prod.fst
          = [Attributes.MEDIAIMAGE, Attributes.SOURCE, Attributes.MEDIATITLE,
             Attributes.MEDIAARTIST, Attributes.STATE, Attributes.MEDIADURATION,
             Attributes.MEDIAPROGRESS]
      ∧ w1.self.m_playerPlatform = ((sessionPlayer p).value "platform").toString
      ∧ (w1.self.m_newTrack = false
          ↔ (p.toMap.value "ratingKey").toString = w.self.m_playerCurrentTrack) := by
  obtain ⟨w1, h, htr, _, hpl, _, _⟩ := onSessions_publishes url map w e p he hp
  have hne : ((map.value "MediaContainer").toMap.value "Metadata").toList ≠ [] := by
    intro h0
    rw [h0] at hp
    simp at hp
  obtain ⟨p2, w2, hp2, h2, hiff, _⟩ := onSessions_track w url map hne
  have hpp : p = p2 := Option.some.inj (hp.symm.trans hp2)
  have hww : w1 = w2 := Option.some.inj (h.symm.trans h2)
  have hattr : newAttributes w w1
      = (sessionAttributes w.self.m_serverURL p).filterMap Effect.attr? := by
    rw [newAttributes_of_trace w w1 _ (by rw [htr, List.append_assoc])]
    by_cases hs : w.self.m_speakerRequest = true
    · simp [hs, Effect.attr?]
    · simp [hs]
  refine ⟨w1, h, hattr, ?_, hpl, ?_⟩
  · rw [hattr]
    simp [sessionAttributes, Effect.attr?]
  · rw [hww, hpp]
    exact hiff

/-- C23 amended, on the sample: with track 11 stored and reported again, the
handler publishes all seven attributes. -/
theorem discovery_publishes_everything_witness :
    ∃ w1, onSessions sessionsURL oneSession sessionsURL
        (readyWorld.setSelf (fun s => { s with m_playerCurrentTrack := "11" })) = some w1
      ∧ (newAttributes (readyWorld.setSelf (fun s => { s with m_playerCurrentTrack := "11" }))
          w1).map Prod.fst
        = [Attributes.MEDIAIMAGE, Attributes.SOURCE, Attributes.MEDIATITLE,
           Attributes.MEDIAARTIST, Attributes.STATE, Attributes.MEDIADURATION,
           Attributes.MEDIAPROGRESS] :=
  let ⟨w1, h, _, hl, _, _⟩ :=
    discovery_publishes_everything sessionsURL oneSession
      (readyWorld.setSelf (fun s => { s with m_playerCurrentTrack := "11" })) sampleEntity
      (sampleSession "p1" "10.0.0.7" "11" "playing") rfl rfl
  ⟨w1, h, hl⟩

end Plex

namespace Plex

/-! ## Queue, skip and volume commands -/

/-- C24: with server id, player and token, for a parameter with a `type` other
than `"playlist"`: if `m_playerQueue` is empty the add-to-queue command changes
nothing; else it sends exactly one PUT to
`m_serverURL + "/playQueues/" + m_playerQueue` with `type=audio` for a track,
artist or album and `type=video` otherwise, followed by exactly one GET to
`m_playerURL + "/player/playback/refreshPlayQueue"`, except on the platform
`"iOS"`, where only the PUT is sent. -/
theorem add_to_queue_flow (d : MediaPlayerDef) (w : World) (m : QVariantMap)
    (hcode : d.C_ADD_TO_QUEUE ∉ [d.C_PLAY, d.C_PLAY_ITEM, d.C_SHUFFLE])
    (hs : w.self.m_serverId ≠ "") (hp : w.self.m_playerId ≠ "")
    (ht : w.self.m_authToken ≠ "")
    (hty : m.contains "type" = true) (hnp : (m.value "type").toString ≠ "playlist") :
    (w.self.m_playerQueue = "" →
      sendCommand d "media_player" w.self.m_entityId d.C_ADD_TO_QUEUE (QVariant.map m) w = w)
    ∧ (w.self.m_playerQueue ≠ "" → w.self.m_playerPlatform ≠ "iOS" →
      (sendCommand d "media_player" w.self.m_entityId d.C_ADD_TO_QUEUE (QVariant.map m) w).trace
        = w.trace ++
          [Effect.request (requestOf Method.PUT
              (w.self.m_serverURL ++ "/playQueues/" ++ w.self.m_playerQueue)
              ("?type=" ++ typeClass (m.value "type").toString ++ "&uri=server://"
                ++ w.self.m_serverId ++ "/com.plexapp.plugins.library/library/metadata/"
                ++ (m.value "id").toString ++ "&repeat=0&own=1&includeChapters=1")
              w.self w.self.m_cmdId),
           Effect.request (requestOf Method.GET
              (w.self.m_playerURL ++ "/player/playback/refreshPlayQueue")
              ("?playQueueID=" ++ w.self.m_playerQueue) w.self (w.self.m_cmdId + 1))])
    ∧ (w.self.m_playerQueue ≠ "" → w.self.m_playerPlatform = "iOS" →
      (sendCommand d "media_player" w.self.m_entityId d.C_ADD_TO_QUEUE (QVariant.map m) w).trace
        = w.trace ++
          [Effect.request (requestOf Method.PUT
              (w.self.m_serverURL ++ "/playQueues/" ++ w.self.m_playerQueue)
              ("?type=" ++ typeClass (m.value "type").toString ++ "&uri=server://"
                ++ w.self.m_serverId ++ "/com.plexapp.plugins.library/library/metadata/"
                ++ (m.value "id").toString ++ "&repeat=0&own=1&includeChapters=1")
              w.self w.self.m_cmdId)])
    ∧ (∀ t : String, (t = "track" ∨ t = "artist" ∨ t = "album" → typeClass t = "audio")
        ∧ (¬ (t = "track" ∨ t = "artist" ∨ t = "album") → typeClass t = "video")) := by
  simp only [List.mem_cons, List.mem_singleton, List.not_mem_nil, or_false, not_or] at hcode
  obtain ⟨c1, c2, c3⟩ := hcode
  refine ⟨?_, ?_, ?_, ?_⟩
  · intro hq
    unfold sendCommand
    simp [hs, hp, c1, c2, c3, hty, hnp, hq, QVariant.toMap]
  · intro hq hpl
    unfold sendCommand putRequest getRequest sendRequest
    simp [hs, hp, ht, c1, c2, c3, hty, hnp, hq, hpl, QVariant.toMap, requestOf, World.emit,
      World.setSelf]
  · intro hq hpl
    unfold sendCommand putRequest sendRequest
    simp [hs, hp, ht, c1, c2, c3, hty, hnp, hq, hpl, QVariant.toMap, requestOf, World.emit,
      World.setSelf]
  · intro t
    unfold typeClass
    constructor
    · intro h
      rcases h with h | h | h <;> simp [h]
    · intro h
      simp only [not_or] at h
      simp [h.1, h.2.1, h.2.2]

/-- C24 on the sample: a track is put on play queue 5 and the player is told to
refresh the queue. -/
theorem add_to_queue_flow_witness :
    (newRequests queueWorld
        (sendCommand sampleCommands "media_player" "plex" sampleCommands.C_ADD_TO_QUEUE
          trackParam queueWorld)).map (fun r => (r.method, r.url, r.params, r.commandId))
      = [(Method.PUT, "http://10.0.0.2:32400/playQueues/5",
          "?type=audio&uri=server://srv/com.plexapp.plugins.library/library/metadata/7"
            ++ "&repeat=0&own=1&includeChapters=1", 0),
         (Method.GET, "http://10.0.0.7:32500/player/playback/refreshPlayQueue",
          "?playQueueID=5", 1)] :=
  (congrArg (List.map (fun r => (r.method, r.url, r.params, r.commandId)))
    (newRequests_of_trace queueWorld _ _
      ((add_to_queue_flow sampleCommands queueWorld
        [("type", QVariant.string "track"), ("id", QVariant.string "7")]
        (by decide) (by decide) (by decide) (by decide) rfl (by decide)).2.1
          (by decide) (by decide)))).trans (by decide)

end Plex

namespace Plex

/-! ## The requests of a tick -/

/-- With an entity and a token, a tick sends the requests `tickRequests` and
nothing else. -/
theorem tick_trace (w : World) (e : Entity) (he : w.entity = some e)
    (ht : w.self.m_authToken ≠ "") :
    (getCurrentPlayer w).trace = w.trace ++ (tickRequests w.self).map Effect.request := by
  obtain ⟨a1, a2, a3, a4, a5, _, a7, a8, a9⟩ := tickSessions_spec w ht
  by_cases hid : w.self.m_playerId = ""
  · rw [getCurrentPlayer_eq, he]
    simp only []
    rw [if_neg (by rw [a3]; exact fun h => h hid), a1]
    unfold tickRequests
    by_cases hn : needsSessions w.self = true <;> simp [hn, hid]
  · by_cases hport : w.self.m_playerPort = "0"
    · obtain ⟨b1, b2, b3, b4, b5, _, b7⟩ :=
        tickPort_spec (tickSessions w) (a8 ▸ ht) (a4.trans hport)
      obtain ⟨c1, _⟩ := tickPoll_spec (tickPort (tickSessions w)) e (by rw [b7, a9, he])
      rw [getCurrentPlayer_eq, he]
      simp only []
      rw [if_pos (by rw [a3]; exact hid), c1, b1, a1, b4, a5, b2, a2, a7,
        requestOf_congr Method.GET _ _ (tickSessions w).self w.self _ a8 a3,
        requestOf_congr Method.POLL _ _ (tickPort (tickSessions w)).self w.self _
          (b5.trans a8) (b3.trans a3)]
      unfold tickRequests
      by_cases hn : needsSessions w.self = true <;>
        by_cases hu : w.self.m_playerURL = "" <;> simp [hn, hid, hport, hu]
    · have hp : tickPort (tickSessions w) = tickSessions w := by
        unfold tickPort
        rw [if_neg (by rw [a4]; exact hport)]
      obtain ⟨c1, _⟩ := tickPoll_spec (tickSessions w) e (by rw [a9, he])
      rw [getCurrentPlayer_eq, he]
      simp only []
      rw [if_pos (by rw [a3]; exact hid), hp, c1, a1, a5, a2,
        requestOf_congr Method.POLL _ _ (tickSessions w).self w.self _ a8 a3]
      unfold tickRequests
      by_cases hn : needsSessions w.self = true <;>
        by_cases hu : w.self.m_playerURL = "" <;> simp [hn, hid, hport, hu]

/-- The address of the port lookup is not the address of the sessions query. -/
theorem clients_ne_sessions (s : String) : s ++ "/clients" ≠ s ++ "/status/sessions" := by
  intro h
  have h1 := congrArg String.data h
  rw [String.data_append, String.data_append] at h1
  have h2 := List.append_cancel_left h1
  revert h2
  decide

end Plex

namespace Plex

theorem filterMap_request_map (rs : List Request) :
    (rs.map Effect.request).filterMap Effect.request? = rs := by
  induction rs with
  | nil => rfl
  | cons r rs ih => simp [Effect.request?, ih]

/-- With an entity and a token, the requests of a tick are `tickRequests`. -/
theorem tick_newRequests (w : World) (e : Entity) (he : w.entity = some e)
    (ht : w.self.m_authToken ≠ "") :
    newRequests w (getCurrentPlayer w) = tickRequests w.self := by
  rw [newRequests_of_trace w _ _ (tick_trace w e he ht), filterMap_request_map]

theorem needsSessions_iff (s : PlexMedia) :
    needsSessions s = true
      ↔ (s.m_playerId = "" ∨ s.m_speakerRequest = true ∨ s.m_directConn = false
          ∨ s.m_newTrack = true) := by
  unfold needsSessions
  cases s.m_speakerRequest <;> cases s.m_directConn <;> cases s.m_newTrack <;> simp

/-- C29, counterexample: after the first discovery and a successful direct poll
player `p1` is known, `m_directConn` is true, the track is unchanged and no
speaker request is pending, but the port is still `"0"`; the tick sends the
lookup to `/clients` before the direct poll. -/
theorem direct_tick_looks_up_port :
    pollOkRun.map (fun w => (w.self.m_playerId, w.self.m_directConn, w.self.m_newTrack,
        w.self.m_speakerRequest, w.self.m_playerPort))
      = some ("p1", true, false, false, "0")
    ∧ pollOkRun.map (fun w =>
        (newRequests w (getCurrentPlayer w)).map (fun r => (r.method, r.url)))
      = some [(Method.GET, "http://10.0.0.2:32400/clients"),
              (Method.POLL, "http://10.0.0.7:32500/player/timeline/poll")] := by
  constructor <;> decide

/-- C29, amended: in a tick with an entity and a token, the GET to
`m_serverURL + "/status/sessions"` is sent if and only if `m_playerId` is empty,
or `m_speakerRequest` is true, or `m_directConn` is false, or `m_newTrack` is
true. When a player is known, directly connected, on the same track and no
speaker request is pending, the tick sends the lookup to `/clients` if the port
is `"0"`, then the direct poll if `m_playerURL` is not empty, and nothing else;
so with a known port and address it sends only the direct poll. -/
theorem tick_gating (w : World) (e : Entity) (he : w.entity = some e)
    (ht : w.self.m_authToken ≠ "") :
    ((∃ r ∈ newRequests w (getCurrentPlayer w),
        r.method = Method.GET ∧ r.url = w.self.m_serverURL ++ "/status/sessions")
      ↔ (w.self.m_playerId = "" ∨ w.self.m_speakerRequest = true
          ∨ w.self.m_directConn = false ∨ w.self.m_newTrack = true))
    ∧ (w.self.m_playerId ≠ "" → w.self.m_speakerRequest = false →
        w.self.m_directConn = true → w.self.m_newTrack = false →
        newRequests w (getCurrentPlayer w)
          = (if w.self.m_playerPort = "0" then
                [requestOf Method.GET (w.self.m_serverURL ++ "/clients") "" w.self
                  w.self.m_cmdId]
              else [])
            ++ (if w.self.m_playerURL ≠ "" then
                  [requestOf Method.POLL (w.self.m_playerURL ++ "/player/timeline/poll")
                    "?wait=1" w.self
                    (w.self.m_cmdId + (if w.self.m_playerPort = "0" then 1 else 0))]
                else []))
    ∧ (w.self.m_playerId ≠ "" → w.self.m_speakerRequest = false →
        w.self.m_directConn = true → w.self.m_newTrack = false →
        w.self.m_playerPort ≠ "0" → w.self.m_playerURL ≠ "" →
        newRequests w (getCurrentPlayer w)
          = [requestOf Method.POLL (w.self.m_playerURL ++ "/player/timeline/poll")
              "?wait=1" w.self w.self.m_cmdId]) := by
  rw [tick_newRequests w e he ht, ← needsSessions_iff]
  have hquiet : w.self.m_playerId ≠ "" → w.self.m_speakerRequest = false →
      w.self.m_directConn = true → w.self.m_newTrack = false →
      needsSessions w.self = false := by
    intro h1 h2 h3 h4
    unfold needsSessions
    simp [h1, h2, h3, h4]
  refine ⟨?_, ?_, ?_⟩
  · unfold tickRequests
    by_cases hn : needsSessions w.self = true
    · simp [hn, requestOf]
    · by_cases hid : w.self.m_playerId = "" <;>
        by_cases hport : w.self.m_playerPort = "0" <;>
        by_cases hu : w.self.m_playerURL = "" <;>
        simp [hn, hid, hport, hu, requestOf, clients_ne_sessions]
  · intro h1 h2 h3 h4
    have hn := hquiet h1 h2 h3 h4
    unfold tickRequests
    simp [hn, h1]
  · intro h1 h2 h3 h4 hport hu
    have hn := hquiet h1 h2 h3 h4
    unfold tickRequests
    simp [hn, h1, hport, hu]

/-- C29 amended, on the sample: with a known port, a direct connection, the
same track and no speaker request the tick sends the direct poll alone. -/
theorem tick_gating_witness :
    (newRequests (readyWorld.setSelf (fun s => { s with m_newTrack := false }))
        (getCurrentPlayer (readyWorld.setSelf (fun s => { s with m_newTrack := false })))).map
          (fun r => (r.method, r.url, r.commandId))
      = [(Method.POLL, "http://10.0.0.7:32500/player/timeline/poll", 0)] :=
  (congrArg (List.map (fun r => (r.method, r.url, r.commandId)))
    ((tick_gating (readyWorld.setSelf (fun s => { s with m_newTrack := false })) sampleEntity
      rfl (by decide)).2.2 (by decide) rfl rfl rfl (by decide) (by decide))).trans (by decide)

end Plex

namespace Plex

/-! ## The skip commands -/

/-- Past the gates, the two skip commands are one call of `getRequest` followed
by `m_newTrack = true`. -/
theorem skip_command_eq (d : MediaPlayerDef) (w : World) (param : QVariant)
    (hn : d.C_NEXT ∉ [d.C_PLAY, d.C_PLAY_ITEM, d.C_SHUFFLE, d.C_ADD_TO_QUEUE, d.C_PAUSE])
    (hpv : d.C_PREVIOUS
      ∉ [d.C_PLAY, d.C_PLAY_ITEM, d.C_SHUFFLE, d.C_ADD_TO_QUEUE, d.C_PAUSE, d.C_NEXT])
    (hs : w.self.m_serverId ≠ "") (hp : w.self.m_playerId ≠ "") :
    sendCommand d "media_player" w.self.m_entityId d.C_NEXT param w
      = (getRequest (w.self.m_playerURL ++ "/player/playback/skipNext") "" w).setSelf
          (fun s => { s with m_newTrack := true })
    ∧ sendCommand d "media_player" w.self.m_entityId d.C_PREVIOUS param w
      = (getRequest (w.self.m_playerURL ++ "/player/playback/skipPrevious") "" w).setSelf
          (fun s => { s with m_newTrack := true }) := by
  simp only [List.mem_cons, List.mem_singleton, List.not_mem_nil, or_false, not_or] at hn hpv
  obtain ⟨n1, n2, n3, n4, n5⟩ := hn
  obtain ⟨p1, p2, p3, p4, p5, p6⟩ := hpv
  constructor
  · unfold sendCommand
    simp [hs, hp, n1, n2, n3, n4, n5]
  · unfold sendCommand
    simp [hs, hp, p1, p2, p3, p4, p5, p6]

/-- With an entity and a token, a tick that finds `m_newTrack` true sends the
sessions query first. -/
theorem tick_after_new_track (w : World) (e : Entity) (he : w.entity = some e)
    (ht : w.self.m_authToken ≠ "") (hn : w.self.m_newTrack = true) :
    (newRequests w (getCurrentPlayer w)).head?
      = some (requestOf Method.GET (w.self.m_serverURL ++ "/status/sessions") "" w.self
          w.self.m_cmdId) := by
  rw [tick_newRequests w e he ht]
  unfold tickRequests
  simp [(needsSessions_iff w.self).mpr (Or.inr (Or.inr (Or.inr hn)))]

/-- What a skip does: `m_newTrack` is true afterwards; with a token exactly one
GET is sent, and the tick that follows starts with the sessions query; without
a token no request is sent and a sign-in is started. -/
theorem skip_effects (url : String) (w : World) :
    ((getRequest url "" w).setSelf (fun s => { s with m_newTrack := true })).self.m_newTrack
      = true
    ∧ (w.self.m_authToken ≠ "" →
        ((getRequest url "" w).setSelf (fun s => { s with m_newTrack := true })).trace
          = w.trace ++ [Effect.request (requestOf Method.GET url "" w.self w.self.m_cmdId)])
    ∧ (w.self.m_authToken ≠ "" → ∀ e, w.entity = some e →
        (newRequests ((getRequest url "" w).setSelf (fun s => { s with m_newTrack := true }))
          (getCurrentPlayer
            ((getRequest url "" w).setSelf (fun s => { s with m_newTrack := true })))).head?
          = some (requestOf Method.GET (w.self.m_serverURL ++ "/status/sessions") "" w.self
              (w.self.m_cmdId + 1)))
    ∧ (w.self.m_authToken = "" →
        ((getRequest url "" w).setSelf (fun s => { s with m_newTrack := true })).trace
          = w.trace ++ [Effect.signIn w.self.m_clientUser w.self.m_clientPass]) := by
  refine ⟨rfl, ?_, ?_, ?_⟩
  · intro ht
    rw [getRequest_of_token _ _ _ ht]
    rfl
  · intro ht e he
    rw [getRequest_of_token _ _ _ ht]
    exact tick_after_new_track
      ((sendRequest Method.GET url "" w).setSelf (fun s => { s with m_newTrack := true })) e
      he ht rfl
  · intro ht
    rw [(held_back_without_token url "" w ht).1]
    rfl

/-- C25, counterexample: in the run `tokenEmptyRun` the server id and the
player are known and the token is empty; the skip command sends no request and
starts a sign-in, `m_newTrack` is true, and the tick that follows sends no
sessions query (the only request is the direct poll). -/
theorem skip_without_token_sends_no_request :
    tokenEmptyRun.map (fun w => (w.self.m_serverId, w.self.m_playerId, w.self.m_authToken))
      = some ("srv", "p1", "")
    ∧ tokenEmptyRun.map (fun w =>
        newRequests w (sendCommand sampleCommands "media_player" "plex" sampleCommands.C_NEXT
          QVariant.invalid w)) = some []
    ∧ tokenEmptyRun.map (fun w =>
        ((sendCommand sampleCommands "media_player" "plex" sampleCommands.C_NEXT
            QVariant.invalid w).self.m_newTrack,
         signIns (sendCommand sampleCommands "media_player" "plex" sampleCommands.C_NEXT
            QVariant.invalid w) - signIns w)) = some (true, 1)
    ∧ tokenEmptyRun.map (fun w =>
        (newRequests
          (sendCommand sampleCommands "media_player" "plex" sampleCommands.C_NEXT
            QVariant.invalid w)
          (getCurrentPlayer (sendCommand sampleCommands "media_player" "plex"
            sampleCommands.C_NEXT QVariant.invalid w))).map (fun r => (r.method, r.url)))
      = some [(Method.POLL, "http://10.0.0.7:32500/player/timeline/poll")] := by
  refine ⟨?_, ?_, ?_, ?_⟩ <;> decide

/-- C25, amended: with server id and player known and a non-empty token, the
command `C_NEXT` sends exactly one GET to
`m_playerURL + "/player/playback/skipNext"` and `C_PREVIOUS` exactly one GET to
`m_playerURL + "/player/playback/skipPrevious"`; in both cases `m_newTrack` is
true afterwards whatever it was (also without a token), and with an entity the
first request of the tick that follows is the GET to
`m_serverURL + "/status/sessions"`. With an empty token either command sends no
request and starts a sign-in. -/
theorem skip_marks_new_track (d : MediaPlayerDef) (w : World) (param : QVariant)
    (hn : d.C_NEXT ∉ [d.C_PLAY, d.C_PLAY_ITEM, d.C_SHUFFLE, d.C_ADD_TO_QUEUE, d.C_PAUSE])
    (hpv : d.C_PREVIOUS
      ∉ [d.C_PLAY, d.C_PLAY_ITEM, d.C_SHUFFLE, d.C_ADD_TO_QUEUE, d.C_PAUSE, d.C_NEXT])
    (hs : w.self.m_serverId ≠ "") (hp : w.self.m_playerId ≠ "") :
    (sendCommand d "media_player" w.self.m_entityId d.C_NEXT param w).self.m_newTrack = true
    ∧ (sendCommand d "media_player" w.self.m_entityId d.C_PREVIOUS param w).self.m_newTrack
        = true
    ∧ (w.self.m_authToken ≠ "" →
        (sendCommand d "media_player" w.self.m_entityId d.C_NEXT param w).trace
          = w.trace ++ [Effect.request (requestOf Method.GET
              (w.self.m_playerURL ++ "/player/playback/skipNext") "" w.self w.self.m_cmdId)]
        ∧ (sendCommand d "media_player" w.self.m_entityId d.C_PREVIOUS param w).trace
          = w.trace ++ [Effect.request (requestOf Method.GET
              (w.self.m_playerURL ++ "/player/playback/skipPrevious") "" w.self
              w.self.m_cmdId)])
    ∧ (w.self.m_authToken ≠ "" → ∀ e, w.entity = some e →
        (newRequests (sendCommand d "media_player" w.self.m_entityId d.C_NEXT param w)
          (getCurrentPlayer
            (sendCommand d "media_player" w.self.m_entityId d.C_NEXT param w))).head?
          = some (requestOf Method.GET (w.self.m_serverURL ++ "/status/sessions") "" w.self
              (w.self.m_cmdId + 1))
        ∧ (newRequests (sendCommand d "media_player" w.self.m_entityId d.C_PREVIOUS param w)
          (getCurrentPlayer
            (sendCommand d "media_player" w.self.m_entityId d.C_PREVIOUS param w))).head?
          = some (requestOf Method.GET (w.self.m_serverURL ++ "/status/sessions") "" w.self
              (w.self.m_cmdId + 1)))
    ∧ (w.self.m_authToken = "" →
        (sendCommand d "media_player" w.self.m_entityId d.C_NEXT param w).trace
          = w.trace ++ [Effect.signIn w.self.m_clientUser w.self.m_clientPass]
        ∧ (sendCommand d "media_player" w.self.m_entityId d.C_PREVIOUS param w).trace
          = w.trace ++ [Effect.signIn w.self.m_clientUser w.self.m_clientPass]) := by
  obtain ⟨hnext, hprev⟩ := skip_command_eq d w param hn hpv hs hp
  rw [hnext, hprev]
  obtain ⟨a1, a2, a3, a4⟩ := skip_effects (w.self.m_playerURL ++ "/player/playback/skipNext") w
  obtain ⟨b1, b2, b3, b4⟩ :=
    skip_effects (w.self.m_playerURL ++ "/player/playback/skipPrevious") w
  exact ⟨a1, b1, fun ht => ⟨a2 ht, b2 ht⟩, fun ht e he => ⟨a3 ht e he, b3 ht e he⟩,
    fun ht => ⟨a4 ht, b4 ht⟩⟩

/-- C25 amended, on the sample: the skip to the next track sends one GET, and
the tick that follows asks the server for the sessions first. -/
theorem skip_marks_new_track_witness :
    (newRequests readyWorld
        (sendCommand sampleCommands "media_player" "plex" sampleCommands.C_NEXT
          QVariant.invalid readyWorld)).map (fun r => (r.method, r.url, r.commandId))
      = [(Method.GET, "http://10.0.0.7:32500/player/playback/skipNext", 0)] :=
  (congrArg (List.map (fun r => (r.method, r.url, r.commandId)))
    (newRequests_of_trace readyWorld _ _
      (((skip_marks_new_track sampleCommands readyWorld QVariant.invalid (by decide) (by decide)
        (by decide) (by decide)).2.2.1 (by decide)).1))).trans (by decide)

end Plex

namespace Plex

/-! ## The volume commands -/

theorem wrapInt32_of_range (n : Int) (h1 : INT_MIN ≤ n) (h2 : n ≤ INT_MAX) :
    wrapInt32 n = n := by
  unfold wrapInt32
  unfold INT_MIN at h1
  unfold INT_MAX at h2
  omega

/-- Past the gates, the three volume commands are one call of `getRequest` on
`m_playerURL + "/player/playback/setParameters"`; the step is added in the
32-bit `int`. -/
theorem volume_command_eq (d : MediaPlayerDef) (w : World) (param : QVariant)
    (hset : d.C_VOLUME_SET ∉ [d.C_PLAY, d.C_PLAY_ITEM, d.C_SHUFFLE, d.C_ADD_TO_QUEUE,
      d.C_PAUSE, d.C_NEXT, d.C_PREVIOUS])
    (hup : d.C_VOLUME_UP ∉ [d.C_PLAY, d.C_PLAY_ITEM, d.C_SHUFFLE, d.C_ADD_TO_QUEUE,
      d.C_PAUSE, d.C_NEXT, d.C_PREVIOUS, d.C_VOLUME_SET])
    (hdown : d.C_VOLUME_DOWN ∉ [d.C_PLAY, d.C_PLAY_ITEM, d.C_SHUFFLE, d.C_ADD_TO_QUEUE,
      d.C_PAUSE, d.C_NEXT, d.C_PREVIOUS, d.C_VOLUME_SET, d.C_VOLUME_UP])
    (hs : w.self.m_serverId ≠ "") (hp : w.self.m_playerId ≠ "") :
    sendCommand d "media_player" w.self.m_entityId d.C_VOLUME_UP param w
      = getRequest (w.self.m_playerURL ++ "/player/playback/setParameters")
          ("?volume=" ++ toString (wrapInt32 (w.self.m_playerVol + 5))) w
    ∧ sendCommand d "media_player" w.self.m_entityId d.C_VOLUME_DOWN param w
      = getRequest (w.self.m_playerURL ++ "/player/playback/setParameters")
          ("?volume=" ++ toString (wrapInt32 (w.self.m_playerVol - 5))) w
    ∧ sendCommand d "media_player" w.self.m_entityId d.C_VOLUME_SET param w
      = getRequest (w.self.m_playerURL ++ "/player/playback/setParameters")
          ("?volume=" ++ param.toString) w := by
  simp only [List.mem_cons, List.mem_singleton, List.not_mem_nil, or_false, not_or]
    at hset hup hdown
  obtain ⟨s1, s2, s3, s4, s5, s6, s7⟩ := hset
  obtain ⟨u1, u2, u3, u4, u5, u6, u7, u8⟩ := hup
  obtain ⟨d1, d2, d3, d4, d5, d6, d7, d8, d9⟩ := hdown
  refine ⟨?_, ?_, ?_⟩
  · unfold sendCommand
    simp [hs, hp, u1, u2, u3, u4, u5, u6, u7, u8]
  · unfold sendCommand
    simp [hs, hp, d1, d2, d3, d4, d5, d6, d7, d8, d9]
  · unfold sendCommand
    simp [hs, hp, s1, s2, s3, s4, s5, s6, s7]

/-- C26, counterexample: a poll answer that reports the volume 2147483647, the
largest `int`, stores it in `m_playerVol`; the step up then cannot ask for
`v + 5 = 2147483652`, which no `int` holds: the sum overflows (in C++ without
defined behaviour; the model takes the two's complement result) and the request
carries `?volume=-2147483644`. Likewise the step down from -2147483648 asks for
2147483643. -/
theorem volume_step_overflows :
    (pollReply 200 (some [[("state", "playing"), ("volume", "2147483647")]])
        readyWorld).self.m_playerVol = 2147483647
    ∧ (newRequests (pollReply 200 (some [[("state", "playing"), ("volume", "2147483647")]])
          readyWorld)
        (sendCommand sampleCommands "media_player" "plex" sampleCommands.C_VOLUME_UP
          QVariant.invalid
          (pollReply 200 (some [[("state", "playing"), ("volume", "2147483647")]])
            readyWorld))).map (fun r => (r.method, r.url, r.params))
      = [(Method.GET, "http://10.0.0.7:32500/player/playback/setParameters",
          "?volume=-2147483644")]
    ∧ (newRequests (pollReply 200 (some [[("state", "playing"), ("volume", "-2147483648")]])
          readyWorld)
        (sendCommand sampleCommands "media_player" "plex" sampleCommands.C_VOLUME_DOWN
          QVariant.invalid
          (pollReply 200 (some [[("state", "playing"), ("volume", "-2147483648")]])
            readyWorld))).map (fun r => (r.method, r.url, r.params))
      = [(Method.GET, "http://10.0.0.7:32500/player/playback/setParameters",
          "?volume=2147483643")] := by
  refine ⟨?_, ?_, ?_⟩ <;> decide

/-- C26, amended: past the gates, with `v = m_playerVol`: if `v + 5` fits the
32-bit `int`, the command `C_VOLUME_UP` calls `getRequest` on
`m_playerURL + "/player/playback/setParameters"` with `?volume=` followed by
`v + 5`; if `v - 5` fits, `C_VOLUME_DOWN` does so with `v - 5`; and
`C_VOLUME_SET` with the text of the parameter; with a token this is the one
request sent. None of the three changes `m_playerVol`, and within the `int`
range the value is sent as computed, without a bound of 0 or 100. -/
theorem volume_commands (d : MediaPlayerDef) (w : World) (param : QVariant)
    (hset : d.C_VOLUME_SET ∉ [d.C_PLAY, d.C_PLAY_ITEM, d.C_SHUFFLE, d.C_ADD_TO_QUEUE,
      d.C_PAUSE, d.C_NEXT, d.C_PREVIOUS])
    (hup : d.C_VOLUME_UP ∉ [d.C_PLAY, d.C_PLAY_ITEM, d.C_SHUFFLE, d.C_ADD_TO_QUEUE,
      d.C_PAUSE, d.C_NEXT, d.C_PREVIOUS, d.C_VOLUME_SET])
    (hdown : d.C_VOLUME_DOWN ∉ [d.C_PLAY, d.C_PLAY_ITEM, d.C_SHUFFLE, d.C_ADD_TO_QUEUE,
      d.C_PAUSE, d.C_NEXT, d.C_PREVIOUS, d.C_VOLUME_SET, d.C_VOLUME_UP])
    (hs : w.self.m_serverId ≠ "") (hp : w.self.m_playerId ≠ "") :
    (INT_MIN ≤ w.self.m_playerVol + 5 → w.self.m_playerVol + 5 ≤ INT_MAX →
      sendCommand d "media_player" w.self.m_entityId d.C_VOLUME_UP param w
        = getRequest (w.self.m_playerURL ++ "/player/playback/setParameters")
            ("?volume=" ++ toString (w.self.m_playerVol + 5)) w
      ∧ (w.self.m_authToken ≠ "" →
          (sendCommand d "media_player" w.self.m_entityId d.C_VOLUME_UP param w).trace
            = w.trace ++ [Effect.request (requestOf Method.GET
                (w.self.m_playerURL ++ "/player/playback/setParameters")
                ("?volume=" ++ toString (w.self.m_playerVol + 5)) w.self w.self.m_cmdId)]))
    ∧ (INT_MIN ≤ w.self.m_playerVol - 5 → w.self.m_playerVol - 5 ≤ INT_MAX →
      sendCommand d "media_player" w.self.m_entityId d.C_VOLUME_DOWN param w
        = getRequest (w.self.m_playerURL ++ "/player/playback/setParameters")
            ("?volume=" ++ toString (w.self.m_playerVol - 5)) w
      ∧ (w.self.m_authToken ≠ "" →
          (sendCommand d "media_player" w.self.m_entityId d.C_VOLUME_DOWN param w).trace
            = w.trace ++ [Effect.request (requestOf Method.GET
                (w.self.m_playerURL ++ "/player/playback/setParameters")
                ("?volume=" ++ toString (w.self.m_playerVol - 5)) w.self w.self.m_cmdId)]))
    ∧ (sendCommand d "media_player" w.self.m_entityId d.C_VOLUME_SET param w
        = getRequest (w.self.m_playerURL ++ "/player/playback/setParameters")
            ("?volume=" ++ param.toString) w
      ∧ (w.self.m_authToken ≠ "" →
          (sendCommand d "media_player" w.self.m_entityId d.C_VOLUME_SET param w).trace
            = w.trace ++ [Effect.request (requestOf Method.GET
                (w.self.m_playerURL ++ "/player/playback/setParameters")
                ("?volume=" ++ param.toString) w.self w.self.m_cmdId)]))
    ∧ (sendCommand d "media_player" w.self.m_entityId d.C_VOLUME_UP param w).self.m_playerVol
        = w.self.m_playerVol
    ∧ (sendCommand d "media_player" w.self.m_entityId d.C_VOLUME_DOWN param w).self.m_playerVol
        = w.self.m_playerVol
    ∧ (sendCommand d "media_player" w.self.m_entityId d.C_VOLUME_SET param w).self.m_playerVol
        = w.self.m_playerVol := by
  obtain ⟨hU, hD, hS⟩ := volume_command_eq d w param hset hup hdown hs hp
  have hvol : ∀ url params, (getRequest url params w).self.m_playerVol = w.self.m_playerVol := by
    intro url params
    rw [getRequest_self]
  refine ⟨?_, ?_, ?_, ?_, ?_, ?_⟩
  · intro h1 h2
    rw [hU, wrapInt32_of_range _ h1 h2]
    refine ⟨rfl, ?_⟩
    intro ht
    rw [getRequest_of_token _ _ _ ht]
    rfl
  · intro h1 h2
    rw [hD, wrapInt32_of_range _ h1 h2]
    refine ⟨rfl, ?_⟩
    intro ht
    rw [getRequest_of_token _ _ _ ht]
    rfl
  · rw [hS]
    refine ⟨rfl, ?_⟩
    intro ht
    rw [getRequest_of_token _ _ _ ht]
    rfl
  · rw [hU]; exact hvol _ _
  · rw [hD]; exact hvol _ _
  · rw [hS]; exact hvol _ _

/-- C26 amended, on the sample: at the volume 100 the step up asks for 105, and
at the volume 3 the step down asks for -2. -/
theorem volume_commands_witness :
    (newRequests readyWorld
        (sendCommand sampleCommands "media_player" "plex" sampleCommands.C_VOLUME_UP
          QVariant.invalid readyWorld)).map (fun r => (r.method, r.url, r.params))
      = [(Method.GET, "http://10.0.0.7:32500/player/playback/setParameters", "?volume=105")]
    ∧ (newRequests (readyWorld.setSelf (fun s => { s with m_playerVol := 3 }))
        (sendCommand sampleCommands "media_player" "plex" sampleCommands.C_VOLUME_DOWN
          QVariant.invalid (readyWorld.setSelf (fun s => { s with m_playerVol := 3 })))).map
            (fun r => (r.method, r.url, r.params))
      = [(Method.GET, "http://10.0.0.7:32500/player/playback/setParameters", "?volume=-2")] :=
  ⟨(congrArg (List.map (fun r => (r.method, r.url, r.params)))
      (newRequests_of_trace readyWorld _ _
        (((volume_commands sampleCommands readyWorld QVariant.invalid (by decide) (by decide)
          (by decide) (by decide) (by decide)).1 (by decide) (by decide)).2
            (by decide)))).trans (by decide),
    (congrArg (List.map (fun r => (r.method, r.url, r.params)))
      (newRequests_of_trace (readyWorld.setSelf (fun s => { s with m_playerVol := 3 })) _ _
        (((volume_commands sampleCommands
          (readyWorld.setSelf (fun s => { s with m_playerVol := 3 })) QVariant.invalid
          (by decide) (by decide) (by decide) (by decide) (by decide)).2.1
            (by decide) (by decide)).2 (by decide)))).trans (by decide)⟩

end Plex

namespace Plex

/-! ## The speaker request -/

theorem speakerItem_id (id : String) (p : QVariant) :
    (speakerItem id p).id = machineIdentifierOf p := rfl

/-- C27: on a sessions answer that lists sessions, with an entity, the handler
returns and sends no request; `m_speakerRequest` is false afterwards. If it was
true, exactly one speaker model is published, built from the session entries of
this answer, one row per entry in the order of the list, with the
`machineIdentifier` of the entry's `Player` as id; if it was false, no speaker
model is published. -/
theorem speaker_request_served (url : String) (map : QVariantMap) (w : World) (e : Entity)
    (he : w.entity = some e)
    (hne : ((map.value "MediaContainer").toMap.value "Metadata").toList ≠ []) :
    ∃ w1, onSessions url map url w = some w1
      ∧ newRequests w w1 = []
      ∧ signIns w1 = signIns w
      ∧ w1.self.m_speakerRequest = false
      ∧ (w.self.m_speakerRequest = true →
          newSpeakerModels w w1
            = [(((map.value "MediaContainer").toMap.value "Metadata").toList).map
                (speakerItem w.self.m_playerId)]
          ∧ ((((map.value "MediaContainer").toMap.value "Metadata").toList).map
                (speakerItem w.self.m_playerId)).map SpeakerItem.id
            = (((map.value "MediaContainer").toMap.value "Metadata").toList).map
                machineIdentifierOf
          ∧ ((((map.value "MediaContainer").toMap.value "Metadata").toList).map
                (speakerItem w.self.m_playerId)).length
            = (((map.value "MediaContainer").toMap.value "Metadata").toList).length)
      ∧ (w.self.m_speakerRequest = false → newSpeakerModels w w1 = []) := by
  obtain ⟨p, hp⟩ := choosePlayer_index_valid
    ((map.value "MediaContainer").toMap.value "Metadata").toList w hne
  obtain ⟨w1, h, htr, hsr, _⟩ := onSessions_publishes url map w e p he hp
  have htr2 := htr
  rw [List.append_assoc] at htr2
  refine ⟨w1, h, ?_, ?_, hsr, ?_, ?_⟩
  · rw [newRequests_of_trace w w1 _ htr2]
    by_cases hs : w.self.m_speakerRequest = true <;>
      simp [hs, sessionAttributes, Effect.request?]
  · unfold signIns
    rw [htr2]
    by_cases hs : w.self.m_speakerRequest = true <;>
      simp [hs, sessionAttributes, Effect.isSignIn]
  · intro hs
    refine ⟨?_, ?_, ?_⟩
    · rw [newSpeakerModels_of_trace w w1 _ htr2]
      simp [hs, sessionAttributes, Effect.speakerModel?]
    · rw [List.map_map]
      rfl
    · rw [List.length_map]
  · intro hs
    rw [newSpeakerModels_of_trace w w1 _ htr2]
    simp [hs, sessionAttributes, Effect.speakerModel?]

/-- C27 on the sample: with a pending request, the answer that lists `p0` and
`p1` makes the handler publish a model with these two rows. -/
theorem speaker_request_served_witness :
    ∃ w1, onSessions sessionsURL twoSessions sessionsURL
        (readyWorld.setSelf (fun s => { s with m_speakerRequest := true })) = some w1
      ∧ newRequests (readyWorld.setSelf (fun s => { s with m_speakerRequest := true })) w1 = []
      ∧ w1.self.m_speakerRequest = false
      ∧ (newSpeakerModels (readyWorld.setSelf (fun s => { s with m_speakerRequest := true }))
          w1).map (fun items => items.map (fun i => (i.id, i.title)))
        = [[("p0", "Living room (Local)"), ("p1", "Living room (Connected)")]] :=
  let ⟨w1, h, hr, _, hs, hm, _⟩ :=
    speaker_request_served sessionsURL twoSessions
      (readyWorld.setSelf (fun s => { s with m_speakerRequest := true })) sampleEntity rfl
      (fun h0 => absurd (congrArg List.length h0) (by decide))
  ⟨w1, h, hr, hs,
    (congrArg (List.map (fun items => items.map (fun (i : SpeakerItem) => (i.id, i.title))))
      (hm rfl).1).trans (by decide)⟩

end Plex

namespace Plex

/-! ## The stored track -/

theorem getRequest_currentTrack (url params : String) (w : World) :
    (getRequest url params w).self.m_playerCurrentTrack = w.self.m_playerCurrentTrack := by
  rw [getRequest_self]

theorem postRequest_currentTrack (url params : String) (w : World) :
    (postRequest url params w).self.m_playerCurrentTrack = w.self.m_playerCurrentTrack := by
  unfold postRequest
  split_ifs <;> rfl

theorem putRequest_currentTrack (url params : String) (w : World) :
    (putRequest url params w).self.m_playerCurrentTrack = w.self.m_playerCurrentTrack := by
  unfold putRequest
  split_ifs <;> rfl

theorem getPollRequest_currentTrack (url params : String) (w : World) :
    (getPollRequest url params w).self.m_playerCurrentTrack = w.self.m_playerCurrentTrack := by
  unfold getPollRequest
  cases w.entity with
  | none => rfl
  | some e =>
    simp only []
    split_ifs <;> rfl

theorem tickSessions_currentTrack (w : World) :
    (tickSessions w).self.m_playerCurrentTrack = w.self.m_playerCurrentTrack := by
  unfold tickSessions
  split_ifs <;> first | rfl | (rw [getRequest_currentTrack]; rfl)

theorem tickPort_currentTrack (w : World) :
    (tickPort w).self.m_playerCurrentTrack = w.self.m_playerCurrentTrack := by
  unfold tickPort
  by_cases hport : w.self.m_playerPort = "0"
  · rw [if_pos hport]
    simp only []
    split_ifs <;> first
      | (rw [getRequest_currentTrack]; rfl)
      | (rw [setSelf_self, getRequest_self]; rfl)
  · rw [if_neg hport]

theorem tickPoll_currentTrack (w : World) :
    (tickPoll w).self.m_playerCurrentTrack = w.self.m_playerCurrentTrack := by
  unfold tickPoll
  split_ifs
  · exact getPollRequest_currentTrack _ _ w
  · rfl

theorem getCurrentPlayer_currentTrack (w : World) :
    (getCurrentPlayer w).self.m_playerCurrentTrack = w.self.m_playerCurrentTrack := by
  rw [getCurrentPlayer_eq]
  cases w.entity with
  | none => rfl
  | some e =>
    simp only []
    split_ifs
    · rw [tickPoll_currentTrack, tickPort_currentTrack, tickSessions_currentTrack]
    · rw [tickSessions_currentTrack]

theorem ite_currentTrack (x : String) (c : Prop) [Decidable c] (a b : World)
    (ha : a.self.m_playerCurrentTrack = x) (hb : b.self.m_playerCurrentTrack = x) :
    (if c then a else b).self.m_playerCurrentTrack = x := by
  split_ifs <;> assumption

theorem getMachineIdentifier_currentTrack (w : World) :
    (getMachineIdentifier w).self.m_playerCurrentTrack = w.self.m_playerCurrentTrack :=
  getRequest_currentTrack _ _ _

theorem search_currentTrack (query type : String) (w : World) :
    (search query type w).self.m_playerCurrentTrack = w.self.m_playerCurrentTrack := by
  unfold search
  exact getRequest_currentTrack _ _ _

theorem getAlbum_currentTrack (id : String) (w : World) :
    (getAlbum id w).self.m_playerCurrentTrack = w.self.m_playerCurrentTrack :=
  getRequest_currentTrack _ _ _

theorem getPlaylist_currentTrack (id : String) (w : World) :
    (getPlaylist id w).self.m_playerCurrentTrack = w.self.m_playerCurrentTrack :=
  getRequest_currentTrack _ _ _

theorem getUserPlaylists_currentTrack (w : World) :
    (getUserPlaylists w).self.m_playerCurrentTrack = w.self.m_playerCurrentTrack :=
  getRequest_currentTrack _ _ _

theorem postRequest_connect_currentTrack (url params : String) (w : World) (h : Handler) :
    (postRequest url params (w.connectHandler h)).self.m_playerCurrentTrack
      = w.self.m_playerCurrentTrack :=
  postRequest_currentTrack _ _ (w.connectHandler h)

theorem setSelf_currentTrack (x : String) (w1 : World) (f : PlexMedia → PlexMedia)
    (hf : ∀ s, (f s).m_playerCurrentTrack = s.m_playerCurrentTrack)
    (h : w1.self.m_playerCurrentTrack = x) :
    (w1.setSelf f).self.m_playerCurrentTrack = x := by
  rw [setSelf_self, hf]
  exact h

theorem getCurrentPlayer_setSelf_currentTrack (w : World) (f : PlexMedia → PlexMedia)
    (hf : ∀ s, (f s).m_playerCurrentTrack = s.m_playerCurrentTrack) :
    (getCurrentPlayer (w.setSelf f)).self.m_playerCurrentTrack = w.self.m_playerCurrentTrack := by
  rw [getCurrentPlayer_currentTrack, setSelf_self, hf]

theorem getRequest_setSelf_currentTrack (url params : String) (w : World)
    (f : PlexMedia → PlexMedia)
    (hf : ∀ s, (f s).m_playerCurrentTrack = s.m_playerCurrentTrack) :
    ((getRequest url params w).setSelf f).self.m_playerCurrentTrack
      = w.self.m_playerCurrentTrack :=
  setSelf_currentTrack _ _ _ hf (getRequest_currentTrack _ _ w)

set_option linter.unusedTactic false in
/-- No command writes `m_playerCurrentTrack`. -/
theorem sendCommand_currentTrack (d : MediaPlayerDef) (type entityId : String) (command : Int)
    (param : QVariant) (w : World) :
    (sendCommand d type entityId command param w).self.m_playerCurrentTrack
      = w.self.m_playerCurrentTrack := by
  unfold sendCommand
  repeat' first
    | with_reducible apply ite_currentTrack
    | (dsimp only; with_reducible apply ite_currentTrack)
  all_goals first
    | with_reducible exact rfl
    | with_reducible exact getMachineIdentifier_currentTrack w
    | with_reducible exact getRequest_currentTrack _ _ w
    | with_reducible exact search_currentTrack _ _ w
    | with_reducible exact getAlbum_currentTrack _ w
    | with_reducible exact getUserPlaylists_currentTrack w
    | with_reducible exact getPlaylist_currentTrack _ w
    | exact rfl
    | with_reducible exact postRequest_connect_currentTrack _ _ w _
    | with_reducible exact putRequest_currentTrack _ _ w
    | with_reducible exact (getRequest_currentTrack _ _ _).trans (putRequest_currentTrack _ _ w)
    | with_reducible exact getCurrentPlayer_setSelf_currentTrack w _ (fun _ => rfl)
    | with_reducible exact getRequest_setSelf_currentTrack _ _ w _ (fun _ => rfl)
    | (rw [updateAttrByIndex_self]
       with_reducible exact getRequest_setSelf_currentTrack _ _ w _ (fun _ => rfl))

theorem applyTimeline_currentTrack (s : PlexMedia) (n : Timeline) :
    (applyTimeline s n).m_playerCurrentTrack = s.m_playerCurrentTrack := by
  unfold applyTimeline
  split_ifs <;> rfl

theorem foldl_applyTimeline_currentTrack (timelines : List Timeline) (s : PlexMedia) :
    (timelines.foldl applyTimeline s).m_playerCurrentTrack = s.m_playerCurrentTrack := by
  induction timelines generalizing s with
  | nil => rfl
  | cons n ns ih => rw [List.foldl_cons, ih, applyTimeline_currentTrack]

theorem pollReply_currentTrack (statusCode : Int) (doc : Option (List Timeline)) (w : World) :
    (pollReply statusCode doc w).self.m_playerCurrentTrack = w.self.m_playerCurrentTrack := by
  by_cases hs : statusCode = 200
  · subst hs
    cases doc with
    | none => rw [(pollReply_failed 200 w).2]
    | some timelines =>
      rw [pollReply_ok_self]
      exact foldl_applyTimeline_currentTrack timelines w.self
  · rw [((pollReply_failed statusCode w).1 hs).2 doc]
    rfl

/-- The loop over the `Timeline` elements leaves `m_newTrack` at the comparison
of the stored track with the `ratingKey` of the last entry that is not stopped. -/
theorem foldl_applyTimeline_newTrack (timelines : List Timeline) (s : PlexMedia) :
    (timelines.foldl applyTimeline s).m_newTrack
      = match lastActive timelines with
        | some n => if s.m_playerCurrentTrack = n.attribute "ratingKey" then false else true
        | none => s.m_newTrack := by
  induction timelines generalizing s with
  | nil => rfl
  | cons t ts ih =>
    rw [List.foldl_cons, ih, applyTimeline_currentTrack]
    by_cases ht : t.attribute "state" = "stopped"
    · have hl : lastActive (t :: ts) = lastActive ts := by
        unfold lastActive
        simp [List.filter_cons, ht]
      rw [hl, applyTimeline_stopped s t ht]
    · have hl : lastActive (t :: ts) = some ((lastActive ts).getD t) := by
        unfold lastActive
        simp [List.filter_cons, ht, List.getLast?_cons]
      rw [hl]
      cases hts : lastActive ts with
      | none => simp [applyTimeline, ht]
      | some n => simp

theorem pollReply_newTrack (timelines : List Timeline) (n : Timeline) (w : World)
    (hn : lastActive timelines = some n) :
    ((pollReply 200 (some timelines) w).self.m_newTrack = true
      ↔ n.attribute "ratingKey" ≠ w.self.m_playerCurrentTrack) := by
  rw [pollReply_ok_self]
  show (timelines.foldl applyTimeline w.self).m_newTrack = true ↔ _
  rw [foldl_applyTimeline_newTrack, hn]
  simp only []
  by_cases h : w.self.m_playerCurrentTrack = n.attribute "ratingKey"
  · simp [h]
  · simp [h, Ne.symm h]

theorem Step.run_currentTrack (d : MediaPlayerDef) (st : Step) (w : World) :
    (st.run d w).self.m_playerCurrentTrack = w.self.m_playerCurrentTrack := by
  cases st with
  | tick => exact getCurrentPlayer_currentTrack w
  | pollAnswer statusCode doc => exact pollReply_currentTrack statusCode doc w
  | command t e c p => exact sendCommand_currentTrack d _ _ _ _ w

theorem runSteps_currentTrack (d : MediaPlayerDef) (sts : List Step) (w : World) :
    (runSteps d sts w).self.m_playerCurrentTrack = w.self.m_playerCurrentTrack := by
  induction sts generalizing w with
  | nil => rfl
  | cons st sts ih =>
    show (runSteps d sts (st.run d w)).self.m_playerCurrentTrack = _
    rw [ih, Step.run_currentTrack]

/-- C28: the answer to a direct poll never writes `m_playerCurrentTrack`, and
neither does a tick or a command. After a successful poll whose last entry that
is not stopped is `n`, `m_newTrack` is true if and only if the `ratingKey` of
`n` differs from the stored `m_playerCurrentTrack`. Hence after any run of
ticks, poll answers and commands, a successful poll that reports a `ratingKey`
other than the stored one leaves `m_newTrack` true; and once the sessions
handler has stored the `ratingKey` of the entry it selects, a successful poll
that reports this `ratingKey` leaves `m_newTrack` false. -/
theorem poll_never_stores_track (d : MediaPlayerDef) (w : World) :
    (∀ statusCode doc,
      (pollReply statusCode doc w).self.m_playerCurrentTrack = w.self.m_playerCurrentTrack)
    ∧ (∀ timelines n, lastActive timelines = some n →
        ((pollReply 200 (some timelines) w).self.m_newTrack = true
          ↔ n.attribute "ratingKey" ≠ w.self.m_playerCurrentTrack))
    ∧ (∀ sts, (runSteps d sts w).self.m_playerCurrentTrack = w.self.m_playerCurrentTrack)
    ∧ (∀ sts timelines n, lastActive timelines = some n →
        n.attribute "ratingKey" ≠ w.self.m_playerCurrentTrack →
        (pollReply 200 (some timelines) (runSteps d sts w)).self.m_newTrack = true)
    ∧ (∀ url map, ((map.value "MediaContainer").toMap.value "Metadata").toList ≠ [] →
        ∃ p w1,
          (((map.value "MediaContainer").toMap.value "Metadata").toList)[
            (choosePlayer ((map.value "MediaContainer").toMap.value "Metadata").toList w).1]?
              = some p
          ∧ onSessions url map url w = some w1
          ∧ w1.self.m_playerCurrentTrack = (p.toMap.value "ratingKey").toString
          ∧ ∀ sts timelines n, lastActive timelines = some n →
              n.attribute "ratingKey" = (p.toMap.value "ratingKey").toString →
              (pollReply 200 (some timelines) (runSteps d sts w1)).self.m_newTrack = false) := by
  refine ⟨fun statusCode doc => pollReply_currentTrack statusCode doc w,
    fun timelines n hn => pollReply_newTrack timelines n w hn,
    fun sts => runSteps_currentTrack d sts w, ?_, ?_⟩
  · intro sts timelines n hn hr
    rw [pollReply_newTrack timelines n _ hn, runSteps_currentTrack]
    exact hr
  · intro url map hne
    obtain ⟨p, w1, hp, h, _, hst⟩ := onSessions_track w url map hne
    refine ⟨p, w1, hp, h, hst, ?_⟩
    intro sts timelines n hn hr
    have hiff := pollReply_newTrack timelines n (runSteps d sts w1) hn
    rw [runSteps_currentTrack, hst] at hiff
    cases hnt : (pollReply 200 (some timelines) (runSteps d sts w1)).self.m_newTrack with
    | false => rfl
    | true => exact absurd hr (hiff.mp hnt)

/-- C28 on the sample: track 0 is stored and the player reports track 11; after
a tick, a successful poll, a skip command and another tick, the next successful
poll still leaves `m_newTrack` true. -/
theorem poll_never_stores_track_witness :
    (pollReply 200 (some playingTimeline)
      (runSteps sampleCommands
        [Step.tick, Step.pollAnswer 200 (some playingTimeline),
         Step.command "media_player" "plex" sampleCommands.C_NEXT QVariant.invalid, Step.tick]
        readyWorld)).self.m_newTrack = true :=
  (poll_never_stores_track sampleCommands readyWorld).2.2.2.1
    [Step.tick, Step.pollAnswer 200 (some playingTimeline),
     Step.command "media_player" "plex" sampleCommands.C_NEXT QVariant.invalid, Step.tick]
    playingTimeline
    [("type", "music"), ("state", "playing"), ("volume", "80"), ("playQueueID", "5"),
     ("duration", "200500"), ("time", "3000"), ("ratingKey", "11")]
    (by decide) (by decide)

end Plex

namespace Plex

/-! ## The published state -/

/-- With an entity, a successful poll with a parsable body publishes volume,
state, duration and position of the object as the loop left it. -/
theorem pollReply_trace (timelines : List Timeline) (w : World) (e : Entity)
    (he : w.entity = some e) :
    (pollReply 200 (some timelines) w).trace
      = w.trace ++ pollAttributes (pollReply 200 (some timelines) w).self := by
  rw [pollReply_ok_self]
  unfold pollReply
  by_cases hs : (timelines.foldl applyTimeline w.self).m_playerState = "playing" <;>
    simp [updateAttrByIndex, he, World.setSelf, pollAttributes, publishedState, hs]

theorem clearPlayer_trace (w : World) (e : Entity) (he : w.entity = some e) :
    (clearPlayer w).trace
      = w.trace ++
        [Effect.updateAttr Attributes.MEDIAIMAGE (AttrValue.text ""),
         Effect.updateAttr Attributes.SOURCE (AttrValue.text ""),
         Effect.updateAttr Attributes.MEDIATITLE (AttrValue.text ""),
         Effect.updateAttr Attributes.MEDIAARTIST (AttrValue.text ""),
         Effect.updateAttr Attributes.MEDIADURATION (AttrValue.number 0),
         Effect.updateAttr Attributes.MEDIAPROGRESS (AttrValue.number 0),
         Effect.updateAttr Attributes.STATE (AttrValue.state States.OFF)] := by
  simp [clearPlayer, updateAttrByIndex, he, World.setSelf]

/-- C30: the state published for a state text is PLAYING exactly for
`"playing"` and IDLE for every other text, never OFF. On a sessions answer with
sessions the handler publishes, for the entry `p` it selects, the state of the
stored `m_playerState` (the `state` of the `Player` of `p`), and the duration
and the `viewOffset` of `p` divided by 1000 with truncation; on a successful
poll the handler publishes the state of the stored `m_playerState` and the
stored `m_playerDuration` and `m_playerTime` divided by 1000 with truncation;
on a sessions answer without sessions the handler publishes OFF if
`m_playerConnected` is true and nothing otherwise. -/
theorem published_state_mapping (w : World) (e : Entity) (he : w.entity = some e) :
    (∀ s : String, (publishedState s = States.PLAYING ↔ s = "playing")
      ∧ (s ≠ "playing" → publishedState s = States.IDLE)
      ∧ publishedState s ≠ States.OFF)
    ∧ (∀ (url : String) (map : QVariantMap) (p : QVariant),
        (((map.value "MediaContainer").toMap.value "Metadata").toList)[
          (choosePlayer ((map.value "MediaContainer").toMap.value "Metadata").toList w).1]?
            = some p →
        ∃ w1, onSessions url map url w = some w1
          ∧ w1.self.m_playerState = ((sessionPlayer p).value "state").toString
          ∧ newAttributes w w1
            = [(Attributes.MEDIAIMAGE, AttrValue.text (w.self.m_serverURL ++ sessionImage p)),
               (Attributes.SOURCE, AttrValue.text ((sessionPlayer p).value "title").toString),
               (Attributes.MEDIATITLE, AttrValue.text (p.toMap.value "title").toString),
               (Attributes.MEDIAARTIST, AttrValue.text (trackParent p)),
               (Attributes.STATE, AttrValue.state (publishedState w1.self.m_playerState)),
               (Attributes.MEDIADURATION,
                 AttrValue.number (Int.tdiv (p.toMap.value "duration").toInt 1000)),
               (Attributes.MEDIAPROGRESS,
                 AttrValue.number (Int.tdiv (p.toMap.value "viewOffset").toInt 1000))]
          ∧ (Attributes.STATE, AttrValue.state States.OFF) ∉ newAttributes w w1)
    ∧ (∀ timelines : List Timeline,
        newAttributes w (pollReply 200 (some timelines) w)
          = [(Attributes.VOLUME,
                AttrValue.number (pollReply 200 (some timelines) w).self.m_playerVol),
             (Attributes.STATE, AttrValue.state
                (publishedState (pollReply 200 (some timelines) w).self.m_playerState)),
             (Attributes.MEDIADURATION, AttrValue.number
                (Int.tdiv (pollReply 200 (some timelines) w).self.m_playerDuration 1000)),
             (Attributes.MEDIAPROGRESS, AttrValue.number
                (Int.tdiv (pollReply 200 (some timelines) w).self.m_playerTime 1000))]
        ∧ (Attributes.STATE, AttrValue.state States.OFF)
            ∉ newAttributes w (pollReply 200 (some timelines) w))
    ∧ (∀ (url : String) (map : QVariantMap),
        (map.value "MediaContainer").toMap.contains "Metadata" = false →
        ∃ w1, onSessions url map url w = some w1
          ∧ (w.self.m_playerConnected = true →
              (Attributes.STATE, AttrValue.state States.OFF) ∈ newAttributes w w1)
          ∧ (w.self.m_playerConnected = false → newAttributes w w1 = [])) := by
  have hoff : ∀ s : String, publishedState s ≠ States.OFF := by
    intro s
    unfold publishedState
    by_cases h : s = "playing" <;> simp [h]
  refine ⟨?_, ?_, ?_, ?_⟩
  · intro s
    refine ⟨?_, ?_, hoff s⟩
    · unfold publishedState
      by_cases h : s = "playing" <;> simp [h]
    · intro h
      unfold publishedState
      simp [h]
  · intro url map p hp
    obtain ⟨w1, h, htr, _, _, hst, _⟩ := onSessions_publishes url map w e p he hp
    have hattr : newAttributes w w1
        = [(Attributes.MEDIAIMAGE, AttrValue.text (w.self.m_serverURL ++ sessionImage p)),
           (Attributes.SOURCE, AttrValue.text ((sessionPlayer p).value "title").toString),
           (Attributes.MEDIATITLE, AttrValue.text (p.toMap.value "title").toString),
           (Attributes.MEDIAARTIST, AttrValue.text (trackParent p)),
           (Attributes.STATE, AttrValue.state (publishedState w1.self.m_playerState)),
           (Attributes.MEDIADURATION,
             AttrValue.number (Int.tdiv (p.toMap.value "duration").toInt 1000)),
           (Attributes.MEDIAPROGRESS,
             AttrValue.number (Int.tdiv (p.toMap.value "viewOffset").toInt 1000))] := by
      rw [newAttributes_of_trace w w1 _ (by rw [htr, List.append_assoc]), hst]
      by_cases hs : w.self.m_speakerRequest = true <;>
        simp [hs, sessionAttributes, Effect.attr?]
    refine ⟨w1, h, hst, hattr, ?_⟩
    rw [hattr]
    simp only [List.mem_cons, Prod.mk.injEq, AttrValue.state.injEq, List.mem_singleton,
      List.not_mem_nil, reduceCtorEq, false_and, true_and, false_or, or_false]
    exact fun h0 => hoff _ h0.symm
  · intro timelines
    have hattr : newAttributes w (pollReply 200 (some timelines) w)
        = [(Attributes.VOLUME,
              AttrValue.number (pollReply 200 (some timelines) w).self.m_playerVol),
           (Attributes.STATE, AttrValue.state
              (publishedState (pollReply 200 (some timelines) w).self.m_playerState)),
           (Attributes.MEDIADURATION, AttrValue.number
              (Int.tdiv (pollReply 200 (some timelines) w).self.m_playerDuration 1000)),
           (Attributes.MEDIAPROGRESS, AttrValue.number
              (Int.tdiv (pollReply 200 (some timelines) w).self.m_playerTime 1000))] := by
      rw [newAttributes_of_trace w _ _ (pollReply_trace timelines w e he)]
      simp [pollAttributes, Effect.attr?]
    refine ⟨hattr, ?_⟩
    rw [hattr]
    simp only [List.mem_cons, Prod.mk.injEq, AttrValue.state.injEq, List.mem_singleton,
      List.not_mem_nil, reduceCtorEq, false_and, true_and, false_or, or_false]
    exact fun h0 => hoff _ h0.symm
  · intro url map hc
    by_cases hpc : w.self.m_playerConnected = true
    · refine ⟨clearPlayer w, ?_, ?_, ?_⟩
      · unfold onSessions
        simp [hc, hpc]
      · intro _
        rw [newAttributes_of_trace w _ _ (clearPlayer_trace w e he)]
        simp [Effect.attr?]
      · intro hf
        rw [hpc] at hf
        exact absurd hf (by decide)
    · refine ⟨w, ?_, ?_, ?_⟩
      · unfold onSessions
        simp [hc, hpc]
      · intro ht
        exact absurd ht hpc
      · intro _
        simp [newAttributes]

/-- C30 on the sample: a paused session is published as IDLE with 200 s of
duration and 1 s of position, for 200500 ms and 1999 ms. -/
theorem published_state_mapping_witness :
    ∃ w1, onSessions sessionsURL
        (sampleSessions [sampleSession "p1" "10.0.0.7" "11" "paused"]) sessionsURL readyWorld
          = some w1
      ∧ (newAttributes readyWorld w1).drop 4
        = [(Attributes.STATE, AttrValue.state States.IDLE),
           (Attributes.MEDIADURATION, AttrValue.number 200),
           (Attributes.MEDIAPROGRESS, AttrValue.number 1)] :=
  let ⟨w1, h, hst, hattr, _⟩ :=
    (published_state_mapping readyWorld sampleEntity rfl).2.1 sessionsURL
      (sampleSessions [sampleSession "p1" "10.0.0.7" "11" "paused"])
      (sampleSession "p1" "10.0.0.7" "11" "paused") rfl
  ⟨w1, h, (congrArg (List.drop 4) (hattr.trans (by rw [hst]))).trans (by decide)⟩

end Plex

namespace Plex

/-! ## Answers that arrive while another lambda waits -/

/-- C6, the failing input: a tick sends the sessions query and the play command
for playlist 42 sends the POST to `/playQueues`, so two lambdas wait. If the
POST answer comes first, the GET to `playMedia` is sent. If the sessions answer
comes first, both lambdas run, the one of the play command finds another URL
and still ends with `context->deleteLater()` (plexmedia.cpp 716), and no lambda
waits any more: the POST answer with play queue 9 then sends nothing. And when
two play commands are pending, one POST answer sends two GETs to `playMedia`. -/
theorem play_queue_answer_lost :
    (playlistPendingRun.handlers.map Handler.url, sentIds playlistPendingRun)
      = (["http://10.0.0.2:32400/status/sessions", "http://10.0.0.2:32400/playQueues"],
         [0, 1, 2])
    ∧ (postReply "http://10.0.0.2:32400/playQueues" 200 (Body.json playQueueAnswer)
          playlistPendingRun).map
        (fun w => (newRequests playlistPendingRun w).map (fun r => (r.method, r.url)))
      = some [(Method.GET, "http://10.0.0.7:32500/player/playback/playMedia")]
    ∧ (getReply sessionsURL (Body.json (QVariant.map oneSession)) playlistPendingRun).bind
        (fun w3 =>
          (postReply "http://10.0.0.2:32400/playQueues" 200 (Body.json playQueueAnswer) w3).map
            (fun w4 => (w3.handlers.length, newRequests playlistPendingRun w4)))
      = some (0, [])
    ∧ (postReply "http://10.0.0.2:32400/playQueues" 200 (Body.json playQueueAnswer)
          (sendCommand sampleCommands "media_player" "plex" sampleCommands.C_PLAY_ITEM
            playlistParam playlistDispatched)).map
        (fun w => (newRequests
          (sendCommand sampleCommands "media_player" "plex" sampleCommands.C_PLAY_ITEM
            playlistParam playlistDispatched) w).map (fun r => (r.method, r.url, r.commandId)))
      = some [(Method.GET, "http://10.0.0.7:32500/player/playback/playMedia", 2),
              (Method.GET, "http://10.0.0.7:32500/player/playback/playMedia", 3)] := by
  refine ⟨?_, ?_, ?_, ?_⟩ <;> decide

/-- The same loss in the tick itself: after the first discovery a tick sends the
sessions query and the lookup to `/clients` one after the other. When the
sessions answer comes first, the lambda of the lookup is gone and the answer
that lists the player leaves the port at `"0"`; when the answer to the lookup
comes first, the port is stored. -/
theorem clients_answer_lost :
    discoveredRun.bind (fun w =>
      (getReply sessionsURL (Body.json (QVariant.map oneSession)) (getCurrentPlayer w)).bind
        (fun w1 =>
          (getReply "http://10.0.0.2:32400/clients" (Body.json clientsAnswer) w1).map
            (fun w2 => ((getCurrentPlayer w).handlers.map Handler.url, w1.handlers.length,
              w2.self.m_playerPort))))
      = some (["http://10.0.0.2:32400/status/sessions", "http://10.0.0.2:32400/clients"], 0, "0")
    ∧ discoveredRun.bind (fun w =>
        (getReply "http://10.0.0.2:32400/clients" (Body.json clientsAnswer)
          (getCurrentPlayer w)).map (fun w2 => w2.self.m_playerPort))
      = some "32433" := by
  constructor <;> decide

end Plex
